import Mathlib

/-!
# Fast-path construction of arguments objects

A shallow embedding of `src/builtins/builtins-arguments-gen.cc`
(`ArgumentsBuiltinsAssembler`): the run-time behaviour of the code that the
three builders `EmitFastNewStrictArguments`, `EmitFastNewSloppyArguments` and
`EmitFastNewRestParameter` emit, as functions on an explicit machine state.

* Machine words (`IntPtrT`, `BInt`, raw pointers, byte offsets) are `Int`.
  Argument counts are bounded by the size of the stack (`Code::kMaxArguments`),
  so no operation of the builders wraps around; the counts are signed, as
  `rest_count` may be negative.
* The constants of the object layout (`kTaggedSize`, `JSArray::kSize`, ...)
  are declared outside this file of the source; they are parameters
  (`Layout`), and what the builders need of them is `Layout.WellFormed`.
* The heap is a map from byte addresses to the tagged word stored there;
  `none` is memory that has not been written.  The stack of the caller is a
  separate, read-only memory.
* Every allocation, store, frame load and runtime call is also recorded in a
  trace, most recent event first.
* Loops take fuel: `none` means that the fuel ran out (or that a debug
  assertion failed).
-/

namespace ArgumentsBuiltins

/-! ## Data model -/

/-- Tagged values, as far as the builders distinguish them: small integers,
pointers to heap objects, and the root constants the builders store. -/
inductive Value where
  | Smi (value : Int)
  | HeapObject (pointer : Int)
  | EmptyFixedArray
  | FixedArrayMap
  | SloppyArgumentsElementsMap
  | TheHole
  deriving DecidableEq, Repr

/-- The runtime functions the builders fall back to. -/
inductive RuntimeFunctionId where
  | kNewRestParameter
  | kNewStrictArguments
  | kNewSloppyArguments
  deriving DecidableEq, Repr

/-- The native-context slots the builders read their maps from. -/
inductive ContextField where
  | STRICT_ARGUMENTS_MAP_INDEX
  | SLOPPY_ARGUMENTS_MAP_INDEX
  | FAST_ALIASED_ARGUMENTS_MAP_INDEX
  | JS_ARRAY_PACKED_ELEMENTS_MAP_INDEX
  deriving DecidableEq, Repr

/-- The elements kinds passed to `ElementOffsetFromIndex`. -/
inductive ElementsKind where
  | PACKED_ELEMENTS
  | SYSTEM_POINTER_ELEMENTS
  deriving DecidableEq, Repr

/-- The two ways `BuildFastLoop` advances its index. -/
inductive IndexAdvanceMode where
  | kPre
  | kPost
  deriving DecidableEq, Repr

/-- What the generated code does to the machine, one entry per operation. -/
inductive Event where
  | allocate (size : Int) (result : Int)
  | store (address : Int) (value : Value)
  | load (address : Int)
  | callRuntime (id : RuntimeFunctionId) (context function : Value)
  deriving DecidableEq, Repr

/-- A count operand of `AllocateArgumentsObject`: either a constant known when
the code is generated (`IntPtrOrSmiConstant`) or a value only known at run
time.  `IsIntPtrOrSmiConstantZero` tells the two apart. -/
inductive Node where
  | constant (value : Int)
  | dynamic (value : Int)
  deriving DecidableEq, Repr

/-- The run-time value of a count operand. -/
def Node.value : Node → Int
  | Node.constant v => v
  | Node.dynamic v => v

/-- The constants of the object layout and of the heap that the builders use
and that are declared outside `builtins-arguments-gen.cc`; they are parameters
of the embedding.  `FixedArray_kHeaderSize` is also
`FixedArrayBase::kHeaderSize`; `JSArray_kLengthOffset`,
`JSArray_kElementsOffset` and `JSArray_kPropertiesOrHashOffset` are the
offsets the source uses for all three kinds of object. -/
structure Layout where
  kTaggedSize : Int
  kSystemPointerSize : Int
  kHeapObjectTag : Int
  HeapObject_kMapOffset : Int
  JSArray_kPropertiesOrHashOffset : Int
  JSArray_kElementsOffset : Int
  JSArray_kLengthOffset : Int
  JSArray_kSize : Int
  JSStrictArgumentsObject_kSize : Int
  JSSloppyArgumentsObject_kCalleeOffset : Int
  JSSloppyArgumentsObject_kSize : Int
  FixedArray_kLengthOffset : Int
  FixedArray_kHeaderSize : Int
  MIN_CONTEXT_SLOTS : Int
  kMaxRegularHeapObjectSize : Int
  kFixedSlotCountAboveFp : Int
  deriving Repr

/-- What the builders rely on about the layout constants: slots have a
positive width; the header fields map, properties, elements, length (and
callee for sloppy arguments) follow each other without overlap inside each
object size; a `FixedArray` header holds its map and its length; and an object
with an empty backing store (and an empty alias map) is a regular heap
object. -/
structure Layout.WellFormed (c : Layout) : Prop where
  tagged_pos : 0 < c.kTaggedSize
  map_nonneg : 0 ≤ c.HeapObject_kMapOffset
  map_properties : c.HeapObject_kMapOffset + c.kTaggedSize ≤ c.JSArray_kPropertiesOrHashOffset
  properties_elements : c.JSArray_kPropertiesOrHashOffset + c.kTaggedSize ≤ c.JSArray_kElementsOffset
  elements_length : c.JSArray_kElementsOffset + c.kTaggedSize ≤ c.JSArray_kLengthOffset
  length_array : c.JSArray_kLengthOffset + c.kTaggedSize ≤ c.JSArray_kSize
  length_strict : c.JSArray_kLengthOffset + c.kTaggedSize ≤ c.JSStrictArgumentsObject_kSize
  length_callee : c.JSArray_kLengthOffset + c.kTaggedSize ≤ c.JSSloppyArgumentsObject_kCalleeOffset
  callee_sloppy : c.JSSloppyArgumentsObject_kCalleeOffset + c.kTaggedSize ≤ c.JSSloppyArgumentsObject_kSize
  strict_sloppy : c.JSStrictArgumentsObject_kSize ≤ c.JSSloppyArgumentsObject_kSize
  pointer_pos : 0 < c.kSystemPointerSize
  fixed_map_length : c.HeapObject_kMapOffset + c.kTaggedSize ≤ c.FixedArray_kLengthOffset
  fixed_length_header : c.FixedArray_kLengthOffset + c.kTaggedSize ≤ c.FixedArray_kHeaderSize
  array_regular : c.JSArray_kSize + c.FixedArray_kHeaderSize ≤ c.kMaxRegularHeapObjectSize
  sloppy_regular : c.JSSloppyArgumentsObject_kSize + c.FixedArray_kHeaderSize * 2 ≤ c.kMaxRegularHeapObjectSize

/-- A layout for examples: the values of a 64-bit build without pointer
compression. -/
def Layout.x64 : Layout where
  kTaggedSize := 8
  kSystemPointerSize := 8
  kHeapObjectTag := 1
  HeapObject_kMapOffset := 0
  JSArray_kPropertiesOrHashOffset := 8
  JSArray_kElementsOffset := 16
  JSArray_kLengthOffset := 24
  JSArray_kSize := 32
  JSStrictArgumentsObject_kSize := 32
  JSSloppyArgumentsObject_kCalleeOffset := 32
  JSSloppyArgumentsObject_kSize := 40
  FixedArray_kLengthOffset := 8
  FixedArray_kHeaderSize := 16
  MIN_CONTEXT_SLOTS := 4
  kMaxRegularHeapObjectSize := 131072
  kFixedSlotCountAboveFp := 2

/-- The heap: the tagged word stored at each byte address (`none` where
nothing has been written) and the allocation top. -/
structure Heap where
  mem : Int → Option Value
  top : Int

/-- The machine state: the heap and the trace of what has been done so far,
most recent event first. -/
structure State where
  heap : Heap
  trace : List Event

/-- What `GetArgumentsFrameAndCount` returns. -/
structure TorqueStructArgumentsInfo where
  frame : Int
  argument_count : Int
  formal_parameter_count : Int
  deriving DecidableEq, Repr

/-- The external collaborators of the builders: the frame-info resolver, the
lookups in the (native) context, the slow general construction routines, and
the read-only stack memory of the caller. -/
structure Env where
  GetArgumentsFrameAndCount : Value → Value → TorqueStructArgumentsInfo
  LoadNativeContext : Value → Value
  LoadContextElement : Value → ContextField → Value
  Runtime : RuntimeFunctionId → Value → Value → Heap → Value × Heap
  stack : Int → Value

/-! ## Primitives of the code-stub assembler -/

/-- Modelled from the spec: `CodeStubAssembler::Allocate` is not under `src/`.
The bump-allocation primitive, assumed to succeed: the new object starts at
the allocation top, which moves up by `size`; the result is the tagged
pointer. -/
def Allocate (c : Layout) (size : Int) (s : State) : Int × State :=
  (s.heap.top + c.kHeapObjectTag,
    { heap := { mem := s.heap.mem, top := s.heap.top + size },
      trace := Event.allocate size (s.heap.top + c.kHeapObjectTag) :: s.trace })

/-- A store of one tagged word at a byte address. -/
def Store (address : Int) (value : Value) (s : State) : State :=
  { heap := { mem := fun a => if a = address then some value else s.heap.mem a,
              top := s.heap.top },
    trace := Event.store address value :: s.trace }

/-- A load of one tagged word from the stack of the caller (`Load`,
`LoadBufferObject`). -/
def Load (env : Env) (address : Int) (s : State) : Value × State :=
  (env.stack address, { heap := s.heap, trace := Event.load address :: s.trace })

/-- Modelled from the spec: `CodeStubAssembler::StoreObjectFieldNoWriteBarrier`
is not under `src/`.  The store of `value` into a field of `object`: the
field lies `offset` bytes after the untagged address of the object. -/
def StoreObjectFieldNoWriteBarrier (c : Layout) (object offset : Int) (value : Value)
    (s : State) : State :=
  Store (object + offset - c.kHeapObjectTag) value s

/-- Modelled from the spec: `CodeStubAssembler::StoreObjectField` is not under
`src/`.  As the store without the write barrier, which does not change the
heap contents. -/
def StoreObjectField (c : Layout) (object offset : Int) (value : Value) (s : State) : State :=
  Store (object + offset - c.kHeapObjectTag) value s

/-- Modelled from the spec: `CodeStubAssembler::StoreMapNoWriteBarrier` is not
under `src/`.  The store of the type descriptor of `object`. -/
def StoreMapNoWriteBarrier (c : Layout) (object : Int) (map : Value) (s : State) : State :=
  StoreObjectFieldNoWriteBarrier c object c.HeapObject_kMapOffset map s

/-- Modelled from the spec: `CodeStubAssembler::StoreNoWriteBarrier` is not
under `src/`.  The raw store of a tagged word at `base + offset`. -/
def StoreNoWriteBarrier (base offset : Int) (value : Value) (s : State) : State :=
  Store (base + offset) value s

/-- Modelled from the spec: `CodeStubAssembler::InnerAllocate` is not under
`src/`.  A pointer `offset` bytes inside an allocation already made. -/
def InnerAllocate (previous offset : Int) : Int :=
  previous + offset

/-- The width of one element of the given kind. -/
def ElementSize (c : Layout) : ElementsKind → Int
  | ElementsKind.PACKED_ELEMENTS => c.kTaggedSize
  | ElementsKind.SYSTEM_POINTER_ELEMENTS => c.kSystemPointerSize

/-- Modelled from the spec: `CodeStubAssembler::ElementOffsetFromIndex` is not
under `src/`.  The byte offset of element `index` after `base_size` bytes. -/
def ElementOffsetFromIndex (c : Layout) (index : Int) (kind : ElementsKind) (base_size : Int) :
    Int :=
  base_size + index * ElementSize c kind

/-- Modelled from the spec: `FixedArray::OffsetOfElementAt` is not under `src/`.
The byte offset of slot `index` of a backing store: its header, then one
slot after the other. -/
def OffsetOfElementAt (c : Layout) (index : Int) : Int :=
  c.FixedArray_kHeaderSize + index * c.kTaggedSize

/-- Modelled from the spec: `CodeStubAssembler::StoreFixedArrayElement` is not
under `src/`.  The store of `value` into slot `index` of `array`. -/
def StoreFixedArrayElement (c : Layout) (array index : Int) (value : Value) (s : State) : State :=
  Store (array + (OffsetOfElementAt c index - c.kHeapObjectTag)) value s

/-- Modelled from the spec: `CodeStubAssembler::IsIntPtrOrSmiConstantZero` is
not under `src/`.  A check made when the code is generated, so it only holds
of a constant operand (the genuinely empty case). -/
def IsIntPtrOrSmiConstantZero : Node → Bool
  | Node.constant v => decide (v = 0)
  | Node.dynamic _ => false

/-- Modelled from the spec: `CodeStubAssembler::ParameterToTagged` and
`BIntToSmi` are not under `src/`.  The tagged integer of a count. -/
def ParameterToTagged (value : Int) : Value :=
  Value.Smi value

/-- Modelled from the spec: `CodeStubAssembler::GotoIfFixedArraySizeDoesntFitInNewSpace`
is not under `src/`.  The size-ceiling check: the branch to the slow path is
taken when the element count exceeds
`(kMaxRegularHeapObjectSize - base_size) / kTaggedSize`, a division of C++
`int`s. -/
def FixedArraySizeDoesntFitInNewSpace (c : Layout) (element_count base_size : Int) : Bool :=
  decide (element_count > Int.tdiv (c.kMaxRegularHeapObjectSize - base_size) c.kTaggedSize)

/-- Modelled from the spec: `CodeStubAssembler::CallRuntime` is not under
`src/`.  The slow collaborator gets the heap as it is, and its result and
its heap are taken over; the call itself is recorded. -/
def CallRuntime (env : Env) (id : RuntimeFunctionId) (context function : Value) (s : State) :
    Value × State :=
  ((env.Runtime id context function s.heap).1,
    { heap := (env.Runtime id context function s.heap).2,
      trace := Event.callRuntime id context function :: s.trace })

/-- Modelled from the spec: the loop of `BuildFastLoop` after its entry check
(not under `src/`): advance the index
(before or after the body), run the body, and go round again until the index
equals `end_index`. -/
def BuildFastLoop.loop {σ : Type} (body : Int → σ → σ) (end_index increment : Int)
    (advance_mode : IndexAdvanceMode) : Nat → Int → σ → Option (Int × σ)
  | 0, _, _ => none
  | fuel + 1, var, vars =>
    let var1 := if advance_mode = IndexAdvanceMode.kPre then var + increment else var
    let vars1 := body var1 vars
    let var2 := if advance_mode = IndexAdvanceMode.kPost then var1 + increment else var1
    if var2 ≠ end_index then BuildFastLoop.loop body end_index increment advance_mode fuel var2 vars1
    else some (var2, vars1)

/-- Modelled from the spec: `CodeStubAssembler::BuildFastLoop` is not under
`src/`.  The loop runs its body for index values from `start_index` in steps
of `increment` until the index equals `end_index`, and not at all when they
are equal at entry; it returns the final index.  `vars` are the variables the
body changes. -/
def BuildFastLoop {σ : Type} (fuel : Nat) (vars : σ) (start_index end_index : Int)
    (body : Int → σ → σ) (increment : Int) (advance_mode : IndexAdvanceMode) :
    Option (Int × σ) :=
  if start_index = end_index then some (start_index, vars)
  else BuildFastLoop.loop body end_index increment advance_mode fuel start_index vars

/-- Modelled from the spec: the class `CodeStubArguments` is not under `src/`.
The view of the actual arguments of a frame: `base` is the address of
argument 0, and argument `i` lies `i` pointer-sized slots below it. -/
structure CodeStubArguments where
  argc : Int
  fp : Int
  base : Int
  deriving Repr

/-- Modelled from the spec: the constructor
`CodeStubArguments(assembler, argc, fp)` is not under `src/`. -/
def CodeStubArguments.new (c : Layout) (argc fp : Int) : CodeStubArguments :=
  { argc := argc, fp := fp,
    base := fp + ElementOffsetFromIndex c argc ElementsKind.SYSTEM_POINTER_ELEMENTS
      ((c.kFixedSlotCountAboveFp - 1) * c.kSystemPointerSize) }

/-- Modelled from the spec: `CodeStubArguments::AtIndexPtr` is not under
`src/`.  The address of argument `index`. -/
def CodeStubArguments.AtIndexPtr (c : Layout) (arguments : CodeStubArguments) (index : Int) :
    Int :=
  arguments.base + ElementOffsetFromIndex c (0 - index) ElementsKind.SYSTEM_POINTER_ELEMENTS 0

/-- Modelled from the spec: `CodeStubArguments::AtIndex` is not under `src/`.
Actual argument `index` of the frame. -/
def CodeStubArguments.AtIndex (c : Layout) (env : Env) (arguments : CodeStubArguments)
    (index : Int) : Value :=
  env.stack (arguments.AtIndexPtr c index)

/-- Modelled from the spec: the body of the loop of
`CodeStubArguments::ForEach` (not under `src/`): load the argument at
`current` and hand it to the body given by the caller. -/
def CodeStubArguments.ForEach.body {α : Type} (env : Env)
    (body : Value → State × α → State × α) (current : Int) (v : State × α) : State × α :=
  body (Load env current v.1).1 ((Load env current v.1).2, v.2)

/-- Modelled from the spec: `CodeStubArguments::ForEach(vars, body, first)` is
not under `src/`.  The body is run
on the arguments `first`, `first + 1`, ... up to the last one, in this
order. -/
def CodeStubArguments.ForEach {α : Type} (c : Layout) (env : Env) (fuel : Nat)
    (arguments : CodeStubArguments) (vars : State × α)
    (body : Value → State × α → State × α) (first : Int) : Option (Int × (State × α)) :=
  let start := arguments.base
    - ElementOffsetFromIndex c first ElementsKind.SYSTEM_POINTER_ELEMENTS 0
  let end_ := arguments.base
    - ElementOffsetFromIndex c arguments.argc ElementsKind.SYSTEM_POINTER_ELEMENTS 0
  BuildFastLoop fuel vars start end_ (CodeStubArguments.ForEach.body env body)
    (-c.kSystemPointerSize) IndexAdvanceMode.kPost

/-- Modelled from the spec: `CodeStubAssembler::LoadObjectField` is not under
`src/`.  The word in the field of `object` at `offset`, on a heap. -/
def LoadObjectField (c : Layout) (h : Heap) (object offset : Int) : Option Value :=
  h.mem (object + offset - c.kHeapObjectTag)

/-- Modelled from the spec: `CodeStubAssembler::LoadFixedArrayElement` is not
under `src/`.  The word in slot `index` of `array`, on a heap. -/
def LoadFixedArrayElement (c : Layout) (h : Heap) (array index : Int) : Option Value :=
  h.mem (array + (OffsetOfElementAt c index - c.kHeapObjectTag))

/-- The effect of `n` rounds of the loop of `BuildFastLoop` on the variables
of the body, the index starting at `var`. -/
def BuildFastLoop.rounds {σ : Type} (body : Int → σ → σ) (increment : Int)
    (advance_mode : IndexAdvanceMode) : Nat → Int → σ → σ
  | 0, _, vars => vars
  | n + 1, var, vars =>
    BuildFastLoop.rounds body increment advance_mode n (var + increment)
      (body (if advance_mode = IndexAdvanceMode.kPre then var + increment else var) vars)

/-! ## The functions of `builtins-arguments-gen.cc` -/

/-- The function `ArgumentsBuiltinsAssembler::AllocateArgumentsObject`: one
allocation for the object, its elements and (when `parameter_map_count` is
given) its parameter map, and the stores that initialise their headers.
Returns the object, the elements (if any) and the parameter map (if any). -/
def AllocateArgumentsObject (c : Layout) (map : Value) (arguments_count : Node)
    (parameter_map_count : Option Node) (base_size : Int) (s : State) :
    Option ((Int × Option Int × Option Int) × State) :=
  let elements_offset := base_size
  let element_count := arguments_count.value
  let base_size := if parameter_map_count.isSome then base_size + c.FixedArray_kHeaderSize
    else base_size
  let element_count := match parameter_map_count with
    | some count => element_count + count.value
    | none => element_count
  let empty := IsIntPtrOrSmiConstantZero arguments_count
  -- DCHECK_IMPLIES(empty, parameter_map_count == nullptr)
  if empty && parameter_map_count.isSome then none
  else
    let size := if empty then base_size
      else ElementOffsetFromIndex c element_count ElementsKind.PACKED_ELEMENTS
        (base_size + c.FixedArray_kHeaderSize)
    let result := (Allocate c size s).1
    let s := (Allocate c size s).2
    let s := StoreMapNoWriteBarrier c result map s
    let empty_fixed_array := Value.EmptyFixedArray
    let s := StoreObjectField c result c.JSArray_kPropertiesOrHashOffset empty_fixed_array s
    let smi_arguments_count := ParameterToTagged arguments_count.value
    let s := StoreObjectFieldNoWriteBarrier c result c.JSArray_kLengthOffset smi_arguments_count s
    let arguments := InnerAllocate result elements_offset
    let s := if empty then s
      else StoreMapNoWriteBarrier c arguments Value.FixedArrayMap
        (StoreObjectFieldNoWriteBarrier c arguments c.FixedArray_kLengthOffset
          smi_arguments_count s)
    match parameter_map_count with
    | some count =>
      let parameter_map_offset := ElementOffsetFromIndex c arguments_count.value
        ElementsKind.PACKED_ELEMENTS c.FixedArray_kHeaderSize
      let parameter_map := InnerAllocate arguments parameter_map_offset
      let s := StoreObjectFieldNoWriteBarrier c result c.JSArray_kElementsOffset
        (Value.HeapObject parameter_map) s
      let s := StoreMapNoWriteBarrier c parameter_map Value.SloppyArgumentsElementsMap s
      let s := StoreObjectFieldNoWriteBarrier c parameter_map c.FixedArray_kLengthOffset
        (ParameterToTagged count.value) s
      some ((result, some arguments, some parameter_map), s)
    | none =>
      if empty then
        some ((result, none, none),
          StoreObjectFieldNoWriteBarrier c result c.JSArray_kElementsOffset empty_fixed_array s)
      else
        some ((result, some arguments, none),
          StoreObjectFieldNoWriteBarrier c result c.JSArray_kElementsOffset
            (Value.HeapObject arguments) s)

/-- The body of the copy loop of `ConstructParametersObjectFromArgs`: store the
argument at `elements + offset` and move `offset` on by one slot.  The
variables are the state and `offset`. -/
def ConstructParametersObjectFromArgs.body (c : Layout) (elements : Int) (arg : Value)
    (v : State × Int) : State × Int :=
  (StoreNoWriteBarrier elements v.2 arg v.1, v.2 + c.kTaggedSize)

/-- The function `ArgumentsBuiltinsAssembler::ConstructParametersObjectFromArgs`:
allocate the object with `rest_count` elements and copy the arguments from
`first_arg` on into the elements, one slot after the other. -/
def ConstructParametersObjectFromArgs (c : Layout) (env : Env) (fuel : Nat) (map : Value)
    (frame_ptr arg_count first_arg : Int) (rest_count : Node) (base_size : Int) (s : State) :
    Option (Int × State) :=
  match AllocateArgumentsObject c map rest_count none base_size s with
  | some ((result, some elements, _), s) =>
    let arguments := CodeStubArguments.new c arg_count frame_ptr
    let offset := c.FixedArray_kHeaderSize - c.kHeapObjectTag
    match arguments.ForEach c env fuel (s, offset)
        (ConstructParametersObjectFromArgs.body c elements) first_arg with
    | some (_, v) => some (result, v.1)
    | none => none
  | _ => none

/-- The function `ArgumentsBuiltinsAssembler::EmitFastNewRestParameter`. -/
def EmitFastNewRestParameter (c : Layout) (env : Env) (fuel : Nat) (context function : Value)
    (s : State) : Option (Value × State) :=
  let zero := Node.constant 0
  let info := env.GetArgumentsFrameAndCount context function
  let rest_count := info.argument_count - info.formal_parameter_count
  let native_context := env.LoadNativeContext context
  let array_map := env.LoadContextElement native_context
    ContextField.JS_ARRAY_PACKED_ELEMENTS_MAP_INDEX
  if rest_count ≤ zero.value then
    -- no_rest_parameters
    match AllocateArgumentsObject c array_map zero none c.JSArray_kSize s with
    | some ((arguments, _, _), s) => some (Value.HeapObject arguments, s)
    | none => none
  else if FixedArraySizeDoesntFitInNewSpace c rest_count
      (c.JSArray_kSize + c.FixedArray_kHeaderSize) then
    -- runtime
    some (CallRuntime env RuntimeFunctionId.kNewRestParameter context function s)
  else
    match ConstructParametersObjectFromArgs c env fuel array_map info.frame
        info.argument_count info.formal_parameter_count (Node.dynamic rest_count)
        c.JSArray_kSize s with
    | some (result, s) => some (Value.HeapObject result, s)
    | none => none

/-- The function `ArgumentsBuiltinsAssembler::EmitFastNewStrictArguments`. -/
def EmitFastNewStrictArguments (c : Layout) (env : Env) (fuel : Nat) (context function : Value)
    (s : State) : Option (Value × State) :=
  let zero := Node.constant 0
  let info := env.GetArgumentsFrameAndCount context function
  if FixedArraySizeDoesntFitInNewSpace c info.argument_count
      (c.JSStrictArgumentsObject_kSize + c.FixedArray_kHeaderSize) then
    -- runtime
    some (CallRuntime env RuntimeFunctionId.kNewStrictArguments context function s)
  else
    let native_context := env.LoadNativeContext context
    let map := env.LoadContextElement native_context ContextField.STRICT_ARGUMENTS_MAP_INDEX
    if info.argument_count = zero.value then
      -- empty
      match AllocateArgumentsObject c map zero none c.JSStrictArgumentsObject_kSize s with
      | some ((arguments, _, _), s) => some (Value.HeapObject arguments, s)
      | none => none
    else
      match ConstructParametersObjectFromArgs c env fuel map info.frame info.argument_count
          zero.value (Node.dynamic info.argument_count) c.JSStrictArgumentsObject_kSize s with
      | some (result, s) => some (Value.HeapObject result, s)
      | none => none

/-- The body of the first loop of `EmitFastNewSloppyArguments` ("Fill in
non-mapped parameters"): move `current_argument` up by one pointer, load the
argument there and store it at `elements + offset`.  The variables are the
state and `current_argument`. -/
def EmitFastNewSloppyArguments.fillNonMapped (c : Layout) (env : Env) (elements : Int)
    (offset : Int) (v : State × Int) : State × Int :=
  let current_argument := v.2 + c.kSystemPointerSize
  let arg := (Load env (current_argument + 0) v.1).1
  let s := (Load env (current_argument + 0) v.1).2
  (StoreNoWriteBarrier elements offset arg s, current_argument)

/-- The body of the second loop of `EmitFastNewSloppyArguments` ("Fill in
mapped parameters"): store the hole at `elements + offset` and the tagged
`context_index` at `adjusted_map_array + offset`, then increment
`context_index`.  The variables are the state and `context_index`. -/
def EmitFastNewSloppyArguments.fillMapped (elements adjusted_map_array : Int)
    (the_hole : Value) (offset : Int) (v : State × Int) : State × Int :=
  let s := StoreNoWriteBarrier elements offset the_hole v.1
  let s := StoreNoWriteBarrier adjusted_map_array offset (ParameterToTagged v.2) s
  (s, v.2 + 1)

/-- The function `ArgumentsBuiltinsAssembler::EmitFastNewSloppyArguments`. -/
def EmitFastNewSloppyArguments (c : Layout) (env : Env) (fuel : Nat) (context function : Value)
    (s : State) : Option (Value × State) :=
  let zero := Node.constant 0
  let info := env.GetArgumentsFrameAndCount context function
  if info.argument_count = zero.value then
    -- empty
    let native_context := env.LoadNativeContext context
    let map := env.LoadContextElement native_context ContextField.SLOPPY_ARGUMENTS_MAP_INDEX
    match AllocateArgumentsObject c map zero none c.JSSloppyArgumentsObject_kSize s with
    | some ((arguments, _, _), s) =>
      some (Value.HeapObject arguments,
        StoreObjectFieldNoWriteBarrier c arguments c.JSSloppyArgumentsObject_kCalleeOffset
          function s)
    | none => none
  else if info.formal_parameter_count = zero.value then
    -- no_parameters
    if FixedArraySizeDoesntFitInNewSpace c info.argument_count
        (c.JSSloppyArgumentsObject_kSize + c.FixedArray_kHeaderSize) then
      some (CallRuntime env RuntimeFunctionId.kNewSloppyArguments context function s)
    else
      let native_context := env.LoadNativeContext context
      let map := env.LoadContextElement native_context ContextField.SLOPPY_ARGUMENTS_MAP_INDEX
      match ConstructParametersObjectFromArgs c env fuel map info.frame info.argument_count
          zero.value (Node.dynamic info.argument_count) c.JSSloppyArgumentsObject_kSize s with
      | some (result, s) =>
        some (Value.HeapObject result,
          StoreObjectFieldNoWriteBarrier c result c.JSSloppyArgumentsObject_kCalleeOffset
            function s)
      | none => none
  else
    -- Mapped parameter JSSloppyArgumentsObject
    let mapped_count := min info.argument_count info.formal_parameter_count
    let parameter_map_size := mapped_count + 2
    let elements_allocated := info.argument_count + parameter_map_size
    if FixedArraySizeDoesntFitInNewSpace c elements_allocated
        (c.JSSloppyArgumentsObject_kSize + c.FixedArray_kHeaderSize * 2) then
      some (CallRuntime env RuntimeFunctionId.kNewSloppyArguments context function s)
    else
      let native_context := env.LoadNativeContext context
      let map := env.LoadContextElement native_context
        ContextField.FAST_ALIASED_ARGUMENTS_MAP_INDEX
      match AllocateArgumentsObject c map (Node.dynamic info.argument_count)
          (some (Node.dynamic parameter_map_size)) c.JSSloppyArgumentsObject_kSize s with
      | some ((argument_object, some elements, some map_array), s) =>
        let s := StoreObjectFieldNoWriteBarrier c argument_object
          c.JSSloppyArgumentsObject_kCalleeOffset function s
        let s := StoreFixedArrayElement c map_array 0 context s
        let s := StoreFixedArrayElement c map_array 1 (Value.HeapObject elements) s
        -- Fill in non-mapped parameters
        let argument_offset := ElementOffsetFromIndex c info.argument_count
          ElementsKind.PACKED_ELEMENTS (c.FixedArray_kHeaderSize - c.kHeapObjectTag)
        let mapped_offset := ElementOffsetFromIndex c mapped_count
          ElementsKind.PACKED_ELEMENTS (c.FixedArray_kHeaderSize - c.kHeapObjectTag)
        let arguments := CodeStubArguments.new c info.argument_count info.frame
        let current_argument := arguments.AtIndexPtr c info.argument_count
        match BuildFastLoop fuel (s, current_argument) argument_offset mapped_offset
            (EmitFastNewSloppyArguments.fillNonMapped c env elements)
            (-c.kTaggedSize) IndexAdvanceMode.kPre with
        | some (mapped_offset, v) =>
          let s := v.1
          -- Fill in mapped parameters
          let context_index := c.MIN_CONTEXT_SLOTS + info.formal_parameter_count - mapped_count
          let the_hole := Value.TheHole
          let kParameterMapHeaderSize := OffsetOfElementAt c 2
          let adjusted_map_array := map_array
            + (kParameterMapHeaderSize - c.FixedArray_kHeaderSize)
          let zero_offset := ElementOffsetFromIndex c zero.value ElementsKind.PACKED_ELEMENTS
            (c.FixedArray_kHeaderSize - c.kHeapObjectTag)
          match BuildFastLoop fuel (s, context_index) mapped_offset zero_offset
              (EmitFastNewSloppyArguments.fillMapped elements adjusted_map_array the_hole)
              (-c.kTaggedSize) IndexAdvanceMode.kPre with
          | some (_, v) => some (Value.HeapObject argument_object, v.1)
          | none => none
        | none => none
      | _ => none

/-! ## The states `AllocateArgumentsObject` leaves behind -/

/-- The state after the header-only allocation of `AllocateArgumentsObject`
(constant-zero count, no parameter map): the stores in the order of the
source. -/
def AllocateArgumentsObject.emptyState (c : Layout) (map : Value) (base_size : Int)
    (s : State) : State :=
  Store (s.heap.top + c.kHeapObjectTag + c.JSArray_kElementsOffset - c.kHeapObjectTag)
    Value.EmptyFixedArray
  (Store (s.heap.top + c.kHeapObjectTag + c.JSArray_kLengthOffset - c.kHeapObjectTag)
    (Value.Smi 0)
  (Store (s.heap.top + c.kHeapObjectTag + c.JSArray_kPropertiesOrHashOffset
      - c.kHeapObjectTag) Value.EmptyFixedArray
  (Store (s.heap.top + c.kHeapObjectTag + c.HeapObject_kMapOffset - c.kHeapObjectTag) map
    (Allocate c base_size s).2)))

/-- The state after `AllocateArgumentsObject` for `n` elements and no
parameter map: the stores in the order of the source. -/
def AllocateArgumentsObject.elementsState (c : Layout) (map : Value) (n base_size : Int)
    (s : State) : State :=
  Store (s.heap.top + c.kHeapObjectTag + c.JSArray_kElementsOffset - c.kHeapObjectTag)
    (Value.HeapObject (s.heap.top + c.kHeapObjectTag + base_size))
  (Store (s.heap.top + c.kHeapObjectTag + base_size + c.HeapObject_kMapOffset
      - c.kHeapObjectTag) Value.FixedArrayMap
  (Store (s.heap.top + c.kHeapObjectTag + base_size + c.FixedArray_kLengthOffset
      - c.kHeapObjectTag) (Value.Smi n)
  (Store (s.heap.top + c.kHeapObjectTag + c.JSArray_kLengthOffset - c.kHeapObjectTag)
    (Value.Smi n)
  (Store (s.heap.top + c.kHeapObjectTag + c.JSArray_kPropertiesOrHashOffset
      - c.kHeapObjectTag) Value.EmptyFixedArray
  (Store (s.heap.top + c.kHeapObjectTag + c.HeapObject_kMapOffset - c.kHeapObjectTag) map
    (Allocate c (base_size + c.FixedArray_kHeaderSize + n * c.kTaggedSize) s).2)))))

/-- The state after `AllocateArgumentsObject` for `n` elements and a parameter
map of `m` slots: the stores in the order of the source. -/
def AllocateArgumentsObject.mappedState (c : Layout) (map : Value) (n m base_size : Int)
    (s : State) : State :=
  Store (s.heap.top + c.kHeapObjectTag + base_size
      + (c.FixedArray_kHeaderSize + n * c.kTaggedSize) + c.FixedArray_kLengthOffset
      - c.kHeapObjectTag) (Value.Smi m)
  (Store (s.heap.top + c.kHeapObjectTag + base_size
      + (c.FixedArray_kHeaderSize + n * c.kTaggedSize) + c.HeapObject_kMapOffset
      - c.kHeapObjectTag) Value.SloppyArgumentsElementsMap
  (Store (s.heap.top + c.kHeapObjectTag + c.JSArray_kElementsOffset - c.kHeapObjectTag)
    (Value.HeapObject (s.heap.top + c.kHeapObjectTag + base_size
      + (c.FixedArray_kHeaderSize + n * c.kTaggedSize)))
  (Store (s.heap.top + c.kHeapObjectTag + base_size + c.HeapObject_kMapOffset
      - c.kHeapObjectTag) Value.FixedArrayMap
  (Store (s.heap.top + c.kHeapObjectTag + base_size + c.FixedArray_kLengthOffset
      - c.kHeapObjectTag) (Value.Smi n)
  (Store (s.heap.top + c.kHeapObjectTag + c.JSArray_kLengthOffset - c.kHeapObjectTag)
    (Value.Smi n)
  (Store (s.heap.top + c.kHeapObjectTag + c.JSArray_kPropertiesOrHashOffset
      - c.kHeapObjectTag) Value.EmptyFixedArray
  (Store (s.heap.top + c.kHeapObjectTag + c.HeapObject_kMapOffset - c.kHeapObjectTag) map
    (Allocate c (base_size + c.FixedArray_kHeaderSize + c.FixedArray_kHeaderSize
      + (n + m) * c.kTaggedSize) s).2)))))))

/-! ## Notions used in the statements -/

/-- The environment with another formal parameter count: the frame-info
resolver reports `formal_parameter_count` and is otherwise unchanged. -/
def Env.withFormalParameterCount (env : Env) (formal_parameter_count : Int) : Env :=
  { GetArgumentsFrameAndCount := fun context function =>
      { frame := (env.GetArgumentsFrameAndCount context function).frame,
        argument_count := (env.GetArgumentsFrameAndCount context function).argument_count,
        formal_parameter_count := formal_parameter_count },
    LoadNativeContext := env.LoadNativeContext,
    LoadContextElement := env.LoadContextElement,
    Runtime := env.Runtime,
    stack := env.stack }

/-- Whether an event is a call of a runtime function. -/
def Event.isCallRuntime : Event → Bool
  | Event.callRuntime _ _ _ => true
  | _ => false

/-- The state `s'` is reached from `s` without a runtime call: the trace has
grown by events none of which is a call of a runtime function. -/
def NoRuntimeCall (s s' : State) : Prop :=
  ∃ es : List Event, s'.trace = es ++ s.trace ∧ ∀ e ∈ es, Event.isCallRuntime e = false

/-- An environment for examples: a frame at address 1000 whose arguments are
the small integers 10, 20, 30, ... in call order, and a slow path that
returns the small integer 0 and leaves the heap alone. -/
def Env.sample (argument_count formal_parameter_count : Int) : Env :=
  { GetArgumentsFrameAndCount := fun _ _ =>
      { frame := 1000, argument_count := argument_count,
        formal_parameter_count := formal_parameter_count },
    LoadNativeContext := fun context => context,
    LoadContextElement := fun _ _ => Value.HeapObject 17,
    Runtime := fun _ _ _ heap => (Value.Smi 0, heap),
    stack := fun address =>
      Value.Smi (10 * ((1000 + (argument_count + 1) * 8 - address) / 8 + 1)) }

/-- A state for examples: an empty heap with the allocation top at 5000. -/
def State.sample : State :=
  { heap := { mem := fun _ => none, top := 5000 }, trace := [] }

/-! ## Events -/

/-- Whether an event is a store or a load: neither an allocation nor a call of
a runtime function. -/
def Event.isStoreOrLoad : Event → Bool
  | Event.store _ _ => true
  | Event.load _ => true
  | _ => false

/-- Since the state `s`, the state `s'` has been reached by one allocation, of
`size` bytes with the result `result`, followed by the events `es` (most
recent first), all of them stores or loads. -/
def AllocatedOnce (s s' : State) (size result : Int) (es : List Event) : Prop :=
  s'.trace = es ++ Event.allocate size result :: s.trace
    ∧ ∀ e ∈ es, Event.isStoreOrLoad e = true

/-- The word at `address` is written by one of the events `es`. -/
def Written (es : List Event) (address : Int) : Prop :=
  ∃ value : Value, Event.store address value ∈ es

/-- The events of `n` rounds of the copy loop of
`ConstructParametersObjectFromArgs`, most recent first: each round loads the
argument at `current` and stores it at `elements + offset`. -/
def ConstructParametersObjectFromArgs.events (c : Layout) (env : Env) (elements : Int) :
    Nat → Int → Int → List Event
  | 0, _, _ => []
  | n + 1, current, offset =>
    ConstructParametersObjectFromArgs.events c env elements n
        (current + -c.kSystemPointerSize) (offset + c.kTaggedSize)
      ++ [Event.store (elements + offset) (env.stack current), Event.load current]

/-- The events of `n` rounds of the first loop of the aliased case of
`EmitFastNewSloppyArguments`, most recent first; the first round fills slot
`n - 1` counted from `offset`, the last one slot 0. -/
def EmitFastNewSloppyArguments.fillNonMappedEvents (c : Layout) (env : Env) (elements : Int) :
    Nat → Int → Int → List Event
  | 0, _, _ => []
  | n + 1, offset, current =>
    EmitFastNewSloppyArguments.fillNonMappedEvents c env elements n offset
        (current + c.kSystemPointerSize)
      ++ [Event.store (elements + (offset + (n : Int) * c.kTaggedSize))
            (env.stack (current + c.kSystemPointerSize + 0)),
          Event.load (current + c.kSystemPointerSize + 0)]

/-- The events of `n` rounds of the second loop of the aliased case of
`EmitFastNewSloppyArguments`, most recent first; the first round fills slot
`n - 1` counted from `offset` with the hole and gives it `context_index`, the
last one slot 0. -/
def EmitFastNewSloppyArguments.fillMappedEvents (t elements adjusted_map_array : Int) :
    Nat → Int → Int → List Event
  | 0, _, _ => []
  | n + 1, offset, context_index =>
    EmitFastNewSloppyArguments.fillMappedEvents t elements adjusted_map_array n offset
        (context_index + 1)
      ++ [Event.store (adjusted_map_array + (offset + (n : Int) * t))
            (Value.Smi context_index),
          Event.store (elements + (offset + (n : Int) * t)) Value.TheHole]

/-- Every store among the events `es` is to a word inside the region of `size`
bytes that starts at the untagged address of `result`. -/
def StoresInside (c : Layout) (es : List Event) (size result : Int) : Prop :=
  ∀ (address : Int) (value : Value), Event.store address value ∈ es →
    result - c.kHeapObjectTag ≤ address
      ∧ address + c.kTaggedSize ≤ result - c.kHeapObjectTag + size

/-- Every load among the events `es` reads one of the actual arguments: the
word of an index in `[0, argc)`. -/
def LoadsArguments (c : Layout) (es : List Event) (arguments : CodeStubArguments) : Prop :=
  ∀ address : Int, Event.load address ∈ es →
    ∃ index : Int, 0 ≤ index ∧ index < arguments.argc
      ∧ address = arguments.AtIndexPtr c index

/-- The heap of `s'` is that of `s` outside the region of `size` bytes that
starts at the untagged address of `result`. -/
def UnchangedOutside (c : Layout) (s s' : State) (size result : Int) : Prop :=
  ∀ address : Int,
    (address < result - c.kHeapObjectTag ∨ result - c.kHeapObjectTag + size ≤ address) →
    s'.heap.mem address = s.heap.mem address

/-- The four header fields of the object `result` (type descriptor,
properties, elements, length) are written by the events `es`. -/
def HeaderWritten (c : Layout) (es : List Event) (result : Int) : Prop :=
  Written es (result + c.HeapObject_kMapOffset - c.kHeapObjectTag)
    ∧ Written es (result + c.JSArray_kPropertiesOrHashOffset - c.kHeapObjectTag)
    ∧ Written es (result + c.JSArray_kElementsOffset - c.kHeapObjectTag)
    ∧ Written es (result + c.JSArray_kLengthOffset - c.kHeapObjectTag)

/-- The type descriptor, the length and the `n` content slots of the fixed
array `array` are written by the events `es`. -/
def FixedArrayWritten (c : Layout) (es : List Event) (array n : Int) : Prop :=
  Written es (array + c.HeapObject_kMapOffset - c.kHeapObjectTag)
    ∧ Written es (array + c.FixedArray_kLengthOffset - c.kHeapObjectTag)
    ∧ ∀ i : Int, 0 ≤ i → i < n →
        Written es (array + (OffsetOfElementAt c i - c.kHeapObjectTag))

/-- The state of the aliased case of `EmitFastNewSloppyArguments` before its
two loops: after the allocation for `argument_count` elements and a parameter
map of `m` slots, the store of the callee and the stores of the context and
of the elements in the first two slots of the parameter map. -/
def EmitFastNewSloppyArguments.preparedState (c : Layout) (map context function : Value)
    (argument_count m : Int) (s : State) : State :=
  StoreFixedArrayElement c (s.heap.top + c.kHeapObjectTag + c.JSSloppyArgumentsObject_kSize
      + (c.FixedArray_kHeaderSize + argument_count * c.kTaggedSize)) 1
    (Value.HeapObject (s.heap.top + c.kHeapObjectTag + c.JSSloppyArgumentsObject_kSize))
    (StoreFixedArrayElement c (s.heap.top + c.kHeapObjectTag + c.JSSloppyArgumentsObject_kSize
      + (c.FixedArray_kHeaderSize + argument_count * c.kTaggedSize)) 0 context
    (StoreObjectFieldNoWriteBarrier c (s.heap.top + c.kHeapObjectTag)
      c.JSSloppyArgumentsObject_kCalleeOffset function
      (AllocateArgumentsObject.mappedState c map argument_count m
        c.JSSloppyArgumentsObject_kSize s)))

/-- The state of the aliased case of `EmitFastNewSloppyArguments` after
`n1` rounds of its first loop and `n2` rounds of its second loop. -/
def EmitFastNewSloppyArguments.aliasedState (c : Layout) (env : Env)
    (map context function : Value) (frame argument_count formal_parameter_count : Int)
    (n1 n2 : Nat) (s : State) : State :=
  (BuildFastLoop.rounds
    (EmitFastNewSloppyArguments.fillMapped
      (s.heap.top + c.kHeapObjectTag + c.JSSloppyArgumentsObject_kSize)
      (s.heap.top + c.kHeapObjectTag + c.JSSloppyArgumentsObject_kSize
        + (c.FixedArray_kHeaderSize + argument_count * c.kTaggedSize)
        + (OffsetOfElementAt c 2 - c.FixedArray_kHeaderSize)) Value.TheHole)
    (-c.kTaggedSize) IndexAdvanceMode.kPre n2
    (c.FixedArray_kHeaderSize - c.kHeapObjectTag + (n2 : Int) * c.kTaggedSize)
    ((BuildFastLoop.rounds
      (EmitFastNewSloppyArguments.fillNonMapped c env
        (s.heap.top + c.kHeapObjectTag + c.JSSloppyArgumentsObject_kSize))
      (-c.kTaggedSize) IndexAdvanceMode.kPre n1
      (c.FixedArray_kHeaderSize - c.kHeapObjectTag + (n2 : Int) * c.kTaggedSize
        + (n1 : Int) * c.kTaggedSize)
      (EmitFastNewSloppyArguments.preparedState c map context function argument_count
        ((n2 : Int) + 2) s,
        (CodeStubArguments.new c argument_count frame).AtIndexPtr c argument_count)).1,
      c.MIN_CONTEXT_SLOTS + formal_parameter_count - (n2 : Int))).1

/-- The events of the aliased case of `EmitFastNewSloppyArguments` after its
allocation, most recent first: the second loop, the first loop, the stores
into the first two slots of the parameter map and into the callee field, and
the stores of `AllocateArgumentsObject`. -/
def EmitFastNewSloppyArguments.aliasedEvents (c : Layout) (env : Env)
    (map context function : Value) (frame argument_count formal_parameter_count : Int)
    (n1 n2 : Nat) (top : Int) : List Event :=
  EmitFastNewSloppyArguments.fillMappedEvents c.kTaggedSize
      (top + c.kHeapObjectTag + c.JSSloppyArgumentsObject_kSize)
      (top + c.kHeapObjectTag + c.JSSloppyArgumentsObject_kSize
        + (c.FixedArray_kHeaderSize + argument_count * c.kTaggedSize)
        + (OffsetOfElementAt c 2 - c.FixedArray_kHeaderSize))
      n2 (c.FixedArray_kHeaderSize - c.kHeapObjectTag)
      (c.MIN_CONTEXT_SLOTS + formal_parameter_count - (n2 : Int))
    ++ (EmitFastNewSloppyArguments.fillNonMappedEvents c env
      (top + c.kHeapObjectTag + c.JSSloppyArgumentsObject_kSize) n1
      (c.FixedArray_kHeaderSize - c.kHeapObjectTag + (n2 : Int) * c.kTaggedSize)
      ((CodeStubArguments.new c argument_count frame).AtIndexPtr c argument_count)
    ++ [Event.store (top + c.kHeapObjectTag + c.JSSloppyArgumentsObject_kSize
            + (c.FixedArray_kHeaderSize + argument_count * c.kTaggedSize)
            + (OffsetOfElementAt c 1 - c.kHeapObjectTag))
          (Value.HeapObject (top + c.kHeapObjectTag + c.JSSloppyArgumentsObject_kSize)),
        Event.store (top + c.kHeapObjectTag + c.JSSloppyArgumentsObject_kSize
            + (c.FixedArray_kHeaderSize + argument_count * c.kTaggedSize)
            + (OffsetOfElementAt c 0 - c.kHeapObjectTag)) context,
        Event.store (top + c.kHeapObjectTag + c.JSSloppyArgumentsObject_kCalleeOffset
            - c.kHeapObjectTag) function,
        Event.store (top + c.kHeapObjectTag + c.JSSloppyArgumentsObject_kSize
            + (c.FixedArray_kHeaderSize + argument_count * c.kTaggedSize)
            + c.FixedArray_kLengthOffset - c.kHeapObjectTag) (Value.Smi ((n2 : Int) + 2)),
        Event.store (top + c.kHeapObjectTag + c.JSSloppyArgumentsObject_kSize
            + (c.FixedArray_kHeaderSize + argument_count * c.kTaggedSize)
            + c.HeapObject_kMapOffset - c.kHeapObjectTag) Value.SloppyArgumentsElementsMap,
        Event.store (top + c.kHeapObjectTag + c.JSArray_kElementsOffset - c.kHeapObjectTag)
          (Value.HeapObject (top + c.kHeapObjectTag + c.JSSloppyArgumentsObject_kSize
            + (c.FixedArray_kHeaderSize + argument_count * c.kTaggedSize))),
        Event.store (top + c.kHeapObjectTag + c.JSSloppyArgumentsObject_kSize
            + c.HeapObject_kMapOffset - c.kHeapObjectTag) Value.FixedArrayMap,
        Event.store (top + c.kHeapObjectTag + c.JSSloppyArgumentsObject_kSize
            + c.FixedArray_kLengthOffset - c.kHeapObjectTag) (Value.Smi argument_count),
        Event.store (top + c.kHeapObjectTag + c.JSArray_kLengthOffset - c.kHeapObjectTag)
          (Value.Smi argument_count),
        Event.store (top + c.kHeapObjectTag + c.JSArray_kPropertiesOrHashOffset
            - c.kHeapObjectTag) Value.EmptyFixedArray,
        Event.store (top + c.kHeapObjectTag + c.HeapObject_kMapOffset - c.kHeapObjectTag)
          map])

/-- The stores among the events `es` (most recent first) to addresses from
`low` on, in the order in which they were made: address and value. -/
def storesFrom (low : Int) (es : List Event) : List (Int × Value) :=
  (es.filterMap (fun e => match e with
    | Event.store address value => if low ≤ address then some (address, value) else none
    | _ => none)).reverse

/-- The layout has no gaps: the type descriptor, the properties, the elements
and the length are the first four words of an object, an array and a strict
arguments object are these four words, a sloppy arguments object has the
callee as its fifth and last word, and the header of a fixed array is its
type descriptor and its length. -/
structure Layout.Packed (c : Layout) : Prop where
  map : c.HeapObject_kMapOffset = 0
  properties : c.JSArray_kPropertiesOrHashOffset = c.kTaggedSize
  elements : c.JSArray_kElementsOffset = 2 * c.kTaggedSize
  length : c.JSArray_kLengthOffset = 3 * c.kTaggedSize
  array : c.JSArray_kSize = 4 * c.kTaggedSize
  strict : c.JSStrictArgumentsObject_kSize = 4 * c.kTaggedSize
  callee : c.JSSloppyArgumentsObject_kCalleeOffset = 4 * c.kTaggedSize
  sloppy : c.JSSloppyArgumentsObject_kSize = 5 * c.kTaggedSize
  fixed_length : c.FixedArray_kLengthOffset = c.kTaggedSize
  fixed_header : c.FixedArray_kHeaderSize = 2 * c.kTaggedSize

/-- The `count` words from the address `start` on are written by the events
`es`. -/
def WordsWritten (c : Layout) (es : List Event) (start count : Int) : Prop :=
  ∀ k : Int, 0 ≤ k → k < count → Written es (start + k * c.kTaggedSize)

/-- Every word of the region of `size` bytes that starts at the untagged
address of `result` is written by the events `es`. -/
def EveryWordWritten (c : Layout) (es : List Event) (size result : Int) : Prop :=
  ∀ k : Int, 0 ≤ k → k * c.kTaggedSize < size →
    Written es (result - c.kHeapObjectTag + k * c.kTaggedSize)

/-! ## Loops -/

/-- The loop of `BuildFastLoop` ends after `n + 1` rounds when the end index is
`n + 1` increments away and the fuel is enough. -/
theorem BuildFastLoop.loop_rounds {σ : Type} (body : Int → σ → σ) (end_index increment : Int)
    (advance_mode : IndexAdvanceMode) (hinc : increment ≠ 0) :
    ∀ (n fuel : Nat) (var : Int) (vars : σ), n < fuel →
      end_index = var + ((n : Int) + 1) * increment →
      BuildFastLoop.loop body end_index increment advance_mode fuel var vars
        = some (end_index, BuildFastLoop.rounds body increment advance_mode (n + 1) var vars) := by
  intro n
  induction n with
  | zero =>
    intro fuel var vars hfuel hend
    obtain ⟨f, rfl⟩ : ∃ f, fuel = f + 1 := ⟨fuel - 1, by omega⟩
    have hv : (if advance_mode = IndexAdvanceMode.kPost then
        (if advance_mode = IndexAdvanceMode.kPre then var + increment else var) + increment
        else (if advance_mode = IndexAdvanceMode.kPre then var + increment else var))
        = var + increment := by
      cases advance_mode <;> simp
    have hend' : end_index = var + increment := by rw [hend]; ring
    simp only [BuildFastLoop.loop, BuildFastLoop.rounds, hv]
    simp [hend']
  | succ m ih =>
    intro fuel var vars hfuel hend
    obtain ⟨f, rfl⟩ : ∃ f, fuel = f + 1 := ⟨fuel - 1, by omega⟩
    have hv : (if advance_mode = IndexAdvanceMode.kPost then
        (if advance_mode = IndexAdvanceMode.kPre then var + increment else var) + increment
        else (if advance_mode = IndexAdvanceMode.kPre then var + increment else var))
        = var + increment := by
      cases advance_mode <;> simp
    have hne : var + increment ≠ end_index := by
      intro h
      have h1 : ((m : Int) + 1) * increment = 0 := by
        have : end_index = var + increment + ((m : Int) + 1) * increment := by
          rw [hend]; push_cast; ring
        omega
      rcases mul_eq_zero.mp h1 with h2 | h2
      · omega
      · exact hinc h2
    have hrec := ih f (var + increment)
      (body (if advance_mode = IndexAdvanceMode.kPre then var + increment else var) vars)
      (by omega) (by rw [hend]; push_cast; ring)
    rw [BuildFastLoop.loop]
    simp only [hv, hne, ne_eq, not_false_eq_true, if_true]
    rw [hrec]
    rfl

/-- The loop `BuildFastLoop` ends after `n` rounds when the end index is `n`
increments away from the start index and the fuel is enough. -/
theorem BuildFastLoop_rounds {σ : Type} (body : Int → σ → σ) (start_index end_index increment : Int)
    (advance_mode : IndexAdvanceMode) (hinc : increment ≠ 0) (n fuel : Nat) (vars : σ)
    (hfuel : n ≤ fuel) (hend : end_index = start_index + (n : Int) * increment) :
    BuildFastLoop fuel vars start_index end_index body increment advance_mode
      = some (end_index, BuildFastLoop.rounds body increment advance_mode n start_index vars) := by
  cases n with
  | zero =>
    have : start_index = end_index := by rw [hend]; simp
    simp [BuildFastLoop, this, BuildFastLoop.rounds]
  | succ m =>
    have hne : start_index ≠ end_index := by
      intro h
      have h1 : ((m : Int) + 1) * increment = 0 := by
        have : end_index = start_index + ((m : Int) + 1) * increment := by
          rw [hend]; push_cast; ring
        omega
      rcases mul_eq_zero.mp h1 with h2 | h2
      · omega
      · exact hinc h2
    simp only [BuildFastLoop, hne, if_false]
    exact BuildFastLoop.loop_rounds body end_index increment advance_mode hinc m fuel
      start_index vars (by omega) (by rw [hend]; push_cast; ring)


/-! ## Stores -/

/-- The heap after a store. -/
theorem Store_mem (address : Int) (value : Value) (s : State) (a : Int) :
    (Store address value s).heap.mem a = if a = address then some value else s.heap.mem a :=
  rfl

/-- A store is read back at its address. -/
theorem Store_mem_eq (address : Int) (value : Value) (s : State) (a : Int) (h : a = address) :
    (Store address value s).heap.mem a = some value := by
  rw [Store_mem, if_pos h]

/-- A store leaves the other addresses alone. -/
theorem Store_mem_ne (address : Int) (value : Value) (s : State) (a : Int) (h : a ≠ address) :
    (Store address value s).heap.mem a = s.heap.mem a := by
  rw [Store_mem, if_neg h]

/-- A store does not move the allocation top. -/
theorem Store_top (address : Int) (value : Value) (s : State) :
    (Store address value s).heap.top = s.heap.top :=
  rfl

/-- The offset of the slot after slot `j`. -/
theorem slot_succ (j : Nat) (t : Int) : ((j + 1 : Nat) : Int) * t = (j : Int) * t + t := by
  push_cast; ring

/-- Slot offsets are not negative. -/
theorem slot_nonneg (j : Nat) (t : Int) (ht : 0 < t) : 0 ≤ (j : Int) * t :=
  mul_nonneg (Int.ofNat_nonneg j) ht.le

/-- A slot ends where a later slot starts, or before. -/
theorem slot_lt (j n : Nat) (t : Int) (ht : 0 < t) (h : j < n) :
    (j : Int) * t + t ≤ (n : Int) * t := by
  have h1 : (j : Int) + 1 ≤ (n : Int) := by exact_mod_cast h
  have h2 := mul_le_mul_of_nonneg_right h1 ht.le
  have h3 : ((j : Int) + 1) * t = (j : Int) * t + t := by ring
  omega

/-! ## The copy loop of `ConstructParametersObjectFromArgs` -/

/-- After `n` rounds of the copy loop, slot `j < n` counted from `offset` holds
the word `j` pointers below `current` on the stack, and no other address has
changed. -/
theorem copy_rounds (c : Layout) (env : Env) (elements : Int) (ht : 0 < c.kTaggedSize) :
    ∀ (n : Nat) (current offset : Int) (s : State),
      (∀ j : Nat, j < n →
        (BuildFastLoop.rounds
          (CodeStubArguments.ForEach.body env (ConstructParametersObjectFromArgs.body c elements))
          (-c.kSystemPointerSize) IndexAdvanceMode.kPost n current (s, offset)).1.heap.mem
            (elements + (offset + (j : Int) * c.kTaggedSize))
          = some (env.stack (current - (j : Int) * c.kSystemPointerSize))) ∧
      (∀ a : Int, (∀ j : Nat, j < n → a ≠ elements + (offset + (j : Int) * c.kTaggedSize)) →
        (BuildFastLoop.rounds
          (CodeStubArguments.ForEach.body env (ConstructParametersObjectFromArgs.body c elements))
          (-c.kSystemPointerSize) IndexAdvanceMode.kPost n current (s, offset)).1.heap.mem a
          = s.heap.mem a) ∧
      (BuildFastLoop.rounds
          (CodeStubArguments.ForEach.body env (ConstructParametersObjectFromArgs.body c elements))
          (-c.kSystemPointerSize) IndexAdvanceMode.kPost n current (s, offset)).1.heap.top
        = s.heap.top := by
  intro n
  induction n with
  | zero =>
    intro current offset s
    refine ⟨fun j hj => absurd hj (Nat.not_lt_zero j), fun a _ => rfl, rfl⟩
  | succ n ih =>
    intro current offset s
    have hstep : BuildFastLoop.rounds
          (CodeStubArguments.ForEach.body env (ConstructParametersObjectFromArgs.body c elements))
          (-c.kSystemPointerSize) IndexAdvanceMode.kPost (n + 1) current (s, offset)
        = BuildFastLoop.rounds
          (CodeStubArguments.ForEach.body env (ConstructParametersObjectFromArgs.body c elements))
          (-c.kSystemPointerSize) IndexAdvanceMode.kPost n (current + -c.kSystemPointerSize)
          (Store (elements + offset) (env.stack current) (Load env current s).2,
            offset + c.kTaggedSize) := rfl
    rw [hstep]
    obtain ⟨ih1, ih2, ih3⟩ := ih (current + -c.kSystemPointerSize) (offset + c.kTaggedSize)
      (Store (elements + offset) (env.stack current) (Load env current s).2)
    refine ⟨?_, ?_, ?_⟩
    · intro j hj
      cases j with
      | zero =>
        rw [ih2]
        · rw [Store_mem_eq _ _ _ _ (by simp)]
          simp
        · intro k _
          have := slot_nonneg k c.kTaggedSize ht
          push_cast
          omega
      | succ k =>
        have h := ih1 k (by omega)
        have e1 : elements + (offset + ((k + 1 : Nat) : Int) * c.kTaggedSize)
            = elements + (offset + c.kTaggedSize + (k : Int) * c.kTaggedSize) := by
          rw [slot_succ]; ring
        have e2 : current - ((k + 1 : Nat) : Int) * c.kSystemPointerSize
            = current + -c.kSystemPointerSize - (k : Int) * c.kSystemPointerSize := by
          rw [slot_succ]; ring
        rw [e1, e2]
        exact h
    · intro a ha
      rw [ih2]
      · rw [Store_mem_ne]
        · rfl
        · have := ha 0 (by omega)
          simpa using this
      · intro k hk
        have := ha (k + 1) (by omega)
        rw [slot_succ] at this
        intro h
        apply this
        rw [h]; ring
    · rw [ih3]; rfl

/-! ## The two loops of the aliased case of `EmitFastNewSloppyArguments` -/

/-- After `n` rounds of the first loop, started at the offset of slot `n`
counted from `offset`, slot `j < n` holds the word `n - j` pointers above
`current` on the stack, and no other address has changed. -/
theorem fillNonMapped_rounds (c : Layout) (env : Env) (elements : Int)
    (ht : 0 < c.kTaggedSize) :
    ∀ (n : Nat) (current offset : Int) (s : State),
      (∀ j : Nat, j < n →
        (BuildFastLoop.rounds (EmitFastNewSloppyArguments.fillNonMapped c env elements)
          (-c.kTaggedSize) IndexAdvanceMode.kPre n (offset + (n : Int) * c.kTaggedSize)
          (s, current)).1.heap.mem (elements + (offset + (j : Int) * c.kTaggedSize))
          = some (env.stack (current + ((n : Int) - (j : Int)) * c.kSystemPointerSize))) ∧
      (∀ a : Int, (∀ j : Nat, j < n → a ≠ elements + (offset + (j : Int) * c.kTaggedSize)) →
        (BuildFastLoop.rounds (EmitFastNewSloppyArguments.fillNonMapped c env elements)
          (-c.kTaggedSize) IndexAdvanceMode.kPre n (offset + (n : Int) * c.kTaggedSize)
          (s, current)).1.heap.mem a = s.heap.mem a) ∧
      (BuildFastLoop.rounds (EmitFastNewSloppyArguments.fillNonMapped c env elements)
          (-c.kTaggedSize) IndexAdvanceMode.kPre n (offset + (n : Int) * c.kTaggedSize)
          (s, current)).1.heap.top = s.heap.top := by
  intro n
  induction n with
  | zero =>
    intro current offset s
    refine ⟨fun j hj => absurd hj (Nat.not_lt_zero j), fun a _ => rfl, rfl⟩
  | succ n ih =>
    intro current offset s
    have hidx : offset + ((n + 1 : Nat) : Int) * c.kTaggedSize + -c.kTaggedSize
        = offset + (n : Int) * c.kTaggedSize := by
      rw [slot_succ]; ring
    have hstep : BuildFastLoop.rounds (EmitFastNewSloppyArguments.fillNonMapped c env elements)
          (-c.kTaggedSize) IndexAdvanceMode.kPre (n + 1)
          (offset + ((n + 1 : Nat) : Int) * c.kTaggedSize) (s, current)
        = BuildFastLoop.rounds (EmitFastNewSloppyArguments.fillNonMapped c env elements)
          (-c.kTaggedSize) IndexAdvanceMode.kPre n (offset + (n : Int) * c.kTaggedSize)
          (Store (elements + (offset + (n : Int) * c.kTaggedSize))
            (env.stack (current + c.kSystemPointerSize + 0))
            (Load env (current + c.kSystemPointerSize + 0) s).2,
            current + c.kSystemPointerSize) := by
      rw [← hidx]; rfl
    rw [hstep]
    obtain ⟨ih1, ih2, ih3⟩ := ih (current + c.kSystemPointerSize) offset
      (Store (elements + (offset + (n : Int) * c.kTaggedSize))
        (env.stack (current + c.kSystemPointerSize + 0))
        (Load env (current + c.kSystemPointerSize + 0) s).2)
    refine ⟨?_, ?_, ?_⟩
    · intro j hj
      by_cases hjn : j = n
      · subst hjn
        rw [ih2]
        · rw [Store_mem_eq _ _ _ _ rfl]
          congr 2
          push_cast; ring
        · intro k hk
          have := slot_lt k j c.kTaggedSize ht hk
          omega
      · have h := ih1 j (by omega)
        rw [h]
        congr 2
        push_cast; ring
    · intro a ha
      rw [ih2]
      · rw [Store_mem_ne]
        · rfl
        · exact ha n (by omega)
      · intro k hk
        exact ha k (by omega)
    · rw [ih3]; rfl

/-- After `n` rounds of the second loop, started at the offset of slot `n`
counted from `offset`, slot `j < n` of the elements holds the hole and the
word at the same offset from `adjusted_map_array` holds the tagged context
index `context_index + (n - 1 - j)`; no other address has changed. -/
theorem fillMapped_rounds (t : Int) (elements adjusted_map_array : Int) (ht : 0 < t) :
    ∀ (n : Nat) (context_index offset : Int) (s : State),
      elements + (n : Int) * t ≤ adjusted_map_array →
      (∀ j : Nat, j < n →
        (BuildFastLoop.rounds
          (EmitFastNewSloppyArguments.fillMapped elements adjusted_map_array Value.TheHole)
          (-t) IndexAdvanceMode.kPre n (offset + (n : Int) * t)
          (s, context_index)).1.heap.mem (elements + (offset + (j : Int) * t))
          = some Value.TheHole) ∧
      (∀ j : Nat, j < n →
        (BuildFastLoop.rounds
          (EmitFastNewSloppyArguments.fillMapped elements adjusted_map_array Value.TheHole)
          (-t) IndexAdvanceMode.kPre n (offset + (n : Int) * t)
          (s, context_index)).1.heap.mem (adjusted_map_array + (offset + (j : Int) * t))
          = some (Value.Smi (context_index + ((n : Int) - 1 - (j : Int))))) ∧
      (∀ a : Int, (∀ j : Nat, j < n → a ≠ elements + (offset + (j : Int) * t)) →
        (∀ j : Nat, j < n → a ≠ adjusted_map_array + (offset + (j : Int) * t)) →
        (BuildFastLoop.rounds
          (EmitFastNewSloppyArguments.fillMapped elements adjusted_map_array Value.TheHole)
          (-t) IndexAdvanceMode.kPre n (offset + (n : Int) * t)
          (s, context_index)).1.heap.mem a = s.heap.mem a) ∧
      (BuildFastLoop.rounds
          (EmitFastNewSloppyArguments.fillMapped elements adjusted_map_array Value.TheHole)
          (-t) IndexAdvanceMode.kPre n (offset + (n : Int) * t)
          (s, context_index)).1.heap.top = s.heap.top := by
  intro n
  induction n with
  | zero =>
    intro context_index offset s _
    refine ⟨fun j hj => absurd hj (Nat.not_lt_zero j), fun j hj => absurd hj (Nat.not_lt_zero j),
      fun a _ _ => rfl, rfl⟩
  | succ n ih =>
    intro context_index offset s hsep
    have hsucc := slot_succ n t
    have hnn := slot_nonneg n t ht
    have hidx : offset + ((n + 1 : Nat) : Int) * t + -t = offset + (n : Int) * t := by
      rw [slot_succ]; ring
    have hstep : BuildFastLoop.rounds
          (EmitFastNewSloppyArguments.fillMapped elements adjusted_map_array Value.TheHole)
          (-t) IndexAdvanceMode.kPre (n + 1) (offset + ((n + 1 : Nat) : Int) * t)
          (s, context_index)
        = BuildFastLoop.rounds
          (EmitFastNewSloppyArguments.fillMapped elements adjusted_map_array Value.TheHole)
          (-t) IndexAdvanceMode.kPre n (offset + (n : Int) * t)
          (Store (adjusted_map_array + (offset + (n : Int) * t)) (Value.Smi context_index)
            (Store (elements + (offset + (n : Int) * t)) Value.TheHole s),
            context_index + 1) := by
      rw [← hidx]; rfl
    rw [hstep]
    obtain ⟨ih1, ih2, ih3, ih4⟩ := ih (context_index + 1) offset
      (Store (adjusted_map_array + (offset + (n : Int) * t)) (Value.Smi context_index)
        (Store (elements + (offset + (n : Int) * t)) Value.TheHole s)) (by omega)
    refine ⟨?_, ?_, ?_, ?_⟩
    · intro j hj
      by_cases hjn : j = n
      · subst hjn
        rw [ih3]
        · rw [Store_mem_ne _ _ _ _ (by omega), Store_mem_eq _ _ _ _ rfl]
        · intro k hk
          have := slot_lt k j t ht hk
          omega
        · intro k hk
          have := slot_nonneg k t ht
          omega
      · exact ih1 j (by omega)
    · intro j hj
      by_cases hjn : j = n
      · subst hjn
        rw [ih3]
        · rw [Store_mem_eq _ _ _ _ rfl]
          congr 2
          push_cast; ring
        · intro k hk
          have := slot_nonneg k t ht
          have := slot_lt k j t ht hk
          omega
        · intro k hk
          have := slot_lt k j t ht hk
          omega
      · rw [ih2 j (by omega)]
        congr 2
        push_cast; ring
    · intro a ha hb
      rw [ih3]
      · rw [Store_mem_ne _ _ _ _ (hb n (by omega)), Store_mem_ne _ _ _ _ (ha n (by omega))]
      · intro k hk
        exact ha k (by omega)
      · intro k hk
        exact hb k (by omega)
    · rw [ih4]; rfl

/-! ## `AllocateArgumentsObject` in closed form -/

/-- The header-only allocation: the constant-zero count, no parameter map. -/
theorem AllocateArgumentsObject_empty (c : Layout) (map : Value) (base_size : Int) (s : State) :
    AllocateArgumentsObject c map (Node.constant 0) none base_size s
      = some ((s.heap.top + c.kHeapObjectTag, none, none),
          AllocateArgumentsObject.emptyState c map base_size s) :=
  rfl

/-- The allocation of an object with elements and no parameter map. -/
theorem AllocateArgumentsObject_elements (c : Layout) (map : Value) (n base_size : Int)
    (s : State) :
    AllocateArgumentsObject c map (Node.dynamic n) none base_size s
      = some ((s.heap.top + c.kHeapObjectTag,
            some (s.heap.top + c.kHeapObjectTag + base_size), none),
          AllocateArgumentsObject.elementsState c map n base_size s) :=
  rfl

/-- The allocation of an object with elements and a parameter map. -/
theorem AllocateArgumentsObject_mapped (c : Layout) (map : Value) (n m base_size : Int)
    (s : State) :
    AllocateArgumentsObject c map (Node.dynamic n) (some (Node.dynamic m)) base_size s
      = some ((s.heap.top + c.kHeapObjectTag,
            some (s.heap.top + c.kHeapObjectTag + base_size),
            some (s.heap.top + c.kHeapObjectTag + base_size
              + (c.FixedArray_kHeaderSize + n * c.kTaggedSize))),
          AllocateArgumentsObject.mappedState c map n m base_size s) :=
  rfl

/-! ## `ConstructParametersObjectFromArgs` -/

/-- With enough fuel for the `n` arguments from `first_arg` on,
`ConstructParametersObjectFromArgs` returns the object at the old allocation
top, with an initialised header, elements of length `rest_count` right after
the header, and argument `first_arg + j` in slot `j` for every `j < n`. -/
theorem ConstructParametersObjectFromArgs_spec (c : Layout) (hc : c.WellFormed) (env : Env)
    (fuel : Nat) (map : Value) (frame_ptr arg_count first_arg rest_count base_size : Int)
    (s : State) (n : Nat) (hbase : c.JSArray_kLengthOffset + c.kTaggedSize ≤ base_size)
    (hn : arg_count = first_arg + (n : Int)) (hfuel : n ≤ fuel) :
    ∃ s' : State,
      ConstructParametersObjectFromArgs c env fuel map frame_ptr arg_count first_arg
          (Node.dynamic rest_count) base_size s
        = some (s.heap.top + c.kHeapObjectTag, s') ∧
      LoadObjectField c s'.heap (s.heap.top + c.kHeapObjectTag) c.HeapObject_kMapOffset
        = some map ∧
      LoadObjectField c s'.heap (s.heap.top + c.kHeapObjectTag) c.JSArray_kPropertiesOrHashOffset
        = some Value.EmptyFixedArray ∧
      LoadObjectField c s'.heap (s.heap.top + c.kHeapObjectTag) c.JSArray_kElementsOffset
        = some (Value.HeapObject (s.heap.top + c.kHeapObjectTag + base_size)) ∧
      LoadObjectField c s'.heap (s.heap.top + c.kHeapObjectTag) c.JSArray_kLengthOffset
        = some (Value.Smi rest_count) ∧
      LoadObjectField c s'.heap (s.heap.top + c.kHeapObjectTag + base_size)
          c.HeapObject_kMapOffset = some Value.FixedArrayMap ∧
      LoadObjectField c s'.heap (s.heap.top + c.kHeapObjectTag + base_size)
          c.FixedArray_kLengthOffset = some (Value.Smi rest_count) ∧
      (∀ j : Int, 0 ≤ j → j < (n : Int) →
        LoadFixedArrayElement c s'.heap (s.heap.top + c.kHeapObjectTag + base_size) j
          = some ((CodeStubArguments.new c arg_count frame_ptr).AtIndex c env (first_arg + j))) ∧
      s'.heap.top = s.heap.top + (base_size + OffsetOfElementAt c rest_count) ∧
      (∀ a : Int, a < s.heap.top + base_size → a ≠ s.heap.top + c.HeapObject_kMapOffset →
        a ≠ s.heap.top + c.JSArray_kPropertiesOrHashOffset →
        a ≠ s.heap.top + c.JSArray_kElementsOffset → a ≠ s.heap.top + c.JSArray_kLengthOffset →
        s'.heap.mem a = s.heap.mem a) := by
  obtain ⟨ht, h0, h1, h2, h3, h4, h5, h6, h7, h8, hp, h9, h10, h11, h12⟩ := hc
  have hloop := BuildFastLoop_rounds
    (CodeStubArguments.ForEach.body env (ConstructParametersObjectFromArgs.body c
      (s.heap.top + c.kHeapObjectTag + base_size)))
    ((CodeStubArguments.new c arg_count frame_ptr).base
      - ElementOffsetFromIndex c first_arg ElementsKind.SYSTEM_POINTER_ELEMENTS 0)
    ((CodeStubArguments.new c arg_count frame_ptr).base
      - ElementOffsetFromIndex c (CodeStubArguments.new c arg_count frame_ptr).argc
        ElementsKind.SYSTEM_POINTER_ELEMENTS 0)
    (-c.kSystemPointerSize) IndexAdvanceMode.kPost (by omega) n fuel
    (AllocateArgumentsObject.elementsState c map rest_count base_size s,
      c.FixedArray_kHeaderSize - c.kHeapObjectTag) hfuel
    (by simp only [ElementOffsetFromIndex, ElementSize, CodeStubArguments.new]; rw [hn]; ring)
  obtain ⟨r1, r2, r3⟩ := copy_rounds c env (s.heap.top + c.kHeapObjectTag + base_size) ht n
    ((CodeStubArguments.new c arg_count frame_ptr).base
      - ElementOffsetFromIndex c first_arg ElementsKind.SYSTEM_POINTER_ELEMENTS 0)
    (c.FixedArray_kHeaderSize - c.kHeapObjectTag)
    (AllocateArgumentsObject.elementsState c map rest_count base_size s)
  refine ⟨(BuildFastLoop.rounds
    (CodeStubArguments.ForEach.body env (ConstructParametersObjectFromArgs.body c
      (s.heap.top + c.kHeapObjectTag + base_size)))
    (-c.kSystemPointerSize) IndexAdvanceMode.kPost n
    ((CodeStubArguments.new c arg_count frame_ptr).base
      - ElementOffsetFromIndex c first_arg ElementsKind.SYSTEM_POINTER_ELEMENTS 0)
    (AllocateArgumentsObject.elementsState c map rest_count base_size s,
      c.FixedArray_kHeaderSize - c.kHeapObjectTag)).1, ?_, ?_, ?_, ?_, ?_, ?_, ?_, ?_, ?_, ?_⟩
  · simp only [ConstructParametersObjectFromArgs, AllocateArgumentsObject_elements,
      CodeStubArguments.ForEach]
    rw [hloop]
  · rw [LoadObjectField, r2]
    · simp only [AllocateArgumentsObject.elementsState]
      repeat (first | rw [Store_mem_eq _ _ _ _ (by omega)] | rw [Store_mem_ne _ _ _ _ (by omega)])
    · intro j _
      have := slot_nonneg j c.kTaggedSize ht
      omega
  · rw [LoadObjectField, r2]
    · simp only [AllocateArgumentsObject.elementsState]
      repeat (first | rw [Store_mem_eq _ _ _ _ (by omega)] | rw [Store_mem_ne _ _ _ _ (by omega)])
    · intro j _
      have := slot_nonneg j c.kTaggedSize ht
      omega
  · rw [LoadObjectField, r2]
    · simp only [AllocateArgumentsObject.elementsState]
      repeat (first | rw [Store_mem_eq _ _ _ _ (by omega)] | rw [Store_mem_ne _ _ _ _ (by omega)])
    · intro j _
      have := slot_nonneg j c.kTaggedSize ht
      omega
  · rw [LoadObjectField, r2]
    · simp only [AllocateArgumentsObject.elementsState]
      repeat (first | rw [Store_mem_eq _ _ _ _ (by omega)] | rw [Store_mem_ne _ _ _ _ (by omega)])
    · intro j _
      have := slot_nonneg j c.kTaggedSize ht
      omega
  · rw [LoadObjectField, r2]
    · simp only [AllocateArgumentsObject.elementsState]
      repeat (first | rw [Store_mem_eq _ _ _ _ (by omega)] | rw [Store_mem_ne _ _ _ _ (by omega)])
    · intro j _
      have := slot_nonneg j c.kTaggedSize ht
      omega
  · rw [LoadObjectField, r2]
    · simp only [AllocateArgumentsObject.elementsState]
      repeat (first | rw [Store_mem_eq _ _ _ _ (by omega)] | rw [Store_mem_ne _ _ _ _ (by omega)])
    · intro j _
      have := slot_nonneg j c.kTaggedSize ht
      omega
  · intro j hj0 hjn
    obtain ⟨k, rfl⟩ := Int.eq_ofNat_of_zero_le hj0
    have hk : k < n := by exact_mod_cast hjn
    have e1 : s.heap.top + c.kHeapObjectTag + base_size
          + (OffsetOfElementAt c (k : Int) - c.kHeapObjectTag)
        = s.heap.top + c.kHeapObjectTag + base_size
          + (c.FixedArray_kHeaderSize - c.kHeapObjectTag + (k : Int) * c.kTaggedSize) := by
      simp only [OffsetOfElementAt]; ring
    rw [LoadFixedArrayElement, e1, r1 k hk]
    simp only [CodeStubArguments.AtIndex, CodeStubArguments.AtIndexPtr, ElementOffsetFromIndex,
      ElementSize]
    congr 2
    ring
  · rw [r3]
    simp only [AllocateArgumentsObject.elementsState, Store_top, Allocate, OffsetOfElementAt]
    ring
  · intro a ha m1 m2 m3 m4
    rw [r2]
    · simp only [AllocateArgumentsObject.elementsState]
      repeat (first | rw [Store_mem_eq _ _ _ _ (by omega)] | rw [Store_mem_ne _ _ _ _ (by omega)])
      rfl
    · intro j _
      have := slot_nonneg j c.kTaggedSize ht
      omega

/-! ## The header-only objects -/

/-- The header-only object: length 0, the empty fixed array as elements, and
an allocation of exactly the header. -/
theorem emptyState_spec (c : Layout) (hc : c.WellFormed) (map : Value) (base_size : Int)
    (s : State) :
    LoadObjectField c (AllocateArgumentsObject.emptyState c map base_size s).heap
        (s.heap.top + c.kHeapObjectTag) c.JSArray_kLengthOffset = some (Value.Smi 0) ∧
    LoadObjectField c (AllocateArgumentsObject.emptyState c map base_size s).heap
        (s.heap.top + c.kHeapObjectTag) c.JSArray_kElementsOffset = some Value.EmptyFixedArray ∧
    (AllocateArgumentsObject.emptyState c map base_size s).heap.top = s.heap.top + base_size ∧
    (AllocateArgumentsObject.emptyState c map base_size s).trace
      = [Event.store (s.heap.top + c.kHeapObjectTag + c.JSArray_kElementsOffset
            - c.kHeapObjectTag) Value.EmptyFixedArray,
          Event.store (s.heap.top + c.kHeapObjectTag + c.JSArray_kLengthOffset
            - c.kHeapObjectTag) (Value.Smi 0),
          Event.store (s.heap.top + c.kHeapObjectTag + c.JSArray_kPropertiesOrHashOffset
            - c.kHeapObjectTag) Value.EmptyFixedArray,
          Event.store (s.heap.top + c.kHeapObjectTag + c.HeapObject_kMapOffset
            - c.kHeapObjectTag) map,
          Event.allocate base_size (s.heap.top + c.kHeapObjectTag)] ++ s.trace := by
  obtain ⟨ht, h0, h1, h2, h3, h4, h5, h6, h7, h8, hp, h9, h10, h11, h12⟩ := hc
  refine ⟨?_, ?_, rfl, rfl⟩
  · simp only [LoadObjectField, AllocateArgumentsObject.emptyState]
    rw [Store_mem_ne _ _ _ _ (by omega), Store_mem_eq _ _ _ _ rfl]
  · simp only [LoadObjectField, AllocateArgumentsObject.emptyState]
    rw [Store_mem_eq _ _ _ _ rfl]


/-! ## Traces without a runtime call -/

/-- Doing nothing is no runtime call. -/
theorem NoRuntimeCall.refl (s : State) : NoRuntimeCall s s :=
  ⟨[], rfl, fun _ h => absurd h (List.not_mem_nil _)⟩

/-- Two stretches without a runtime call make one. -/
theorem NoRuntimeCall.trans {s1 s2 s3 : State} (h12 : NoRuntimeCall s1 s2)
    (h23 : NoRuntimeCall s2 s3) : NoRuntimeCall s1 s3 := by
  obtain ⟨es, he, hes⟩ := h12
  obtain ⟨fs, hf, hfs⟩ := h23
  refine ⟨fs ++ es, by rw [hf, he, List.append_assoc], ?_⟩
  intro e h
  rcases List.mem_append.mp h with h | h
  · exact hfs e h
  · exact hes e h

/-- A store is no runtime call. -/
theorem NoRuntimeCall.of_store (address : Int) (value : Value) (s : State) :
    NoRuntimeCall s (Store address value s) :=
  ⟨[Event.store address value], rfl, by simp [Event.isCallRuntime]⟩

/-- A load is no runtime call. -/
theorem NoRuntimeCall.of_load (env : Env) (address : Int) (s : State) :
    NoRuntimeCall s (Load env address s).2 :=
  ⟨[Event.load address], rfl, by simp [Event.isCallRuntime]⟩

/-- An allocation is no runtime call. -/
theorem NoRuntimeCall.of_allocate (c : Layout) (size : Int) (s : State) :
    NoRuntimeCall s (Allocate c size s).2 :=
  ⟨[Event.allocate size (s.heap.top + c.kHeapObjectTag)], rfl, by simp [Event.isCallRuntime]⟩

/-- A state reached without a runtime call is not the state a runtime call
leaves behind. -/
theorem NoRuntimeCall.ne_callRuntime {s s' : State} (h : NoRuntimeCall s s')
    (id : RuntimeFunctionId) (context function : Value) :
    s'.trace ≠ Event.callRuntime id context function :: s.trace := by
  obtain ⟨es, he, hes⟩ := h
  intro h'
  have h1 : es ++ s.trace = [Event.callRuntime id context function] ++ s.trace := by
    rw [← he, h']; rfl
  have h2 : es = [Event.callRuntime id context function] := List.append_cancel_right h1
  have h3 := hes (Event.callRuntime id context function) (by rw [h2]; simp)
  simp [Event.isCallRuntime] at h3

/-- The header-only allocation makes no runtime call. -/
theorem NoRuntimeCall.of_emptyState (c : Layout) (map : Value) (base_size : Int) (s : State) :
    NoRuntimeCall s (AllocateArgumentsObject.emptyState c map base_size s) :=
  (((((NoRuntimeCall.of_allocate c _ s).trans (NoRuntimeCall.of_store _ _ _)).trans
    (NoRuntimeCall.of_store _ _ _)).trans (NoRuntimeCall.of_store _ _ _)).trans
    (NoRuntimeCall.of_store _ _ _))

/-- The allocation with elements makes no runtime call. -/
theorem NoRuntimeCall.of_elementsState (c : Layout) (map : Value) (n base_size : Int) (s : State) :
    NoRuntimeCall s (AllocateArgumentsObject.elementsState c map n base_size s) :=
  (((((((NoRuntimeCall.of_allocate c _ s).trans (NoRuntimeCall.of_store _ _ _)).trans
    (NoRuntimeCall.of_store _ _ _)).trans (NoRuntimeCall.of_store _ _ _)).trans
    (NoRuntimeCall.of_store _ _ _)).trans (NoRuntimeCall.of_store _ _ _)).trans
    (NoRuntimeCall.of_store _ _ _))

/-- The allocation with a parameter map makes no runtime call. -/
theorem NoRuntimeCall.of_mappedState (c : Layout) (map : Value) (n m base_size : Int) (s : State) :
    NoRuntimeCall s (AllocateArgumentsObject.mappedState c map n m base_size s) :=
  (((((((((NoRuntimeCall.of_allocate c _ s).trans (NoRuntimeCall.of_store _ _ _)).trans
    (NoRuntimeCall.of_store _ _ _)).trans (NoRuntimeCall.of_store _ _ _)).trans
    (NoRuntimeCall.of_store _ _ _)).trans (NoRuntimeCall.of_store _ _ _)).trans
    (NoRuntimeCall.of_store _ _ _)).trans (NoRuntimeCall.of_store _ _ _)).trans
    (NoRuntimeCall.of_store _ _ _))

/-- A loop whose body makes no runtime call makes none. -/
theorem NoRuntimeCall.of_loop {α : Type} (body : Int → State × α → State × α)
    (end_index increment : Int) (advance_mode : IndexAdvanceMode)
    (hbody : ∀ (i : Int) (v : State × α), NoRuntimeCall v.1 (body i v).1) :
    ∀ (fuel : Nat) (var : Int) (vars : State × α) (r : Int × (State × α)),
      BuildFastLoop.loop body end_index increment advance_mode fuel var vars = some r →
      NoRuntimeCall vars.1 r.2.1 := by
  intro fuel
  induction fuel with
  | zero =>
    intro var vars r h
    simp [BuildFastLoop.loop] at h
  | succ f ih =>
    intro var vars r h
    rw [BuildFastLoop.loop] at h
    by_cases hend : (if advance_mode = IndexAdvanceMode.kPost then
        (if advance_mode = IndexAdvanceMode.kPre then var + increment else var) + increment
        else (if advance_mode = IndexAdvanceMode.kPre then var + increment else var))
        ≠ end_index
    · rw [if_pos hend] at h
      exact (hbody _ vars).trans (ih _ _ r h)
    · rw [if_neg hend] at h
      cases h
      exact hbody _ vars

/-- The loop `BuildFastLoop` makes no runtime call when its body makes none. -/
theorem NoRuntimeCall.of_BuildFastLoop {α : Type} (body : Int → State × α → State × α)
    (start_index end_index increment : Int) (advance_mode : IndexAdvanceMode)
    (hbody : ∀ (i : Int) (v : State × α), NoRuntimeCall v.1 (body i v).1)
    (fuel : Nat) (vars : State × α) (r : Int × (State × α))
    (h : BuildFastLoop fuel vars start_index end_index body increment
      advance_mode = some r) :
    NoRuntimeCall vars.1 r.2.1 := by
  unfold BuildFastLoop at h
  split at h
  · cases h
    exact NoRuntimeCall.refl _
  · exact NoRuntimeCall.of_loop body end_index increment advance_mode hbody fuel _ vars r h

/-- The function `ConstructParametersObjectFromArgs` makes no runtime call. -/
theorem NoRuntimeCall.of_ConstructParametersObjectFromArgs (c : Layout) (env : Env) (fuel : Nat)
    (map : Value) (frame_ptr arg_count first_arg rest_count base_size : Int) (s : State)
    (r : Int × State)
    (h : ConstructParametersObjectFromArgs c env fuel map frame_ptr arg_count
      first_arg (Node.dynamic rest_count) base_size s = some r) :
    NoRuntimeCall s r.2 := by
  simp only [ConstructParametersObjectFromArgs,
    AllocateArgumentsObject_elements, CodeStubArguments.ForEach] at h
  split at h
  · next i v hloop =>
    cases h
    refine (NoRuntimeCall.of_elementsState c map rest_count base_size s).trans ?_
    refine NoRuntimeCall.of_BuildFastLoop _ _ _ _ _ ?_ fuel _ (i, v) hloop
    intro i v
    exact (NoRuntimeCall.of_load env i v.1).trans (NoRuntimeCall.of_store _ _ _)
  · cases h

/-- The two loops of the aliased case, one after the other, on elements with
`n2` mapped slots followed by `n1` other slots: the mapped slots hold the
hole, the parallel words of the parameter map hold the context indices
counted down from `context_index + n2 - 1`, the other slots hold the words
above `current` on the stack, and nothing below the slots or between the
slots and the parameter-map contents has changed. -/
theorem sloppy_loops (c : Layout) (env : Env) (elements adjusted_map_array offset : Int)
    (ht : 0 < c.kTaggedSize) (n1 n2 : Nat) (current context_index : Int) (s : State)
    (hsep : elements + ((n2 : Int) * c.kTaggedSize + (n1 : Int) * c.kTaggedSize)
      ≤ adjusted_map_array) :
    (∀ j : Nat, j < n2 →
      (BuildFastLoop.rounds
        (EmitFastNewSloppyArguments.fillMapped elements adjusted_map_array Value.TheHole)
        (-c.kTaggedSize) IndexAdvanceMode.kPre n2 (offset + (n2 : Int) * c.kTaggedSize)
        ((BuildFastLoop.rounds (EmitFastNewSloppyArguments.fillNonMapped c env elements)
          (-c.kTaggedSize) IndexAdvanceMode.kPre n1
          (offset + (n2 : Int) * c.kTaggedSize + (n1 : Int) * c.kTaggedSize)
          (s, current)).1, context_index)).1.heap.mem
          (elements + (offset + (j : Int) * c.kTaggedSize)) = some Value.TheHole) ∧
    (∀ j : Nat, j < n2 →
      (BuildFastLoop.rounds
        (EmitFastNewSloppyArguments.fillMapped elements adjusted_map_array Value.TheHole)
        (-c.kTaggedSize) IndexAdvanceMode.kPre n2 (offset + (n2 : Int) * c.kTaggedSize)
        ((BuildFastLoop.rounds (EmitFastNewSloppyArguments.fillNonMapped c env elements)
          (-c.kTaggedSize) IndexAdvanceMode.kPre n1
          (offset + (n2 : Int) * c.kTaggedSize + (n1 : Int) * c.kTaggedSize)
          (s, current)).1, context_index)).1.heap.mem
          (adjusted_map_array + (offset + (j : Int) * c.kTaggedSize))
        = some (Value.Smi (context_index + ((n2 : Int) - 1 - (j : Int))))) ∧
    (∀ j : Nat, j < n1 →
      (BuildFastLoop.rounds
        (EmitFastNewSloppyArguments.fillMapped elements adjusted_map_array Value.TheHole)
        (-c.kTaggedSize) IndexAdvanceMode.kPre n2 (offset + (n2 : Int) * c.kTaggedSize)
        ((BuildFastLoop.rounds (EmitFastNewSloppyArguments.fillNonMapped c env elements)
          (-c.kTaggedSize) IndexAdvanceMode.kPre n1
          (offset + (n2 : Int) * c.kTaggedSize + (n1 : Int) * c.kTaggedSize)
          (s, current)).1, context_index)).1.heap.mem
          (elements + (offset + (n2 : Int) * c.kTaggedSize + (j : Int) * c.kTaggedSize))
        = some (env.stack (current + ((n1 : Int) - (j : Int)) * c.kSystemPointerSize))) ∧
    (∀ a : Int, (a < elements + offset
        ∨ (elements + offset + ((n2 : Int) * c.kTaggedSize + (n1 : Int) * c.kTaggedSize) ≤ a
            ∧ a < adjusted_map_array + offset)) →
      (BuildFastLoop.rounds
        (EmitFastNewSloppyArguments.fillMapped elements adjusted_map_array Value.TheHole)
        (-c.kTaggedSize) IndexAdvanceMode.kPre n2 (offset + (n2 : Int) * c.kTaggedSize)
        ((BuildFastLoop.rounds (EmitFastNewSloppyArguments.fillNonMapped c env elements)
          (-c.kTaggedSize) IndexAdvanceMode.kPre n1
          (offset + (n2 : Int) * c.kTaggedSize + (n1 : Int) * c.kTaggedSize)
          (s, current)).1, context_index)).1.heap.mem a = s.heap.mem a) ∧
    (BuildFastLoop.rounds
        (EmitFastNewSloppyArguments.fillMapped elements adjusted_map_array Value.TheHole)
        (-c.kTaggedSize) IndexAdvanceMode.kPre n2 (offset + (n2 : Int) * c.kTaggedSize)
        ((BuildFastLoop.rounds (EmitFastNewSloppyArguments.fillNonMapped c env elements)
          (-c.kTaggedSize) IndexAdvanceMode.kPre n1
          (offset + (n2 : Int) * c.kTaggedSize + (n1 : Int) * c.kTaggedSize)
          (s, current)).1, context_index)).1.heap.top = s.heap.top := by
  obtain ⟨a1, a2, a3⟩ := fillNonMapped_rounds c env elements ht n1 current
    (offset + (n2 : Int) * c.kTaggedSize) s
  obtain ⟨b1, b2, b3, b4⟩ := fillMapped_rounds c.kTaggedSize elements adjusted_map_array ht n2
    context_index offset
    (BuildFastLoop.rounds (EmitFastNewSloppyArguments.fillNonMapped c env elements)
      (-c.kTaggedSize) IndexAdvanceMode.kPre n1
      (offset + (n2 : Int) * c.kTaggedSize + (n1 : Int) * c.kTaggedSize) (s, current)).1
    (by have := slot_nonneg n1 c.kTaggedSize ht; omega)
  have hn1 := slot_nonneg n1 c.kTaggedSize ht
  have hn2 := slot_nonneg n2 c.kTaggedSize ht
  refine ⟨b1, b2, ?_, ?_, ?_⟩
  · intro j hj
    rw [b3]
    · exact a1 j hj
    · intro i hi
      have := slot_lt i n2 c.kTaggedSize ht hi
      have := slot_nonneg j c.kTaggedSize ht
      omega
    · intro i hi
      have := slot_nonneg i c.kTaggedSize ht
      have := slot_lt j n1 c.kTaggedSize ht hj
      omega
  · intro a ha
    rw [b3, a2]
    · intro i hi
      have := slot_nonneg i c.kTaggedSize ht
      have := slot_lt i n1 c.kTaggedSize ht hi
      omega
    · intro i hi
      have := slot_nonneg i c.kTaggedSize ht
      have := slot_lt i n2 c.kTaggedSize ht hi
      omega
    · intro i hi
      have := slot_nonneg i c.kTaggedSize ht
      omega
  · rw [b4, a3]

/-! ## The aliased case of `EmitFastNewSloppyArguments` -/

/-- With both counts at least 1, a passing ceiling check and enough fuel,
`EmitFastNewSloppyArguments` returns the object at the old allocation top,
followed by its backing store and by its parameter map; the theorem lists the
contents of every word of the three. -/
theorem EmitFastNewSloppyArguments_mapped_spec (c : Layout) (hc : c.WellFormed) (env : Env)
    (fuel : Nat) (context function : Value) (s : State)
    (frame argument_count formal_parameter_count : Int)
    (hinfo : env.GetArgumentsFrameAndCount context function
      = { frame := frame, argument_count := argument_count,
          formal_parameter_count := formal_parameter_count })
    (hcount : 1 ≤ argument_count) (hformal : 1 ≤ formal_parameter_count)
    (hfits : FixedArraySizeDoesntFitInNewSpace c
      (argument_count + (min argument_count formal_parameter_count + 2))
      (c.JSSloppyArgumentsObject_kSize + c.FixedArray_kHeaderSize * 2) = false)
    (hfuel : argument_count ≤ (fuel : Int)) :
    ∃ s' : State,
      EmitFastNewSloppyArguments c env fuel context function s
        = some (Value.HeapObject (s.heap.top + c.kHeapObjectTag), s') ∧
      LoadObjectField c s'.heap (s.heap.top + c.kHeapObjectTag) c.HeapObject_kMapOffset
        = some (env.LoadContextElement (env.LoadNativeContext context)
            ContextField.FAST_ALIASED_ARGUMENTS_MAP_INDEX) ∧
      LoadObjectField c s'.heap (s.heap.top + c.kHeapObjectTag) c.JSArray_kPropertiesOrHashOffset
        = some Value.EmptyFixedArray ∧
      LoadObjectField c s'.heap (s.heap.top + c.kHeapObjectTag) c.JSArray_kLengthOffset
        = some (Value.Smi argument_count) ∧
      LoadObjectField c s'.heap (s.heap.top + c.kHeapObjectTag) c.JSArray_kElementsOffset
        = some (Value.HeapObject (s.heap.top + c.kHeapObjectTag
            + c.JSSloppyArgumentsObject_kSize + OffsetOfElementAt c argument_count)) ∧
      LoadObjectField c s'.heap (s.heap.top + c.kHeapObjectTag)
          c.JSSloppyArgumentsObject_kCalleeOffset = some function ∧
      LoadObjectField c s'.heap
          (s.heap.top + c.kHeapObjectTag + c.JSSloppyArgumentsObject_kSize)
          c.HeapObject_kMapOffset = some Value.FixedArrayMap ∧
      LoadObjectField c s'.heap
          (s.heap.top + c.kHeapObjectTag + c.JSSloppyArgumentsObject_kSize)
          c.FixedArray_kLengthOffset = some (Value.Smi argument_count) ∧
      LoadObjectField c s'.heap
          (s.heap.top + c.kHeapObjectTag + c.JSSloppyArgumentsObject_kSize
            + OffsetOfElementAt c argument_count)
          c.HeapObject_kMapOffset = some Value.SloppyArgumentsElementsMap ∧
      LoadObjectField c s'.heap
          (s.heap.top + c.kHeapObjectTag + c.JSSloppyArgumentsObject_kSize
            + OffsetOfElementAt c argument_count)
          c.FixedArray_kLengthOffset
        = some (Value.Smi (min argument_count formal_parameter_count + 2)) ∧
      LoadFixedArrayElement c s'.heap
          (s.heap.top + c.kHeapObjectTag + c.JSSloppyArgumentsObject_kSize
            + OffsetOfElementAt c argument_count) 0 = some context ∧
      LoadFixedArrayElement c s'.heap
          (s.heap.top + c.kHeapObjectTag + c.JSSloppyArgumentsObject_kSize
            + OffsetOfElementAt c argument_count) 1
        = some (Value.HeapObject
            (s.heap.top + c.kHeapObjectTag + c.JSSloppyArgumentsObject_kSize)) ∧
      (∀ i : Int, 0 ≤ i → i < min argument_count formal_parameter_count →
        LoadFixedArrayElement c s'.heap
            (s.heap.top + c.kHeapObjectTag + c.JSSloppyArgumentsObject_kSize) i
          = some Value.TheHole) ∧
      (∀ i : Int, min argument_count formal_parameter_count ≤ i → i < argument_count →
        LoadFixedArrayElement c s'.heap
            (s.heap.top + c.kHeapObjectTag + c.JSSloppyArgumentsObject_kSize) i
          = some ((CodeStubArguments.new c argument_count frame).AtIndex c env i)) ∧
      (∀ i : Int, 0 ≤ i → i < min argument_count formal_parameter_count →
        LoadFixedArrayElement c s'.heap
            (s.heap.top + c.kHeapObjectTag + c.JSSloppyArgumentsObject_kSize
              + OffsetOfElementAt c argument_count) (i + 2)
          = some (Value.Smi (c.MIN_CONTEXT_SLOTS + formal_parameter_count - 1 - i))) ∧
      s'.heap.top = s.heap.top + (c.JSSloppyArgumentsObject_kSize + c.FixedArray_kHeaderSize
        + c.FixedArray_kHeaderSize
        + (argument_count + (min argument_count formal_parameter_count + 2)) * c.kTaggedSize) := by
  have hcw := hc
  obtain ⟨ht, h0, h1, h2, h3, h4, h5, h6, h7, h8, hp, h9, h10, h11, h12⟩ := hc
  -- the two iteration counts
  obtain ⟨n2, hk⟩ := Int.eq_ofNat_of_zero_le
    (show 0 ≤ min argument_count formal_parameter_count by omega)
  obtain ⟨n1, hn1⟩ := Int.eq_ofNat_of_zero_le
    (show 0 ≤ argument_count - min argument_count formal_parameter_count by omega)
  have hargc : argument_count = (n2 : Int) + (n1 : Int) := by omega
  have hmul : argument_count * c.kTaggedSize
      = (n2 : Int) * c.kTaggedSize + (n1 : Int) * c.kTaggedSize := by rw [hargc]; ring
  have hn1' := slot_nonneg n1 c.kTaggedSize ht
  have hn2' := slot_nonneg n2 c.kTaggedSize ht
  have hne0 : argument_count ≠ 0 := by omega
  have hnf0 : formal_parameter_count ≠ 0 := by omega
  have hloop1 := BuildFastLoop_rounds
    (EmitFastNewSloppyArguments.fillNonMapped c env
      (s.heap.top + c.kHeapObjectTag + c.JSSloppyArgumentsObject_kSize))
    (c.FixedArray_kHeaderSize - c.kHeapObjectTag + argument_count * c.kTaggedSize)
    (c.FixedArray_kHeaderSize - c.kHeapObjectTag + (n2 : Int) * c.kTaggedSize)
    (-c.kTaggedSize) IndexAdvanceMode.kPre (by omega) n1 fuel
    (StoreFixedArrayElement c (s.heap.top + c.kHeapObjectTag + c.JSSloppyArgumentsObject_kSize
        + (c.FixedArray_kHeaderSize + argument_count * c.kTaggedSize)) 1
      (Value.HeapObject (s.heap.top + c.kHeapObjectTag + c.JSSloppyArgumentsObject_kSize))
      (StoreFixedArrayElement c (s.heap.top + c.kHeapObjectTag + c.JSSloppyArgumentsObject_kSize
        + (c.FixedArray_kHeaderSize + argument_count * c.kTaggedSize)) 0 context
      (StoreObjectFieldNoWriteBarrier c (s.heap.top + c.kHeapObjectTag)
        c.JSSloppyArgumentsObject_kCalleeOffset function
        (AllocateArgumentsObject.mappedState c
          (env.LoadContextElement (env.LoadNativeContext context)
            ContextField.FAST_ALIASED_ARGUMENTS_MAP_INDEX) argument_count ((n2 : Int) + 2)
          c.JSSloppyArgumentsObject_kSize s))),
      (CodeStubArguments.new c argument_count frame).AtIndexPtr c argument_count)
    (by omega) (by rw [hmul]; ring)
  have hloop2 := BuildFastLoop_rounds
    (EmitFastNewSloppyArguments.fillMapped
      (s.heap.top + c.kHeapObjectTag + c.JSSloppyArgumentsObject_kSize)
      (s.heap.top + c.kHeapObjectTag + c.JSSloppyArgumentsObject_kSize
        + (c.FixedArray_kHeaderSize + argument_count * c.kTaggedSize)
        + (OffsetOfElementAt c 2 - c.FixedArray_kHeaderSize)) Value.TheHole)
    (c.FixedArray_kHeaderSize - c.kHeapObjectTag + (n2 : Int) * c.kTaggedSize)
    (c.FixedArray_kHeaderSize - c.kHeapObjectTag + 0 * c.kTaggedSize)
    (-c.kTaggedSize) IndexAdvanceMode.kPre (by omega) n2 fuel
    ((BuildFastLoop.rounds
      (EmitFastNewSloppyArguments.fillNonMapped c env
        (s.heap.top + c.kHeapObjectTag + c.JSSloppyArgumentsObject_kSize))
      (-c.kTaggedSize) IndexAdvanceMode.kPre n1
      (c.FixedArray_kHeaderSize - c.kHeapObjectTag + argument_count * c.kTaggedSize)
      (StoreFixedArrayElement c (s.heap.top + c.kHeapObjectTag + c.JSSloppyArgumentsObject_kSize
          + (c.FixedArray_kHeaderSize + argument_count * c.kTaggedSize)) 1
        (Value.HeapObject (s.heap.top + c.kHeapObjectTag + c.JSSloppyArgumentsObject_kSize))
        (StoreFixedArrayElement c (s.heap.top + c.kHeapObjectTag
          + c.JSSloppyArgumentsObject_kSize
          + (c.FixedArray_kHeaderSize + argument_count * c.kTaggedSize)) 0 context
        (StoreObjectFieldNoWriteBarrier c (s.heap.top + c.kHeapObjectTag)
          c.JSSloppyArgumentsObject_kCalleeOffset function
          (AllocateArgumentsObject.mappedState c
            (env.LoadContextElement (env.LoadNativeContext context)
              ContextField.FAST_ALIASED_ARGUMENTS_MAP_INDEX) argument_count ((n2 : Int) + 2)
            c.JSSloppyArgumentsObject_kSize s))),
        (CodeStubArguments.new c argument_count frame).AtIndexPtr c argument_count)).1,
      c.MIN_CONTEXT_SLOTS + formal_parameter_count - (n2 : Int))
    (by omega) (by ring)
  have hemit : EmitFastNewSloppyArguments c env fuel context function s
      = some (Value.HeapObject (s.heap.top + c.kHeapObjectTag),
          (BuildFastLoop.rounds
            (EmitFastNewSloppyArguments.fillMapped
              (s.heap.top + c.kHeapObjectTag + c.JSSloppyArgumentsObject_kSize)
              (s.heap.top + c.kHeapObjectTag + c.JSSloppyArgumentsObject_kSize
                + (c.FixedArray_kHeaderSize + argument_count * c.kTaggedSize)
                + (OffsetOfElementAt c 2 - c.FixedArray_kHeaderSize)) Value.TheHole)
            (-c.kTaggedSize) IndexAdvanceMode.kPre n2
            (c.FixedArray_kHeaderSize - c.kHeapObjectTag + (n2 : Int) * c.kTaggedSize)
            ((BuildFastLoop.rounds
              (EmitFastNewSloppyArguments.fillNonMapped c env
                (s.heap.top + c.kHeapObjectTag + c.JSSloppyArgumentsObject_kSize))
              (-c.kTaggedSize) IndexAdvanceMode.kPre n1
              (c.FixedArray_kHeaderSize - c.kHeapObjectTag + argument_count * c.kTaggedSize)
              (StoreFixedArrayElement c (s.heap.top + c.kHeapObjectTag
                  + c.JSSloppyArgumentsObject_kSize
                  + (c.FixedArray_kHeaderSize + argument_count * c.kTaggedSize)) 1
                (Value.HeapObject
                  (s.heap.top + c.kHeapObjectTag + c.JSSloppyArgumentsObject_kSize))
                (StoreFixedArrayElement c (s.heap.top + c.kHeapObjectTag
                  + c.JSSloppyArgumentsObject_kSize
                  + (c.FixedArray_kHeaderSize + argument_count * c.kTaggedSize)) 0 context
                (StoreObjectFieldNoWriteBarrier c (s.heap.top + c.kHeapObjectTag)
                  c.JSSloppyArgumentsObject_kCalleeOffset function
                  (AllocateArgumentsObject.mappedState c
                    (env.LoadContextElement (env.LoadNativeContext context)
                      ContextField.FAST_ALIASED_ARGUMENTS_MAP_INDEX) argument_count
                    ((n2 : Int) + 2) c.JSSloppyArgumentsObject_kSize s))),
                (CodeStubArguments.new c argument_count frame).AtIndexPtr c
                  argument_count)).1,
              c.MIN_CONTEXT_SLOTS + formal_parameter_count - (n2 : Int))).1) := by
    have hfits' := hfits
    rw [hk] at hfits'
    simp only [EmitFastNewSloppyArguments, hinfo, Node.value, hne0, hnf0, if_false, hfits',
      hk, AllocateArgumentsObject_mapped, ElementOffsetFromIndex, ElementSize,
      Bool.false_eq_true]
    rw [hloop1]
    simp only []
    rw [hloop2]
  have hstart : c.FixedArray_kHeaderSize - c.kHeapObjectTag + argument_count * c.kTaggedSize
      = c.FixedArray_kHeaderSize - c.kHeapObjectTag + (n2 : Int) * c.kTaggedSize
        + (n1 : Int) * c.kTaggedSize := by omega
  rw [hstart] at hemit
  obtain ⟨L1, L2, L3, L4, L5⟩ := sloppy_loops c env
    (s.heap.top + c.kHeapObjectTag + c.JSSloppyArgumentsObject_kSize)
    (s.heap.top + c.kHeapObjectTag + c.JSSloppyArgumentsObject_kSize
      + (c.FixedArray_kHeaderSize + argument_count * c.kTaggedSize)
      + (OffsetOfElementAt c 2 - c.FixedArray_kHeaderSize))
    (c.FixedArray_kHeaderSize - c.kHeapObjectTag) ht n1 n2
    ((CodeStubArguments.new c argument_count frame).AtIndexPtr c argument_count)
    (c.MIN_CONTEXT_SLOTS + formal_parameter_count - (n2 : Int))
    (StoreFixedArrayElement c (s.heap.top + c.kHeapObjectTag + c.JSSloppyArgumentsObject_kSize
        + (c.FixedArray_kHeaderSize + argument_count * c.kTaggedSize)) 1
      (Value.HeapObject (s.heap.top + c.kHeapObjectTag + c.JSSloppyArgumentsObject_kSize))
      (StoreFixedArrayElement c (s.heap.top + c.kHeapObjectTag + c.JSSloppyArgumentsObject_kSize
        + (c.FixedArray_kHeaderSize + argument_count * c.kTaggedSize)) 0 context
      (StoreObjectFieldNoWriteBarrier c (s.heap.top + c.kHeapObjectTag)
        c.JSSloppyArgumentsObject_kCalleeOffset function
        (AllocateArgumentsObject.mappedState c
          (env.LoadContextElement (env.LoadNativeContext context)
            ContextField.FAST_ALIASED_ARGUMENTS_MAP_INDEX) argument_count ((n2 : Int) + 2)
          c.JSSloppyArgumentsObject_kSize s))))
    (by simp only [OffsetOfElementAt]; omega)
  refine ⟨_, hemit, ?_, ?_, ?_, ?_, ?_, ?_, ?_, ?_, ?_, ?_, ?_, ?_, ?_, ?_, ?_⟩
  · rw [LoadObjectField, L4 _ (by simp only [OffsetOfElementAt]; omega)]
    simp only [StoreFixedArrayElement, StoreObjectFieldNoWriteBarrier, OffsetOfElementAt,
      AllocateArgumentsObject.mappedState]
    repeat (first | rw [Store_mem_eq _ _ _ _ (by omega)] | rw [Store_mem_ne _ _ _ _ (by omega)])
  · rw [LoadObjectField, L4 _ (by simp only [OffsetOfElementAt]; omega)]
    simp only [StoreFixedArrayElement, StoreObjectFieldNoWriteBarrier, OffsetOfElementAt,
      AllocateArgumentsObject.mappedState]
    repeat (first | rw [Store_mem_eq _ _ _ _ (by omega)] | rw [Store_mem_ne _ _ _ _ (by omega)])
  · rw [LoadObjectField, L4 _ (by simp only [OffsetOfElementAt]; omega)]
    simp only [StoreFixedArrayElement, StoreObjectFieldNoWriteBarrier, OffsetOfElementAt,
      AllocateArgumentsObject.mappedState]
    repeat (first | rw [Store_mem_eq _ _ _ _ (by omega)] | rw [Store_mem_ne _ _ _ _ (by omega)])
  · rw [LoadObjectField, L4 _ (by simp only [OffsetOfElementAt]; omega)]
    simp only [StoreFixedArrayElement, StoreObjectFieldNoWriteBarrier, OffsetOfElementAt,
      AllocateArgumentsObject.mappedState]
    repeat (first | rw [Store_mem_eq _ _ _ _ (by omega)] | rw [Store_mem_ne _ _ _ _ (by omega)])
  · rw [LoadObjectField, L4 _ (by simp only [OffsetOfElementAt]; omega)]
    simp only [StoreFixedArrayElement, StoreObjectFieldNoWriteBarrier, OffsetOfElementAt,
      AllocateArgumentsObject.mappedState]
    repeat (first | rw [Store_mem_eq _ _ _ _ (by omega)] | rw [Store_mem_ne _ _ _ _ (by omega)])
  · rw [LoadObjectField, L4 _ (by simp only [OffsetOfElementAt]; omega)]
    simp only [StoreFixedArrayElement, StoreObjectFieldNoWriteBarrier, OffsetOfElementAt,
      AllocateArgumentsObject.mappedState]
    repeat (first | rw [Store_mem_eq _ _ _ _ (by omega)] | rw [Store_mem_ne _ _ _ _ (by omega)])
  · rw [LoadObjectField, L4 _ (by simp only [OffsetOfElementAt]; omega)]
    simp only [StoreFixedArrayElement, StoreObjectFieldNoWriteBarrier, OffsetOfElementAt,
      AllocateArgumentsObject.mappedState]
    repeat (first | rw [Store_mem_eq _ _ _ _ (by omega)] | rw [Store_mem_ne _ _ _ _ (by omega)])
  · rw [LoadObjectField, L4 _ (by simp only [OffsetOfElementAt]; omega)]
    simp only [StoreFixedArrayElement, StoreObjectFieldNoWriteBarrier, OffsetOfElementAt,
      AllocateArgumentsObject.mappedState]
    repeat (first | rw [Store_mem_eq _ _ _ _ (by omega)] | rw [Store_mem_ne _ _ _ _ (by omega)])
  · rw [LoadObjectField, L4 _ (by simp only [OffsetOfElementAt]; omega)]
    simp only [StoreFixedArrayElement, StoreObjectFieldNoWriteBarrier, OffsetOfElementAt,
      AllocateArgumentsObject.mappedState]
    rw [hk]
    repeat (first | rw [Store_mem_eq _ _ _ _ (by omega)] | rw [Store_mem_ne _ _ _ _ (by omega)])
  · rw [LoadFixedArrayElement, L4 _ (by simp only [OffsetOfElementAt]; omega)]
    simp only [StoreFixedArrayElement, StoreObjectFieldNoWriteBarrier, OffsetOfElementAt,
      AllocateArgumentsObject.mappedState]
    repeat (first | rw [Store_mem_eq _ _ _ _ (by omega)] | rw [Store_mem_ne _ _ _ _ (by omega)])
  · rw [LoadFixedArrayElement, L4 _ (by simp only [OffsetOfElementAt]; omega)]
    simp only [StoreFixedArrayElement, StoreObjectFieldNoWriteBarrier, OffsetOfElementAt,
      AllocateArgumentsObject.mappedState]
    repeat (first | rw [Store_mem_eq _ _ _ _ (by omega)] | rw [Store_mem_ne _ _ _ _ (by omega)])
  · intro i hi0 hik
    rw [hk] at hik
    obtain ⟨j, rfl⟩ := Int.eq_ofNat_of_zero_le hi0
    have hj : j < n2 := by exact_mod_cast hik
    have e : s.heap.top + c.kHeapObjectTag + c.JSSloppyArgumentsObject_kSize
          + (OffsetOfElementAt c (j : Int) - c.kHeapObjectTag)
        = s.heap.top + c.kHeapObjectTag + c.JSSloppyArgumentsObject_kSize
          + (c.FixedArray_kHeaderSize - c.kHeapObjectTag + (j : Int) * c.kTaggedSize) := by
      simp only [OffsetOfElementAt]; ring
    rw [LoadFixedArrayElement, e]
    exact L1 j hj
  · intro i hik hin
    rw [hk] at hik
    obtain ⟨j, hj⟩ := Int.eq_ofNat_of_zero_le (show 0 ≤ i - (n2 : Int) by omega)
    have hi : i = (n2 : Int) + (j : Int) := by omega
    subst hi
    have hjn : j < n1 := by
      have : (j : Int) < (n1 : Int) := by omega
      exact_mod_cast this
    have e : s.heap.top + c.kHeapObjectTag + c.JSSloppyArgumentsObject_kSize
          + (OffsetOfElementAt c ((n2 : Int) + (j : Int)) - c.kHeapObjectTag)
        = s.heap.top + c.kHeapObjectTag + c.JSSloppyArgumentsObject_kSize
          + (c.FixedArray_kHeaderSize - c.kHeapObjectTag + (n2 : Int) * c.kTaggedSize
            + (j : Int) * c.kTaggedSize) := by
      simp only [OffsetOfElementAt]; ring
    rw [LoadFixedArrayElement, e, L3 j hjn]
    simp only [CodeStubArguments.AtIndex, CodeStubArguments.AtIndexPtr, ElementOffsetFromIndex,
      ElementSize]
    congr 2
    rw [hargc]
    ring
  · intro i hi0 hik
    rw [hk] at hik
    obtain ⟨j, rfl⟩ := Int.eq_ofNat_of_zero_le hi0
    have hj : j < n2 := by exact_mod_cast hik
    have e : s.heap.top + c.kHeapObjectTag + c.JSSloppyArgumentsObject_kSize
          + OffsetOfElementAt c argument_count
          + (OffsetOfElementAt c ((j : Int) + 2) - c.kHeapObjectTag)
        = s.heap.top + c.kHeapObjectTag + c.JSSloppyArgumentsObject_kSize
          + (c.FixedArray_kHeaderSize + argument_count * c.kTaggedSize)
          + (OffsetOfElementAt c 2 - c.FixedArray_kHeaderSize)
          + (c.FixedArray_kHeaderSize - c.kHeapObjectTag + (j : Int) * c.kTaggedSize) := by
      simp only [OffsetOfElementAt]; ring
    rw [LoadFixedArrayElement, e, L2 j hj]
    congr 2
    ring
  · rw [L5, hk]
    simp only [StoreFixedArrayElement, StoreObjectFieldNoWriteBarrier, Store_top,
      AllocateArgumentsObject.mappedState, Allocate]

/-! ## The other two cases of `EmitFastNewSloppyArguments` -/

/-- Without formal parameters, with at least one argument, a passing ceiling
check and enough fuel, `EmitFastNewSloppyArguments` returns the object at the
old allocation top followed by its backing store, which holds the arguments;
the callee field holds the function. -/
theorem EmitFastNewSloppyArguments_no_parameters_spec (c : Layout) (hc : c.WellFormed)
    (env : Env) (fuel : Nat) (context function : Value) (s : State)
    (frame argument_count : Int)
    (hinfo : env.GetArgumentsFrameAndCount context function
      = { frame := frame, argument_count := argument_count, formal_parameter_count := 0 })
    (hcount : 1 ≤ argument_count)
    (hfits : FixedArraySizeDoesntFitInNewSpace c argument_count
      (c.JSSloppyArgumentsObject_kSize + c.FixedArray_kHeaderSize) = false)
    (hfuel : argument_count ≤ (fuel : Int)) :
    ∃ s' : State,
      EmitFastNewSloppyArguments c env fuel context function s
        = some (Value.HeapObject (s.heap.top + c.kHeapObjectTag), s') ∧
      LoadObjectField c s'.heap (s.heap.top + c.kHeapObjectTag) c.JSArray_kLengthOffset
        = some (Value.Smi argument_count) ∧
      LoadObjectField c s'.heap (s.heap.top + c.kHeapObjectTag) c.JSArray_kElementsOffset
        = some (Value.HeapObject
            (s.heap.top + c.kHeapObjectTag + c.JSSloppyArgumentsObject_kSize)) ∧
      LoadObjectField c s'.heap (s.heap.top + c.kHeapObjectTag)
          c.JSSloppyArgumentsObject_kCalleeOffset = some function ∧
      LoadObjectField c s'.heap
          (s.heap.top + c.kHeapObjectTag + c.JSSloppyArgumentsObject_kSize)
          c.HeapObject_kMapOffset = some Value.FixedArrayMap ∧
      LoadObjectField c s'.heap
          (s.heap.top + c.kHeapObjectTag + c.JSSloppyArgumentsObject_kSize)
          c.FixedArray_kLengthOffset = some (Value.Smi argument_count) ∧
      (∀ i : Int, 0 ≤ i → i < argument_count →
        LoadFixedArrayElement c s'.heap
            (s.heap.top + c.kHeapObjectTag + c.JSSloppyArgumentsObject_kSize) i
          = some ((CodeStubArguments.new c argument_count frame).AtIndex c env i)) ∧
      s'.heap.top = s.heap.top
        + (c.JSSloppyArgumentsObject_kSize + OffsetOfElementAt c argument_count) := by
  obtain ⟨n, hn⟩ := Int.eq_ofNat_of_zero_le (show 0 ≤ argument_count by omega)
  obtain ⟨s1, hs, _, _, f3, f4, f5, f6, f7, f8, _⟩ :=
    ConstructParametersObjectFromArgs_spec c hc env fuel
      (env.LoadContextElement (env.LoadNativeContext context)
        ContextField.SLOPPY_ARGUMENTS_MAP_INDEX) frame argument_count 0 argument_count
      c.JSSloppyArgumentsObject_kSize s n
      (le_trans (le_trans hc.length_callee (le_add_of_nonneg_right hc.tagged_pos.le))
        hc.callee_sloppy) (by omega) (by omega)
  obtain ⟨ht, h0, h1, h2, h3, h4, h5, h6, h7, h8, hp, h9, h10, h11, h12⟩ := hc
  have hne0 : argument_count ≠ 0 := by omega
  refine ⟨StoreObjectFieldNoWriteBarrier c (s.heap.top + c.kHeapObjectTag)
    c.JSSloppyArgumentsObject_kCalleeOffset function s1, ?_, ?_, ?_, ?_, ?_, ?_, ?_, ?_⟩
  · simp only [EmitFastNewSloppyArguments, hinfo, hfits, Node.value, hne0]
    simp only [Bool.false_eq_true, if_false, if_true, hs]
  · rw [LoadObjectField, StoreObjectFieldNoWriteBarrier, Store_mem_ne _ _ _ _ (by omega)]
    exact f4
  · rw [LoadObjectField, StoreObjectFieldNoWriteBarrier, Store_mem_ne _ _ _ _ (by omega)]
    exact f3
  · rw [LoadObjectField, StoreObjectFieldNoWriteBarrier, Store_mem_eq _ _ _ _ rfl]
  · rw [LoadObjectField, StoreObjectFieldNoWriteBarrier, Store_mem_ne _ _ _ _ (by omega)]
    exact f5
  · rw [LoadObjectField, StoreObjectFieldNoWriteBarrier, Store_mem_ne _ _ _ _ (by omega)]
    exact f6
  · intro i hi0 hin
    have hmul : 0 ≤ i * c.kTaggedSize := mul_nonneg hi0 ht.le
    rw [LoadFixedArrayElement, StoreObjectFieldNoWriteBarrier,
      Store_mem_ne _ _ _ _ (by simp only [OffsetOfElementAt]; omega)]
    have := f7 i hi0 (by omega)
    rw [zero_add] at this
    exact this
  · exact f8

/-- Without arguments, `EmitFastNewSloppyArguments` returns a header-only
object: length 0, the empty fixed array as elements, the function as callee;
the events of the call are the allocation of the header and five stores. -/
theorem EmitFastNewSloppyArguments_empty_spec (c : Layout) (hc : c.WellFormed)
    (env : Env) (fuel : Nat) (context function : Value) (s : State)
    (frame formal_parameter_count : Int)
    (hinfo : env.GetArgumentsFrameAndCount context function
      = { frame := frame, argument_count := 0,
          formal_parameter_count := formal_parameter_count }) :
    ∃ s' : State,
      EmitFastNewSloppyArguments c env fuel context function s
        = some (Value.HeapObject (s.heap.top + c.kHeapObjectTag), s') ∧
      LoadObjectField c s'.heap (s.heap.top + c.kHeapObjectTag) c.JSArray_kLengthOffset
        = some (Value.Smi 0) ∧
      LoadObjectField c s'.heap (s.heap.top + c.kHeapObjectTag) c.JSArray_kElementsOffset
        = some Value.EmptyFixedArray ∧
      LoadObjectField c s'.heap (s.heap.top + c.kHeapObjectTag)
          c.JSSloppyArgumentsObject_kCalleeOffset = some function ∧
      s'.heap.top = s.heap.top + c.JSSloppyArgumentsObject_kSize ∧
      s'.trace
        = [Event.store (s.heap.top + c.kHeapObjectTag + c.JSSloppyArgumentsObject_kCalleeOffset
              - c.kHeapObjectTag) function,
            Event.store (s.heap.top + c.kHeapObjectTag + c.JSArray_kElementsOffset
              - c.kHeapObjectTag) Value.EmptyFixedArray,
            Event.store (s.heap.top + c.kHeapObjectTag + c.JSArray_kLengthOffset
              - c.kHeapObjectTag) (Value.Smi 0),
            Event.store (s.heap.top + c.kHeapObjectTag + c.JSArray_kPropertiesOrHashOffset
              - c.kHeapObjectTag) Value.EmptyFixedArray,
            Event.store (s.heap.top + c.kHeapObjectTag + c.HeapObject_kMapOffset
              - c.kHeapObjectTag)
              (env.LoadContextElement (env.LoadNativeContext context)
                ContextField.SLOPPY_ARGUMENTS_MAP_INDEX),
            Event.allocate c.JSSloppyArgumentsObject_kSize (s.heap.top + c.kHeapObjectTag)]
          ++ s.trace := by
  obtain ⟨e1, e2, e3, e4⟩ := emptyState_spec c hc
    (env.LoadContextElement (env.LoadNativeContext context)
      ContextField.SLOPPY_ARGUMENTS_MAP_INDEX) c.JSSloppyArgumentsObject_kSize s
  obtain ⟨ht, h0, h1, h2, h3, h4, h5, h6, h7, h8, hp, h9, h10, h11, h12⟩ := hc
  refine ⟨StoreObjectFieldNoWriteBarrier c (s.heap.top + c.kHeapObjectTag)
    c.JSSloppyArgumentsObject_kCalleeOffset function
    (AllocateArgumentsObject.emptyState c
      (env.LoadContextElement (env.LoadNativeContext context)
        ContextField.SLOPPY_ARGUMENTS_MAP_INDEX) c.JSSloppyArgumentsObject_kSize s),
    ?_, ?_, ?_, ?_, ?_, ?_⟩
  · simp only [EmitFastNewSloppyArguments, hinfo, Node.value, if_true,
      AllocateArgumentsObject_empty]
  · rw [LoadObjectField, StoreObjectFieldNoWriteBarrier, Store_mem_ne _ _ _ _ (by omega)]
    exact e1
  · rw [LoadObjectField, StoreObjectFieldNoWriteBarrier, Store_mem_ne _ _ _ _ (by omega)]
    exact e2
  · rw [LoadObjectField, StoreObjectFieldNoWriteBarrier, Store_mem_eq _ _ _ _ rfl]
  · exact e3
  · show Event.store _ _ :: (AllocateArgumentsObject.emptyState c _ _ s).trace = _
    rw [e4]
    rfl

/-- On its fast paths `EmitFastNewSloppyArguments` makes no runtime call. -/
theorem NoRuntimeCall.of_EmitFastNewSloppyArguments (c : Layout) (env : Env) (fuel : Nat)
    (context function : Value) (s : State) (frame argument_count formal_parameter_count : Int)
    (hinfo : env.GetArgumentsFrameAndCount context function
      = { frame := frame, argument_count := argument_count,
          formal_parameter_count := formal_parameter_count })
    (hfast : argument_count = 0
      ∨ (formal_parameter_count = 0 ∧ FixedArraySizeDoesntFitInNewSpace c argument_count
          (c.JSSloppyArgumentsObject_kSize + c.FixedArray_kHeaderSize) = false)
      ∨ (formal_parameter_count ≠ 0 ∧ FixedArraySizeDoesntFitInNewSpace c
          (argument_count + (min argument_count formal_parameter_count + 2))
          (c.JSSloppyArgumentsObject_kSize + c.FixedArray_kHeaderSize * 2) = false))
    (r : Value × State)
    (h : EmitFastNewSloppyArguments c env fuel context function s = some r) :
    NoRuntimeCall s r.2 := by
  by_cases hzero : argument_count = 0
  · simp only [EmitFastNewSloppyArguments, hinfo, Node.value, hzero, if_true,
      AllocateArgumentsObject_empty] at h
    cases h
    exact (NoRuntimeCall.of_emptyState c _ _ s).trans (NoRuntimeCall.of_store _ _ _)
  · rcases hfast with h0 | ⟨hf, hfits⟩ | ⟨hf, hfits⟩
    · exact absurd h0 hzero
    · simp only [EmitFastNewSloppyArguments, hinfo, Node.value, hzero, hf,
        hfits, if_true, if_false, Bool.false_eq_true] at h
      split at h
      · next result s1 hcons =>
        cases h
        exact (NoRuntimeCall.of_ConstructParametersObjectFromArgs c env fuel _ _ _ _ _ _ s
          (result, s1) hcons).trans (NoRuntimeCall.of_store _ _ _)
      · cases h
    · simp only [EmitFastNewSloppyArguments, hinfo, Node.value, hzero, hf,
        hfits, if_false, Bool.false_eq_true, AllocateArgumentsObject_mapped] at h
      split at h
      · next i1 v1 hloop1 =>
        split at h
        · next i2 v2 hloop2 =>
          cases h
          have a1 := NoRuntimeCall.of_BuildFastLoop _ _ _ _ _
            (fun i v => (NoRuntimeCall.of_load env _ v.1).trans (NoRuntimeCall.of_store _ _ _))
            fuel _ (i1, v1) hloop1
          have a2 := NoRuntimeCall.of_BuildFastLoop _ _ _ _ _
            (fun i v => (NoRuntimeCall.of_store _ _ v.1).trans (NoRuntimeCall.of_store _ _ _))
            fuel _ (i2, v2) hloop2
          exact (((((NoRuntimeCall.of_mappedState c _ _ _ _ s).trans
            (NoRuntimeCall.of_store _ _ _)).trans (NoRuntimeCall.of_store _ _ _)).trans
            (NoRuntimeCall.of_store _ _ _)).trans a1).trans a2
        · cases h
      · cases h

/-! ## `EmitFastNewStrictArguments` -/

/-- On the fast path `EmitFastNewStrictArguments` returns the object at the old
allocation top: its length, and either its backing store with the arguments
or the empty fixed array; the formal parameter count plays no part. -/
theorem EmitFastNewStrictArguments_spec (c : Layout) (hc : c.WellFormed) (env : Env)
    (fuel : Nat) (context function : Value) (s : State)
    (frame argument_count formal_parameter_count : Int)
    (hinfo : env.GetArgumentsFrameAndCount context function
      = { frame := frame, argument_count := argument_count,
          formal_parameter_count := formal_parameter_count })
    (hcount : 0 ≤ argument_count)
    (hfits : FixedArraySizeDoesntFitInNewSpace c argument_count
      (c.JSStrictArgumentsObject_kSize + c.FixedArray_kHeaderSize) = false)
    (hfuel : argument_count ≤ (fuel : Int)) :
    ∃ s' : State,
      EmitFastNewStrictArguments c env fuel context function s
        = some (Value.HeapObject (s.heap.top + c.kHeapObjectTag), s') ∧
      LoadObjectField c s'.heap (s.heap.top + c.kHeapObjectTag) c.JSArray_kLengthOffset
        = some (ParameterToTagged argument_count) ∧
      (0 < argument_count →
        LoadObjectField c s'.heap (s.heap.top + c.kHeapObjectTag) c.JSArray_kElementsOffset
          = some (Value.HeapObject
              (s.heap.top + c.kHeapObjectTag + c.JSStrictArgumentsObject_kSize)) ∧
        LoadObjectField c s'.heap
            (s.heap.top + c.kHeapObjectTag + c.JSStrictArgumentsObject_kSize)
            c.HeapObject_kMapOffset = some Value.FixedArrayMap ∧
        LoadObjectField c s'.heap
            (s.heap.top + c.kHeapObjectTag + c.JSStrictArgumentsObject_kSize)
            c.FixedArray_kLengthOffset = some (ParameterToTagged argument_count) ∧
        (∀ i : Int, 0 ≤ i → i < argument_count →
          LoadFixedArrayElement c s'.heap
              (s.heap.top + c.kHeapObjectTag + c.JSStrictArgumentsObject_kSize) i
            = some ((CodeStubArguments.new c argument_count frame).AtIndex c env i)) ∧
        s'.heap.top = s.heap.top
          + (c.JSStrictArgumentsObject_kSize + OffsetOfElementAt c argument_count)) ∧
      (argument_count = 0 →
        LoadObjectField c s'.heap (s.heap.top + c.kHeapObjectTag) c.JSArray_kElementsOffset
          = some Value.EmptyFixedArray ∧
        s'.heap.top = s.heap.top + c.JSStrictArgumentsObject_kSize) ∧
      (∀ formal : Int,
        EmitFastNewStrictArguments c (env.withFormalParameterCount formal) fuel context
            function s
          = EmitFastNewStrictArguments c env fuel context function s) := by
  have hindep : ∀ formal : Int,
      EmitFastNewStrictArguments c (env.withFormalParameterCount formal) fuel context function s
        = EmitFastNewStrictArguments c env fuel context function s := fun _ => rfl
  by_cases hzero : argument_count = 0
  · subst hzero
    obtain ⟨e1, e2, e3, _⟩ := emptyState_spec c hc
      (env.LoadContextElement (env.LoadNativeContext context)
        ContextField.STRICT_ARGUMENTS_MAP_INDEX) c.JSStrictArgumentsObject_kSize s
    refine ⟨AllocateArgumentsObject.emptyState c
      (env.LoadContextElement (env.LoadNativeContext context)
        ContextField.STRICT_ARGUMENTS_MAP_INDEX) c.JSStrictArgumentsObject_kSize s,
      ?_, e1, ?_, fun _ => ⟨e2, e3⟩, hindep⟩
    · simp only [EmitFastNewStrictArguments, hinfo, hfits, Node.value,
        AllocateArgumentsObject_empty]
      simp
    · intro h
      exact absurd h (lt_irrefl 0)
  · obtain ⟨n, hn⟩ := Int.eq_ofNat_of_zero_le hcount
    obtain ⟨s', hs, _, _, f3, f4, f5, f6, f7, f8, _⟩ :=
      ConstructParametersObjectFromArgs_spec c hc env fuel
        (env.LoadContextElement (env.LoadNativeContext context)
          ContextField.STRICT_ARGUMENTS_MAP_INDEX) frame argument_count 0 argument_count
        c.JSStrictArgumentsObject_kSize s n hc.length_strict (by omega) (by omega)
    refine ⟨s', ?_, f4, fun _ => ⟨f3, f5, f6, ?_, f8⟩, fun h => absurd h hzero, hindep⟩
    · simp only [EmitFastNewStrictArguments, hinfo, hfits, Node.value, hzero]
      simp only [Bool.false_eq_true, if_false, hs]
    · intro i hi0 hin
      have := f7 i hi0 (by omega)
      rw [zero_add] at this
      exact this


/-! ## The builders -/

/-- C1: on the fast path (`argument_count >= 0`, the ceiling check passes),
`EmitFastNewStrictArguments` returns an object whose length field is the
tagged `argument_count`; when `argument_count > 0` its elements field points
at a backing store (a `FixedArray`) of length `argument_count` whose slot `i`
holds actual argument `i` for every `0 <= i < argument_count`.  No alias map
is produced: the allocation ends with the backing store (with the header when
there is none, the elements field then being the empty fixed array).  The
result does not depend on `formal_parameter_count`. -/
theorem EmitFastNewStrictArguments_fast_path (c : Layout) (hc : c.WellFormed) (env : Env)
    (fuel : Nat) (context function : Value) (s : State)
    (frame argument_count formal_parameter_count : Int)
    (hinfo : env.GetArgumentsFrameAndCount context function
      = { frame := frame, argument_count := argument_count,
          formal_parameter_count := formal_parameter_count })
    (hcount : 0 ≤ argument_count)
    (hfits : FixedArraySizeDoesntFitInNewSpace c argument_count
      (c.JSStrictArgumentsObject_kSize + c.FixedArray_kHeaderSize) = false)
    (hfuel : argument_count ≤ (fuel : Int)) :
    ∃ s' : State,
      EmitFastNewStrictArguments c env fuel context function s
        = some (Value.HeapObject (s.heap.top + c.kHeapObjectTag), s') ∧
      LoadObjectField c s'.heap (s.heap.top + c.kHeapObjectTag) c.JSArray_kLengthOffset
        = some (ParameterToTagged argument_count) ∧
      (0 < argument_count →
        LoadObjectField c s'.heap (s.heap.top + c.kHeapObjectTag) c.JSArray_kElementsOffset
          = some (Value.HeapObject
              (s.heap.top + c.kHeapObjectTag + c.JSStrictArgumentsObject_kSize)) ∧
        LoadObjectField c s'.heap
            (s.heap.top + c.kHeapObjectTag + c.JSStrictArgumentsObject_kSize)
            c.HeapObject_kMapOffset = some Value.FixedArrayMap ∧
        LoadObjectField c s'.heap
            (s.heap.top + c.kHeapObjectTag + c.JSStrictArgumentsObject_kSize)
            c.FixedArray_kLengthOffset = some (ParameterToTagged argument_count) ∧
        (∀ i : Int, 0 ≤ i → i < argument_count →
          LoadFixedArrayElement c s'.heap
              (s.heap.top + c.kHeapObjectTag + c.JSStrictArgumentsObject_kSize) i
            = some ((CodeStubArguments.new c argument_count frame).AtIndex c env i)) ∧
        s'.heap.top = s.heap.top
          + (c.JSStrictArgumentsObject_kSize + OffsetOfElementAt c argument_count)) ∧
      (argument_count = 0 →
        LoadObjectField c s'.heap (s.heap.top + c.kHeapObjectTag) c.JSArray_kElementsOffset
          = some Value.EmptyFixedArray ∧
        s'.heap.top = s.heap.top + c.JSStrictArgumentsObject_kSize) ∧
      (∀ formal : Int,
        EmitFastNewStrictArguments c (env.withFormalParameterCount formal) fuel context
            function s
          = EmitFastNewStrictArguments c env fuel context function s) :=
  EmitFastNewStrictArguments_spec c hc env fuel context function s frame argument_count
    formal_parameter_count hinfo hcount hfits hfuel

/-- C2: when `argument_count > formal_parameter_count` and the ceiling check
passes, `EmitFastNewRestParameter` returns an array whose length is
`argument_count - formal_parameter_count` and whose backing store, of that
length, holds actual argument `formal_parameter_count + j` in slot `j` for
every `0 <= j < argument_count - formal_parameter_count`: the trailing
arguments, in their order.  (That `formal_parameter_count >= 0` is not
needed.) -/
theorem EmitFastNewRestParameter_fast_path (c : Layout) (hc : c.WellFormed) (env : Env)
    (fuel : Nat) (context function : Value) (s : State)
    (frame argument_count formal_parameter_count : Int)
    (hinfo : env.GetArgumentsFrameAndCount context function
      = { frame := frame, argument_count := argument_count,
          formal_parameter_count := formal_parameter_count })
    (hcount : formal_parameter_count < argument_count)
    (hfits : FixedArraySizeDoesntFitInNewSpace c (argument_count - formal_parameter_count)
      (c.JSArray_kSize + c.FixedArray_kHeaderSize) = false)
    (hfuel : argument_count - formal_parameter_count ≤ (fuel : Int)) :
    ∃ s' : State,
      EmitFastNewRestParameter c env fuel context function s
        = some (Value.HeapObject (s.heap.top + c.kHeapObjectTag), s') ∧
      LoadObjectField c s'.heap (s.heap.top + c.kHeapObjectTag) c.JSArray_kLengthOffset
        = some (ParameterToTagged (argument_count - formal_parameter_count)) ∧
      LoadObjectField c s'.heap (s.heap.top + c.kHeapObjectTag) c.JSArray_kElementsOffset
        = some (Value.HeapObject (s.heap.top + c.kHeapObjectTag + c.JSArray_kSize)) ∧
      LoadObjectField c s'.heap (s.heap.top + c.kHeapObjectTag + c.JSArray_kSize)
          c.HeapObject_kMapOffset = some Value.FixedArrayMap ∧
      LoadObjectField c s'.heap (s.heap.top + c.kHeapObjectTag + c.JSArray_kSize)
          c.FixedArray_kLengthOffset
        = some (ParameterToTagged (argument_count - formal_parameter_count)) ∧
      (∀ j : Int, 0 ≤ j → j < argument_count - formal_parameter_count →
        LoadFixedArrayElement c s'.heap (s.heap.top + c.kHeapObjectTag + c.JSArray_kSize) j
          = some ((CodeStubArguments.new c argument_count frame).AtIndex c env
              (formal_parameter_count + j))) ∧
      s'.heap.top = s.heap.top
        + (c.JSArray_kSize + OffsetOfElementAt c (argument_count - formal_parameter_count)) := by
  obtain ⟨n, hn⟩ := Int.eq_ofNat_of_zero_le (show 0 ≤ argument_count - formal_parameter_count
    by omega)
  obtain ⟨s', hs, _, _, f3, f4, f5, f6, f7, f8, _⟩ :=
    ConstructParametersObjectFromArgs_spec c hc env fuel
      (env.LoadContextElement (env.LoadNativeContext context)
        ContextField.JS_ARRAY_PACKED_ELEMENTS_MAP_INDEX) frame argument_count
      formal_parameter_count (argument_count - formal_parameter_count) c.JSArray_kSize s n
      hc.length_array (by omega) (by omega)
  refine ⟨s', ?_, f4, f3, f5, f6, ?_, f8⟩
  · have hpos : ¬ (argument_count - formal_parameter_count ≤ 0) := by omega
    simp only [EmitFastNewRestParameter, hinfo, hfits, Node.value, hpos]
    simp only [Bool.false_eq_true, if_false, hs]
  · intro j hj0 hjn
    exact f7 j hj0 (by omega)

/-- C3: when `argument_count <= formal_parameter_count`, whatever the two
counts are, `EmitFastNewRestParameter` returns an array of length 0 whose
elements field is the shared empty fixed array.  Whatever the fuel and the
slow path are, the events of the call are the allocation of the header alone
and the four stores into it: no runtime call and no load of an argument. -/
theorem EmitFastNewRestParameter_no_rest_parameters (c : Layout) (hc : c.WellFormed)
    (env : Env) (fuel : Nat) (context function : Value) (s : State)
    (frame argument_count formal_parameter_count : Int)
    (hinfo : env.GetArgumentsFrameAndCount context function
      = { frame := frame, argument_count := argument_count,
          formal_parameter_count := formal_parameter_count })
    (hcount : argument_count ≤ formal_parameter_count) :
    ∃ s' : State,
      EmitFastNewRestParameter c env fuel context function s
        = some (Value.HeapObject (s.heap.top + c.kHeapObjectTag), s') ∧
      LoadObjectField c s'.heap (s.heap.top + c.kHeapObjectTag) c.JSArray_kLengthOffset
        = some (Value.Smi 0) ∧
      LoadObjectField c s'.heap (s.heap.top + c.kHeapObjectTag) c.JSArray_kElementsOffset
        = some Value.EmptyFixedArray ∧
      s'.heap.top = s.heap.top + c.JSArray_kSize ∧
      s'.trace
        = [Event.store (s.heap.top + c.kHeapObjectTag + c.JSArray_kElementsOffset
              - c.kHeapObjectTag) Value.EmptyFixedArray,
            Event.store (s.heap.top + c.kHeapObjectTag + c.JSArray_kLengthOffset
              - c.kHeapObjectTag) (Value.Smi 0),
            Event.store (s.heap.top + c.kHeapObjectTag + c.JSArray_kPropertiesOrHashOffset
              - c.kHeapObjectTag) Value.EmptyFixedArray,
            Event.store (s.heap.top + c.kHeapObjectTag + c.HeapObject_kMapOffset
              - c.kHeapObjectTag)
              (env.LoadContextElement (env.LoadNativeContext context)
                ContextField.JS_ARRAY_PACKED_ELEMENTS_MAP_INDEX),
            Event.allocate c.JSArray_kSize (s.heap.top + c.kHeapObjectTag)] ++ s.trace := by
  obtain ⟨e1, e2, e3, e4⟩ := emptyState_spec c hc
    (env.LoadContextElement (env.LoadNativeContext context)
      ContextField.JS_ARRAY_PACKED_ELEMENTS_MAP_INDEX) c.JSArray_kSize s
  refine ⟨AllocateArgumentsObject.emptyState c
    (env.LoadContextElement (env.LoadNativeContext context)
      ContextField.JS_ARRAY_PACKED_ELEMENTS_MAP_INDEX) c.JSArray_kSize s, ?_, e1, e2, e3, e4⟩
  have hle : argument_count - formal_parameter_count ≤ 0 := by omega
  simp only [EmitFastNewRestParameter, hinfo, Node.value, hle, if_true,
    AllocateArgumentsObject_empty]

/-- C4: in the aliased case on the fast path (both counts at least 1, the
ceiling check passes), with `k = min argument_count formal_parameter_count`:
after the two fill loops, slot `i` of the backing store holds the hole for
every `0 <= i < k` and actual argument `i` for every `k <= i < argument_count`. -/
theorem EmitFastNewSloppyArguments_backing_store (c : Layout) (hc : c.WellFormed) (env : Env)
    (fuel : Nat) (context function : Value) (s : State)
    (frame argument_count formal_parameter_count : Int)
    (hinfo : env.GetArgumentsFrameAndCount context function
      = { frame := frame, argument_count := argument_count,
          formal_parameter_count := formal_parameter_count })
    (hcount : 1 ≤ argument_count) (hformal : 1 ≤ formal_parameter_count)
    (hfits : FixedArraySizeDoesntFitInNewSpace c
      (argument_count + (min argument_count formal_parameter_count + 2))
      (c.JSSloppyArgumentsObject_kSize + c.FixedArray_kHeaderSize * 2) = false)
    (hfuel : argument_count ≤ (fuel : Int)) :
    ∃ s' : State,
      EmitFastNewSloppyArguments c env fuel context function s
        = some (Value.HeapObject (s.heap.top + c.kHeapObjectTag), s') ∧
      (∀ i : Int, 0 ≤ i → i < min argument_count formal_parameter_count →
        LoadFixedArrayElement c s'.heap
            (s.heap.top + c.kHeapObjectTag + c.JSSloppyArgumentsObject_kSize) i
          = some Value.TheHole) ∧
      (∀ i : Int, min argument_count formal_parameter_count ≤ i → i < argument_count →
        LoadFixedArrayElement c s'.heap
            (s.heap.top + c.kHeapObjectTag + c.JSSloppyArgumentsObject_kSize) i
          = some ((CodeStubArguments.new c argument_count frame).AtIndex c env i)) := by
  obtain ⟨s', h, _, _, _, _, _, _, _, _, _, _, _, hole, args, _, _⟩ :=
    EmitFastNewSloppyArguments_mapped_spec c hc env fuel context function s frame
      argument_count formal_parameter_count hinfo hcount hformal hfits hfuel
  exact ⟨s', h, hole, args⟩

/-- C5: in the aliased case on the fast path, with
`k = min argument_count formal_parameter_count`: content slot `i` of the alias
map (position `i + 2` of the array) holds the tagged context index
`MIN_CONTEXT_SLOTS + formal_parameter_count - 1 - i` for every `0 <= i < k`, so
of two content slots the higher one holds the lower context index. -/
theorem EmitFastNewSloppyArguments_context_indices (c : Layout) (hc : c.WellFormed) (env : Env)
    (fuel : Nat) (context function : Value) (s : State)
    (frame argument_count formal_parameter_count : Int)
    (hinfo : env.GetArgumentsFrameAndCount context function
      = { frame := frame, argument_count := argument_count,
          formal_parameter_count := formal_parameter_count })
    (hcount : 1 ≤ argument_count) (hformal : 1 ≤ formal_parameter_count)
    (hfits : FixedArraySizeDoesntFitInNewSpace c
      (argument_count + (min argument_count formal_parameter_count + 2))
      (c.JSSloppyArgumentsObject_kSize + c.FixedArray_kHeaderSize * 2) = false)
    (hfuel : argument_count ≤ (fuel : Int)) :
    ∃ s' : State,
      EmitFastNewSloppyArguments c env fuel context function s
        = some (Value.HeapObject (s.heap.top + c.kHeapObjectTag), s') ∧
      LoadObjectField c s'.heap (s.heap.top + c.kHeapObjectTag) c.JSArray_kElementsOffset
        = some (Value.HeapObject (s.heap.top + c.kHeapObjectTag
            + c.JSSloppyArgumentsObject_kSize + OffsetOfElementAt c argument_count)) ∧
      (∀ i : Int, 0 ≤ i → i < min argument_count formal_parameter_count →
        LoadFixedArrayElement c s'.heap
            (s.heap.top + c.kHeapObjectTag + c.JSSloppyArgumentsObject_kSize
              + OffsetOfElementAt c argument_count) (i + 2)
          = some (ParameterToTagged
              (c.MIN_CONTEXT_SLOTS + formal_parameter_count - 1 - i))) ∧
      (∀ i j : Int, 0 ≤ i → i < j → j < min argument_count formal_parameter_count →
        ∃ a b : Int,
          LoadFixedArrayElement c s'.heap
              (s.heap.top + c.kHeapObjectTag + c.JSSloppyArgumentsObject_kSize
                + OffsetOfElementAt c argument_count) (i + 2) = some (Value.Smi a) ∧
          LoadFixedArrayElement c s'.heap
              (s.heap.top + c.kHeapObjectTag + c.JSSloppyArgumentsObject_kSize
                + OffsetOfElementAt c argument_count) (j + 2) = some (Value.Smi b) ∧
          b < a) := by
  obtain ⟨s', h, _, _, _, he, _, _, _, _, _, _, _, _, _, idx, _⟩ :=
    EmitFastNewSloppyArguments_mapped_spec c hc env fuel context function s frame
      argument_count formal_parameter_count hinfo hcount hformal hfits hfuel
  refine ⟨s', h, he, idx, ?_⟩
  intro i j hi hij hj
  exact ⟨_, _, idx i hi (by omega), idx j (by omega) hj, by omega⟩

/-- C6: without formal parameters and with at least one argument, on the fast
path, `EmitFastNewSloppyArguments` returns an object with the same length
(`argument_count`) and the same backing-store contents as
`EmitFastNewStrictArguments` returns for the same frame from the same state:
in both, the elements field points directly at the backing store, a
`FixedArray` of length `argument_count` right after the header whose slot `i`
holds argument `i` (no alias map); and the callee field of the sloppy object
holds the function. -/
theorem EmitFastNewSloppyArguments_like_strict (c : Layout) (hc : c.WellFormed) (env : Env)
    (fuel : Nat) (context function : Value) (s : State) (frame argument_count : Int)
    (hinfo : env.GetArgumentsFrameAndCount context function
      = { frame := frame, argument_count := argument_count, formal_parameter_count := 0 })
    (hcount : 1 ≤ argument_count)
    (hfits : FixedArraySizeDoesntFitInNewSpace c argument_count
      (c.JSSloppyArgumentsObject_kSize + c.FixedArray_kHeaderSize) = false)
    (hfuel : argument_count ≤ (fuel : Int)) :
    ∃ sloppy strict : State,
      EmitFastNewSloppyArguments c env fuel context function s
        = some (Value.HeapObject (s.heap.top + c.kHeapObjectTag), sloppy) ∧
      EmitFastNewStrictArguments c env fuel context function s
        = some (Value.HeapObject (s.heap.top + c.kHeapObjectTag), strict) ∧
      LoadObjectField c sloppy.heap (s.heap.top + c.kHeapObjectTag) c.JSArray_kLengthOffset
        = some (ParameterToTagged argument_count) ∧
      LoadObjectField c strict.heap (s.heap.top + c.kHeapObjectTag) c.JSArray_kLengthOffset
        = some (ParameterToTagged argument_count) ∧
      LoadObjectField c sloppy.heap (s.heap.top + c.kHeapObjectTag) c.JSArray_kElementsOffset
        = some (Value.HeapObject
            (s.heap.top + c.kHeapObjectTag + c.JSSloppyArgumentsObject_kSize)) ∧
      LoadObjectField c strict.heap (s.heap.top + c.kHeapObjectTag) c.JSArray_kElementsOffset
        = some (Value.HeapObject
            (s.heap.top + c.kHeapObjectTag + c.JSStrictArgumentsObject_kSize)) ∧
      LoadObjectField c sloppy.heap
          (s.heap.top + c.kHeapObjectTag + c.JSSloppyArgumentsObject_kSize)
          c.HeapObject_kMapOffset = some Value.FixedArrayMap ∧
      LoadObjectField c strict.heap
          (s.heap.top + c.kHeapObjectTag + c.JSStrictArgumentsObject_kSize)
          c.HeapObject_kMapOffset = some Value.FixedArrayMap ∧
      LoadObjectField c sloppy.heap
          (s.heap.top + c.kHeapObjectTag + c.JSSloppyArgumentsObject_kSize)
          c.FixedArray_kLengthOffset = some (ParameterToTagged argument_count) ∧
      LoadObjectField c strict.heap
          (s.heap.top + c.kHeapObjectTag + c.JSStrictArgumentsObject_kSize)
          c.FixedArray_kLengthOffset = some (ParameterToTagged argument_count) ∧
      (∀ i : Int, 0 ≤ i → i < argument_count →
        LoadFixedArrayElement c sloppy.heap
            (s.heap.top + c.kHeapObjectTag + c.JSSloppyArgumentsObject_kSize) i
          = some ((CodeStubArguments.new c argument_count frame).AtIndex c env i) ∧
        LoadFixedArrayElement c strict.heap
            (s.heap.top + c.kHeapObjectTag + c.JSStrictArgumentsObject_kSize) i
          = LoadFixedArrayElement c sloppy.heap
            (s.heap.top + c.kHeapObjectTag + c.JSSloppyArgumentsObject_kSize) i) ∧
      sloppy.heap.top = s.heap.top
        + (c.JSSloppyArgumentsObject_kSize + OffsetOfElementAt c argument_count) ∧
      strict.heap.top = s.heap.top
        + (c.JSStrictArgumentsObject_kSize + OffsetOfElementAt c argument_count) ∧
      LoadObjectField c sloppy.heap (s.heap.top + c.kHeapObjectTag)
          c.JSSloppyArgumentsObject_kCalleeOffset = some function := by
  obtain ⟨sloppy, a0, a1, a2, a3, a4, a5, a6, a7⟩ :=
    EmitFastNewSloppyArguments_no_parameters_spec c hc env fuel context function s frame
      argument_count hinfo hcount hfits hfuel
  have hstrict : FixedArraySizeDoesntFitInNewSpace c argument_count
      (c.JSStrictArgumentsObject_kSize + c.FixedArray_kHeaderSize) = false := by
    simp only [FixedArraySizeDoesntFitInNewSpace, decide_eq_false_iff_not, not_lt, gt_iff_lt]
      at hfits ⊢
    have ht := hc.tagged_pos
    have hle : c.kMaxRegularHeapObjectSize
          - (c.JSSloppyArgumentsObject_kSize + c.FixedArray_kHeaderSize)
        ≤ c.kMaxRegularHeapObjectSize
          - (c.JSStrictArgumentsObject_kSize + c.FixedArray_kHeaderSize) := by
      have := hc.strict_sloppy
      omega
    have hnonneg : 0 ≤ c.kMaxRegularHeapObjectSize
        - (c.JSSloppyArgumentsObject_kSize + c.FixedArray_kHeaderSize) := by
      have := hc.sloppy_regular
      have := hc.fixed_map_length
      have := hc.fixed_length_header
      have := hc.map_nonneg
      omega
    rw [Int.tdiv_eq_ediv hnonneg ht.le] at hfits
    rw [Int.tdiv_eq_ediv (le_trans hnonneg hle) ht.le]
    exact le_trans hfits (Int.ediv_le_ediv ht hle)
  obtain ⟨strict, b0, b1, b2, _, _⟩ :=
    EmitFastNewStrictArguments_spec c hc env fuel context function s frame
      argument_count 0 hinfo (by omega) hstrict hfuel
  obtain ⟨b3, b4, b5, b6, b7⟩ := b2 (by omega)
  refine ⟨sloppy, strict, a0, b0, a1, b1, a2, b3, a4, b4, a5, b5, ?_, a7, b7, a3⟩
  intro i hi0 hin
  exact ⟨a6 i hi0 hin, (b6 i hi0 hin).trans (a6 i hi0 hin).symm⟩

/-- C7: for a call without arguments (and `formal_parameter_count >= 0`) each
of the three builders returns an object with length 0 whose elements field is
the shared empty fixed array.  The events of the call are one allocation, of
exactly the base size of the object, and the stores into the header: no
backing store, no alias map, no runtime call.  The sloppy builder also stores
the function in the callee field. -/
theorem zero_arguments (c : Layout) (hc : c.WellFormed) (env : Env) (fuel : Nat)
    (context function : Value) (s : State) (frame formal_parameter_count : Int)
    (hinfo : env.GetArgumentsFrameAndCount context function
      = { frame := frame, argument_count := 0,
          formal_parameter_count := formal_parameter_count })
    (hformal : 0 ≤ formal_parameter_count) :
    (∃ s' : State,
      EmitFastNewStrictArguments c env fuel context function s
        = some (Value.HeapObject (s.heap.top + c.kHeapObjectTag), s') ∧
      LoadObjectField c s'.heap (s.heap.top + c.kHeapObjectTag) c.JSArray_kLengthOffset
        = some (Value.Smi 0) ∧
      LoadObjectField c s'.heap (s.heap.top + c.kHeapObjectTag) c.JSArray_kElementsOffset
        = some Value.EmptyFixedArray ∧
      s'.heap.top = s.heap.top + c.JSStrictArgumentsObject_kSize ∧
      s'.trace
        = [Event.store (s.heap.top + c.kHeapObjectTag + c.JSArray_kElementsOffset
              - c.kHeapObjectTag) Value.EmptyFixedArray,
            Event.store (s.heap.top + c.kHeapObjectTag + c.JSArray_kLengthOffset
              - c.kHeapObjectTag) (Value.Smi 0),
            Event.store (s.heap.top + c.kHeapObjectTag + c.JSArray_kPropertiesOrHashOffset
              - c.kHeapObjectTag) Value.EmptyFixedArray,
            Event.store (s.heap.top + c.kHeapObjectTag + c.HeapObject_kMapOffset
              - c.kHeapObjectTag)
              (env.LoadContextElement (env.LoadNativeContext context)
                ContextField.STRICT_ARGUMENTS_MAP_INDEX),
            Event.allocate c.JSStrictArgumentsObject_kSize (s.heap.top + c.kHeapObjectTag)]
          ++ s.trace) ∧
    (∃ s' : State,
      EmitFastNewSloppyArguments c env fuel context function s
        = some (Value.HeapObject (s.heap.top + c.kHeapObjectTag), s') ∧
      LoadObjectField c s'.heap (s.heap.top + c.kHeapObjectTag) c.JSArray_kLengthOffset
        = some (Value.Smi 0) ∧
      LoadObjectField c s'.heap (s.heap.top + c.kHeapObjectTag) c.JSArray_kElementsOffset
        = some Value.EmptyFixedArray ∧
      LoadObjectField c s'.heap (s.heap.top + c.kHeapObjectTag)
          c.JSSloppyArgumentsObject_kCalleeOffset = some function ∧
      s'.heap.top = s.heap.top + c.JSSloppyArgumentsObject_kSize ∧
      s'.trace
        = [Event.store (s.heap.top + c.kHeapObjectTag + c.JSSloppyArgumentsObject_kCalleeOffset
              - c.kHeapObjectTag) function,
            Event.store (s.heap.top + c.kHeapObjectTag + c.JSArray_kElementsOffset
              - c.kHeapObjectTag) Value.EmptyFixedArray,
            Event.store (s.heap.top + c.kHeapObjectTag + c.JSArray_kLengthOffset
              - c.kHeapObjectTag) (Value.Smi 0),
            Event.store (s.heap.top + c.kHeapObjectTag + c.JSArray_kPropertiesOrHashOffset
              - c.kHeapObjectTag) Value.EmptyFixedArray,
            Event.store (s.heap.top + c.kHeapObjectTag + c.HeapObject_kMapOffset
              - c.kHeapObjectTag)
              (env.LoadContextElement (env.LoadNativeContext context)
                ContextField.SLOPPY_ARGUMENTS_MAP_INDEX),
            Event.allocate c.JSSloppyArgumentsObject_kSize (s.heap.top + c.kHeapObjectTag)]
          ++ s.trace) ∧
    (∃ s' : State,
      EmitFastNewRestParameter c env fuel context function s
        = some (Value.HeapObject (s.heap.top + c.kHeapObjectTag), s') ∧
      LoadObjectField c s'.heap (s.heap.top + c.kHeapObjectTag) c.JSArray_kLengthOffset
        = some (Value.Smi 0) ∧
      LoadObjectField c s'.heap (s.heap.top + c.kHeapObjectTag) c.JSArray_kElementsOffset
        = some Value.EmptyFixedArray ∧
      s'.heap.top = s.heap.top + c.JSArray_kSize ∧
      s'.trace
        = [Event.store (s.heap.top + c.kHeapObjectTag + c.JSArray_kElementsOffset
              - c.kHeapObjectTag) Value.EmptyFixedArray,
            Event.store (s.heap.top + c.kHeapObjectTag + c.JSArray_kLengthOffset
              - c.kHeapObjectTag) (Value.Smi 0),
            Event.store (s.heap.top + c.kHeapObjectTag + c.JSArray_kPropertiesOrHashOffset
              - c.kHeapObjectTag) Value.EmptyFixedArray,
            Event.store (s.heap.top + c.kHeapObjectTag + c.HeapObject_kMapOffset
              - c.kHeapObjectTag)
              (env.LoadContextElement (env.LoadNativeContext context)
                ContextField.JS_ARRAY_PACKED_ELEMENTS_MAP_INDEX),
            Event.allocate c.JSArray_kSize (s.heap.top + c.kHeapObjectTag)] ++ s.trace) := by
  refine ⟨?_, ?_, ?_⟩
  · obtain ⟨e1, e2, e3, e4⟩ := emptyState_spec c hc
      (env.LoadContextElement (env.LoadNativeContext context)
        ContextField.STRICT_ARGUMENTS_MAP_INDEX) c.JSStrictArgumentsObject_kSize s
    refine ⟨_, ?_, e1, e2, e3, e4⟩
    have hfits : FixedArraySizeDoesntFitInNewSpace c 0
        (c.JSStrictArgumentsObject_kSize + c.FixedArray_kHeaderSize) = false := by
      simp only [FixedArraySizeDoesntFitInNewSpace, decide_eq_false_iff_not, not_lt, gt_iff_lt]
      apply Int.tdiv_nonneg _ hc.tagged_pos.le
      have := hc.sloppy_regular
      have := hc.strict_sloppy
      have := hc.fixed_map_length
      have := hc.fixed_length_header
      have := hc.map_nonneg
      have := hc.tagged_pos
      omega
    simp only [EmitFastNewStrictArguments, hinfo, hfits, Node.value,
      AllocateArgumentsObject_empty]
    simp
  · obtain ⟨s', h0, h1, h2, h3, h4, h5⟩ := EmitFastNewSloppyArguments_empty_spec c hc env fuel
      context function s frame formal_parameter_count hinfo
    exact ⟨s', h0, h1, h2, h3, h4, h5⟩
  · obtain ⟨e1, e2, e3, e4⟩ := emptyState_spec c hc
      (env.LoadContextElement (env.LoadNativeContext context)
        ContextField.JS_ARRAY_PACKED_ELEMENTS_MAP_INDEX) c.JSArray_kSize s
    refine ⟨_, ?_, e1, e2, e3, e4⟩
    have hle : (0 : Int) - formal_parameter_count ≤ 0 := by omega
    simp only [EmitFastNewRestParameter, hinfo, Node.value, hle, if_true,
      AllocateArgumentsObject_empty]

/-- With the ceiling guard `count > (kMaxRegularHeapObjectSize - base) /
kTaggedSize`, the result of each builder is that of the runtime call if and
only if its checked count exceeds that maximum, and otherwise whatever it
returns is reached without a runtime call. -/
theorem runtime_call_iff_ceiling_exceeded (c : Layout) (env : Env) (fuel : Nat)
    (context function : Value) (s : State) (frame argument_count formal_parameter_count : Int)
    (hinfo : env.GetArgumentsFrameAndCount context function
      = { frame := frame, argument_count := argument_count,
          formal_parameter_count := formal_parameter_count }) :
    ((EmitFastNewStrictArguments c env fuel context function s
          = some (CallRuntime env RuntimeFunctionId.kNewStrictArguments context function s)
        ↔ argument_count > Int.tdiv (c.kMaxRegularHeapObjectSize
            - (c.JSStrictArgumentsObject_kSize + c.FixedArray_kHeaderSize)) c.kTaggedSize) ∧
      (¬ argument_count > Int.tdiv (c.kMaxRegularHeapObjectSize
            - (c.JSStrictArgumentsObject_kSize + c.FixedArray_kHeaderSize)) c.kTaggedSize →
        ∀ r : Value × State, EmitFastNewStrictArguments c env fuel context function s = some r →
          NoRuntimeCall s r.2)) ∧
    (0 < argument_count - formal_parameter_count →
      (EmitFastNewRestParameter c env fuel context function s
          = some (CallRuntime env RuntimeFunctionId.kNewRestParameter context function s)
        ↔ argument_count - formal_parameter_count > Int.tdiv (c.kMaxRegularHeapObjectSize
            - (c.JSArray_kSize + c.FixedArray_kHeaderSize)) c.kTaggedSize) ∧
      (¬ argument_count - formal_parameter_count > Int.tdiv (c.kMaxRegularHeapObjectSize
            - (c.JSArray_kSize + c.FixedArray_kHeaderSize)) c.kTaggedSize →
        ∀ r : Value × State, EmitFastNewRestParameter c env fuel context function s = some r →
          NoRuntimeCall s r.2)) ∧
    (1 ≤ argument_count → formal_parameter_count = 0 →
      (EmitFastNewSloppyArguments c env fuel context function s
          = some (CallRuntime env RuntimeFunctionId.kNewSloppyArguments context function s)
        ↔ argument_count > Int.tdiv (c.kMaxRegularHeapObjectSize
            - (c.JSSloppyArgumentsObject_kSize + c.FixedArray_kHeaderSize)) c.kTaggedSize) ∧
      (¬ argument_count > Int.tdiv (c.kMaxRegularHeapObjectSize
            - (c.JSSloppyArgumentsObject_kSize + c.FixedArray_kHeaderSize)) c.kTaggedSize →
        ∀ r : Value × State, EmitFastNewSloppyArguments c env fuel context function s = some r →
          NoRuntimeCall s r.2)) ∧
    (1 ≤ argument_count → 1 ≤ formal_parameter_count →
      (EmitFastNewSloppyArguments c env fuel context function s
          = some (CallRuntime env RuntimeFunctionId.kNewSloppyArguments context function s)
        ↔ argument_count + min argument_count formal_parameter_count + 2
          > Int.tdiv (c.kMaxRegularHeapObjectSize
            - (c.JSSloppyArgumentsObject_kSize + 2 * c.FixedArray_kHeaderSize)) c.kTaggedSize) ∧
      (¬ argument_count + min argument_count formal_parameter_count + 2
          > Int.tdiv (c.kMaxRegularHeapObjectSize
            - (c.JSSloppyArgumentsObject_kSize + 2 * c.FixedArray_kHeaderSize)) c.kTaggedSize →
        ∀ r : Value × State, EmitFastNewSloppyArguments c env fuel context function s = some r →
          NoRuntimeCall s r.2)) := by
  have key : ∀ (emit : Option (Value × State)) (id : RuntimeFunctionId) (p : Prop),
      (p → emit = some (CallRuntime env id context function s)) →
      (¬ p → ∀ r : Value × State, emit = some r → NoRuntimeCall s r.2) →
      ((emit = some (CallRuntime env id context function s) ↔ p) ∧
        (¬ p → ∀ r : Value × State, emit = some r → NoRuntimeCall s r.2)) := by
    intro emit id p hslow hfast
    refine ⟨⟨?_, hslow⟩, hfast⟩
    intro h
    by_contra hp
    exact (hfast hp _ h).ne_callRuntime id context function rfl
  refine ⟨key _ _ _ ?_ ?_, fun hrest => key _ _ _ ?_ ?_, fun hcount hformal => key _ _ _ ?_ ?_,
    fun hcount hformal => key _ _ _ ?_ ?_⟩
  · intro hp
    have hfits : FixedArraySizeDoesntFitInNewSpace c argument_count
        (c.JSStrictArgumentsObject_kSize + c.FixedArray_kHeaderSize) = true := by
      simpa [FixedArraySizeDoesntFitInNewSpace] using hp
    simp only [EmitFastNewStrictArguments, hinfo, hfits, if_true]
  · intro hp r h
    have hfits : FixedArraySizeDoesntFitInNewSpace c argument_count
        (c.JSStrictArgumentsObject_kSize + c.FixedArray_kHeaderSize) = false := by
      simpa [FixedArraySizeDoesntFitInNewSpace] using hp
    simp only [EmitFastNewStrictArguments, hinfo, hfits, Node.value, Bool.false_eq_true,
      if_false, AllocateArgumentsObject_empty] at h
    split at h
    · cases h
      exact NoRuntimeCall.of_emptyState c _ _ s
    · split at h
      · next result s1 hcons =>
        cases h
        exact NoRuntimeCall.of_ConstructParametersObjectFromArgs c env fuel _ _ _ _ _ _ s
          (result, s1) hcons
      · cases h
  · intro hp
    have hfits : FixedArraySizeDoesntFitInNewSpace c (argument_count - formal_parameter_count)
        (c.JSArray_kSize + c.FixedArray_kHeaderSize) = true := by
      simpa [FixedArraySizeDoesntFitInNewSpace] using hp
    have hpos : ¬ (argument_count - formal_parameter_count ≤ 0) := by omega
    simp only [EmitFastNewRestParameter, hinfo, hfits, Node.value, hpos, if_true, if_false]
  · intro hp r h
    have hfits : FixedArraySizeDoesntFitInNewSpace c (argument_count - formal_parameter_count)
        (c.JSArray_kSize + c.FixedArray_kHeaderSize) = false := by
      simpa [FixedArraySizeDoesntFitInNewSpace] using hp
    have hpos : ¬ (argument_count - formal_parameter_count ≤ 0) := by omega
    simp only [EmitFastNewRestParameter, hinfo, hfits, Node.value, hpos, Bool.false_eq_true,
      if_false] at h
    split at h
    · next result s1 hcons =>
      cases h
      exact NoRuntimeCall.of_ConstructParametersObjectFromArgs c env fuel _ _ _ _ _ _ s
        (result, s1) hcons
    · cases h
  · intro hp
    have hfits : FixedArraySizeDoesntFitInNewSpace c argument_count
        (c.JSSloppyArgumentsObject_kSize + c.FixedArray_kHeaderSize) = true := by
      simpa [FixedArraySizeDoesntFitInNewSpace] using hp
    have hne0 : argument_count ≠ 0 := by omega
    simp only [EmitFastNewSloppyArguments, hinfo, hfits, Node.value, hne0, hformal, if_true,
      if_false]
  · intro hp r h
    have hfits : FixedArraySizeDoesntFitInNewSpace c argument_count
        (c.JSSloppyArgumentsObject_kSize + c.FixedArray_kHeaderSize) = false := by
      simpa [FixedArraySizeDoesntFitInNewSpace] using hp
    exact NoRuntimeCall.of_EmitFastNewSloppyArguments c env fuel context function s frame
      argument_count formal_parameter_count hinfo (Or.inr (Or.inl ⟨hformal, hfits⟩)) r h
  · intro hp
    have hfits : FixedArraySizeDoesntFitInNewSpace c
        (argument_count + (min argument_count formal_parameter_count + 2))
        (c.JSSloppyArgumentsObject_kSize + c.FixedArray_kHeaderSize * 2) = true := by
      simp only [FixedArraySizeDoesntFitInNewSpace, decide_eq_true_eq]
      rw [mul_comm c.FixedArray_kHeaderSize 2, ← add_assoc]
      exact hp
    have hne0 : argument_count ≠ 0 := by omega
    have hnf0 : formal_parameter_count ≠ 0 := by omega
    simp only [EmitFastNewSloppyArguments, hinfo, hfits, Node.value, hne0, hnf0, if_true,
      if_false]
  · intro hp r h
    have hfits : FixedArraySizeDoesntFitInNewSpace c
        (argument_count + (min argument_count formal_parameter_count + 2))
        (c.JSSloppyArgumentsObject_kSize + c.FixedArray_kHeaderSize * 2) = false := by
      simp only [FixedArraySizeDoesntFitInNewSpace, decide_eq_false_iff_not]
      rw [mul_comm c.FixedArray_kHeaderSize 2, ← add_assoc]
      exact hp
    have hnf0 : formal_parameter_count ≠ 0 := by omega
    exact NoRuntimeCall.of_EmitFastNewSloppyArguments c env fuel context function s frame
      argument_count formal_parameter_count hinfo (Or.inr (Or.inr ⟨hnf0, hfits⟩)) r h

/-- C9: whenever the ceiling check of a builder fails, the builder does
nothing before it delegates: the slow collaborator (`kNewStrictArguments`,
`kNewRestParameter`, `kNewSloppyArguments`) is called with the original
context and function on the heap as it was at entry, the only new event is
that call (no allocation, no store), and the value and heap the collaborator
returns are the result of the builder. -/
theorem ceiling_failure_delegates (c : Layout) (env : Env) (fuel : Nat)
    (context function : Value) (s : State) (frame argument_count formal_parameter_count : Int)
    (hinfo : env.GetArgumentsFrameAndCount context function
      = { frame := frame, argument_count := argument_count,
          formal_parameter_count := formal_parameter_count }) :
    (FixedArraySizeDoesntFitInNewSpace c argument_count
        (c.JSStrictArgumentsObject_kSize + c.FixedArray_kHeaderSize) = true →
      EmitFastNewStrictArguments c env fuel context function s
        = some ((env.Runtime RuntimeFunctionId.kNewStrictArguments context function s.heap).1,
            { heap := (env.Runtime RuntimeFunctionId.kNewStrictArguments context function
                s.heap).2,
              trace := Event.callRuntime RuntimeFunctionId.kNewStrictArguments context function
                :: s.trace })) ∧
    (0 < argument_count - formal_parameter_count →
      FixedArraySizeDoesntFitInNewSpace c (argument_count - formal_parameter_count)
        (c.JSArray_kSize + c.FixedArray_kHeaderSize) = true →
      EmitFastNewRestParameter c env fuel context function s
        = some ((env.Runtime RuntimeFunctionId.kNewRestParameter context function s.heap).1,
            { heap := (env.Runtime RuntimeFunctionId.kNewRestParameter context function
                s.heap).2,
              trace := Event.callRuntime RuntimeFunctionId.kNewRestParameter context function
                :: s.trace })) ∧
    (argument_count ≠ 0 → formal_parameter_count = 0 →
      FixedArraySizeDoesntFitInNewSpace c argument_count
        (c.JSSloppyArgumentsObject_kSize + c.FixedArray_kHeaderSize) = true →
      EmitFastNewSloppyArguments c env fuel context function s
        = some ((env.Runtime RuntimeFunctionId.kNewSloppyArguments context function s.heap).1,
            { heap := (env.Runtime RuntimeFunctionId.kNewSloppyArguments context function
                s.heap).2,
              trace := Event.callRuntime RuntimeFunctionId.kNewSloppyArguments context function
                :: s.trace })) ∧
    (argument_count ≠ 0 → formal_parameter_count ≠ 0 →
      FixedArraySizeDoesntFitInNewSpace c
        (argument_count + (min argument_count formal_parameter_count + 2))
        (c.JSSloppyArgumentsObject_kSize + c.FixedArray_kHeaderSize * 2) = true →
      EmitFastNewSloppyArguments c env fuel context function s
        = some ((env.Runtime RuntimeFunctionId.kNewSloppyArguments context function s.heap).1,
            { heap := (env.Runtime RuntimeFunctionId.kNewSloppyArguments context function
                s.heap).2,
              trace := Event.callRuntime RuntimeFunctionId.kNewSloppyArguments context function
                :: s.trace })) := by
  refine ⟨?_, ?_, ?_, ?_⟩
  · intro hfits
    simp only [EmitFastNewStrictArguments, hinfo, hfits, if_true, CallRuntime]
  · intro hrest hfits
    have hpos : ¬ (argument_count - formal_parameter_count ≤ 0) := by omega
    simp only [EmitFastNewRestParameter, hinfo, hfits, Node.value, hpos, if_true, if_false,
      CallRuntime]
  · intro hcount hformal hfits
    simp only [EmitFastNewSloppyArguments, hinfo, hfits, Node.value, hcount, hformal, if_true,
      if_false, CallRuntime]
  · intro hcount hformal hfits
    simp only [EmitFastNewSloppyArguments, hinfo, hfits, Node.value, hcount, hformal, if_true,
      if_false, CallRuntime]

/-- C10: in the aliased case on the fast path (both counts at least 1) the
object returned by `EmitFastNewSloppyArguments` has length `argument_count`
and the function as callee; its elements field points at the alias map, which
is not the backing store; the alias map has the sloppy-elements map, length
`min(argument_count, formal_parameter_count) + 2`, the calling context in slot
0 and the backing store in slot 1; the backing store is a `FixedArray` of
length `argument_count`.  This is the only case with an alias map: without
formal parameters the elements field points at the backing store, with which
the allocation ends, and without arguments it is the empty fixed array and
the allocation is the header alone.  So `AllocateArgumentsObject` is asked
for an alias map only with a positive argument count, and its debug assertion
holds (the builder returns a result). -/
theorem EmitFastNewSloppyArguments_alias_map (c : Layout) (hc : c.WellFormed) (env : Env)
    (fuel : Nat) (context function : Value) (s : State)
    (frame argument_count formal_parameter_count : Int)
    (hinfo : env.GetArgumentsFrameAndCount context function
      = { frame := frame, argument_count := argument_count,
          formal_parameter_count := formal_parameter_count })
    (hfuel : argument_count ≤ (fuel : Int)) :
    (1 ≤ argument_count → 1 ≤ formal_parameter_count →
      FixedArraySizeDoesntFitInNewSpace c
        (argument_count + (min argument_count formal_parameter_count + 2))
        (c.JSSloppyArgumentsObject_kSize + c.FixedArray_kHeaderSize * 2) = false →
      ∃ s' : State,
        EmitFastNewSloppyArguments c env fuel context function s
          = some (Value.HeapObject (s.heap.top + c.kHeapObjectTag), s') ∧
        LoadObjectField c s'.heap (s.heap.top + c.kHeapObjectTag) c.JSArray_kLengthOffset
          = some (ParameterToTagged argument_count) ∧
        LoadObjectField c s'.heap (s.heap.top + c.kHeapObjectTag)
            c.JSSloppyArgumentsObject_kCalleeOffset = some function ∧
        LoadObjectField c s'.heap (s.heap.top + c.kHeapObjectTag) c.JSArray_kElementsOffset
          = some (Value.HeapObject (s.heap.top + c.kHeapObjectTag
              + c.JSSloppyArgumentsObject_kSize + OffsetOfElementAt c argument_count)) ∧
        s.heap.top + c.kHeapObjectTag + c.JSSloppyArgumentsObject_kSize
            + OffsetOfElementAt c argument_count
          ≠ s.heap.top + c.kHeapObjectTag + c.JSSloppyArgumentsObject_kSize ∧
        LoadObjectField c s'.heap
            (s.heap.top + c.kHeapObjectTag + c.JSSloppyArgumentsObject_kSize
              + OffsetOfElementAt c argument_count)
            c.HeapObject_kMapOffset = some Value.SloppyArgumentsElementsMap ∧
        LoadObjectField c s'.heap
            (s.heap.top + c.kHeapObjectTag + c.JSSloppyArgumentsObject_kSize
              + OffsetOfElementAt c argument_count)
            c.FixedArray_kLengthOffset
          = some (ParameterToTagged (min argument_count formal_parameter_count + 2)) ∧
        LoadFixedArrayElement c s'.heap
            (s.heap.top + c.kHeapObjectTag + c.JSSloppyArgumentsObject_kSize
              + OffsetOfElementAt c argument_count) 0 = some context ∧
        LoadFixedArrayElement c s'.heap
            (s.heap.top + c.kHeapObjectTag + c.JSSloppyArgumentsObject_kSize
              + OffsetOfElementAt c argument_count) 1
          = some (Value.HeapObject
              (s.heap.top + c.kHeapObjectTag + c.JSSloppyArgumentsObject_kSize)) ∧
        LoadObjectField c s'.heap
            (s.heap.top + c.kHeapObjectTag + c.JSSloppyArgumentsObject_kSize)
            c.HeapObject_kMapOffset = some Value.FixedArrayMap ∧
        LoadObjectField c s'.heap
            (s.heap.top + c.kHeapObjectTag + c.JSSloppyArgumentsObject_kSize)
            c.FixedArray_kLengthOffset = some (ParameterToTagged argument_count)) ∧
    (1 ≤ argument_count → formal_parameter_count = 0 →
      FixedArraySizeDoesntFitInNewSpace c argument_count
        (c.JSSloppyArgumentsObject_kSize + c.FixedArray_kHeaderSize) = false →
      ∃ s' : State,
        EmitFastNewSloppyArguments c env fuel context function s
          = some (Value.HeapObject (s.heap.top + c.kHeapObjectTag), s') ∧
        LoadObjectField c s'.heap (s.heap.top + c.kHeapObjectTag) c.JSArray_kElementsOffset
          = some (Value.HeapObject
              (s.heap.top + c.kHeapObjectTag + c.JSSloppyArgumentsObject_kSize)) ∧
        LoadObjectField c s'.heap
            (s.heap.top + c.kHeapObjectTag + c.JSSloppyArgumentsObject_kSize)
            c.HeapObject_kMapOffset = some Value.FixedArrayMap ∧
        s'.heap.top = s.heap.top
          + (c.JSSloppyArgumentsObject_kSize + OffsetOfElementAt c argument_count)) ∧
    (argument_count = 0 →
      ∃ s' : State,
        EmitFastNewSloppyArguments c env fuel context function s
          = some (Value.HeapObject (s.heap.top + c.kHeapObjectTag), s') ∧
        LoadObjectField c s'.heap (s.heap.top + c.kHeapObjectTag) c.JSArray_kElementsOffset
          = some Value.EmptyFixedArray ∧
        s'.heap.top = s.heap.top + c.JSSloppyArgumentsObject_kSize) := by
  refine ⟨?_, ?_, ?_⟩
  · intro hcount hformal hfits
    obtain ⟨s', h, _, _, hlen, helem, hcallee, hbmap, hblen, hmmap, hmlen, hm0, hm1, _, _, _, _⟩ :=
      EmitFastNewSloppyArguments_mapped_spec c hc env fuel context function s frame
        argument_count formal_parameter_count hinfo hcount hformal hfits hfuel
    refine ⟨s', h, hlen, hcallee, helem, ?_, hmmap, hmlen, hm0, hm1, hbmap, hblen⟩
    have h1 := hc.tagged_pos
    have h2 := hc.map_nonneg
    have h3 := hc.fixed_map_length
    have h4 := hc.fixed_length_header
    have h5 : 0 ≤ argument_count * c.kTaggedSize := mul_nonneg (by omega) h1.le
    simp only [OffsetOfElementAt]
    omega
  · intro hcount hformal hfits
    subst hformal
    obtain ⟨s', h, _, helem, _, hbmap, _, _, htop⟩ :=
      EmitFastNewSloppyArguments_no_parameters_spec c hc env fuel context function s frame
        argument_count hinfo hcount hfits hfuel
    exact ⟨s', h, helem, hbmap, htop⟩
  · intro hcount
    subst hcount
    obtain ⟨s', h, _, helem, _, htop, _⟩ :=
      EmitFastNewSloppyArguments_empty_spec c hc env fuel context function s frame
        formal_parameter_count hinfo
    exact ⟨s', h, helem, htop⟩

/-! ## The events of the loops -/

/-- The trace after `n` rounds of the copy loop. -/
theorem copy_rounds_trace (c : Layout) (env : Env) (elements : Int) :
    ∀ (n : Nat) (current offset : Int) (s : State),
      (BuildFastLoop.rounds
        (CodeStubArguments.ForEach.body env (ConstructParametersObjectFromArgs.body c elements))
        (-c.kSystemPointerSize) IndexAdvanceMode.kPost n current (s, offset)).1.trace
        = ConstructParametersObjectFromArgs.events c env elements n current offset
          ++ s.trace := by
  intro n
  induction n with
  | zero => intro current offset s; rfl
  | succ n ih =>
    intro current offset s
    have hstep : BuildFastLoop.rounds
          (CodeStubArguments.ForEach.body env (ConstructParametersObjectFromArgs.body c elements))
          (-c.kSystemPointerSize) IndexAdvanceMode.kPost (n + 1) current (s, offset)
        = BuildFastLoop.rounds
          (CodeStubArguments.ForEach.body env (ConstructParametersObjectFromArgs.body c elements))
          (-c.kSystemPointerSize) IndexAdvanceMode.kPost n (current + -c.kSystemPointerSize)
          (Store (elements + offset) (env.stack current) (Load env current s).2,
            offset + c.kTaggedSize) := rfl
    rw [hstep, ih, ConstructParametersObjectFromArgs.events, List.append_assoc]
    rfl

/-- The trace after `n` rounds of the first loop of the aliased case. -/
theorem fillNonMapped_rounds_trace (c : Layout) (env : Env) (elements : Int) :
    ∀ (n : Nat) (current offset : Int) (s : State),
      (BuildFastLoop.rounds (EmitFastNewSloppyArguments.fillNonMapped c env elements)
        (-c.kTaggedSize) IndexAdvanceMode.kPre n (offset + (n : Int) * c.kTaggedSize)
        (s, current)).1.trace
        = EmitFastNewSloppyArguments.fillNonMappedEvents c env elements n offset current
          ++ s.trace := by
  intro n
  induction n with
  | zero => intro current offset s; rfl
  | succ n ih =>
    intro current offset s
    have hidx : offset + ((n + 1 : Nat) : Int) * c.kTaggedSize + -c.kTaggedSize
        = offset + (n : Int) * c.kTaggedSize := by
      rw [slot_succ]; ring
    have hstep : BuildFastLoop.rounds (EmitFastNewSloppyArguments.fillNonMapped c env elements)
          (-c.kTaggedSize) IndexAdvanceMode.kPre (n + 1)
          (offset + ((n + 1 : Nat) : Int) * c.kTaggedSize) (s, current)
        = BuildFastLoop.rounds (EmitFastNewSloppyArguments.fillNonMapped c env elements)
          (-c.kTaggedSize) IndexAdvanceMode.kPre n (offset + (n : Int) * c.kTaggedSize)
          (Store (elements + (offset + (n : Int) * c.kTaggedSize))
            (env.stack (current + c.kSystemPointerSize + 0))
            (Load env (current + c.kSystemPointerSize + 0) s).2,
            current + c.kSystemPointerSize) := by
      rw [← hidx]; rfl
    rw [hstep, ih, EmitFastNewSloppyArguments.fillNonMappedEvents, List.append_assoc]
    rfl

/-- The trace after `n` rounds of the second loop of the aliased case. -/
theorem fillMapped_rounds_trace (t elements adjusted_map_array : Int) :
    ∀ (n : Nat) (context_index offset : Int) (s : State),
      (BuildFastLoop.rounds
        (EmitFastNewSloppyArguments.fillMapped elements adjusted_map_array Value.TheHole)
        (-t) IndexAdvanceMode.kPre n (offset + (n : Int) * t) (s, context_index)).1.trace
        = EmitFastNewSloppyArguments.fillMappedEvents t elements adjusted_map_array n offset
            context_index ++ s.trace := by
  intro n
  induction n with
  | zero => intro context_index offset s; rfl
  | succ n ih =>
    intro context_index offset s
    have hidx : offset + ((n + 1 : Nat) : Int) * t + -t = offset + (n : Int) * t := by
      rw [slot_succ]; ring
    have hstep : BuildFastLoop.rounds
          (EmitFastNewSloppyArguments.fillMapped elements adjusted_map_array Value.TheHole)
          (-t) IndexAdvanceMode.kPre (n + 1) (offset + ((n + 1 : Nat) : Int) * t)
          (s, context_index)
        = BuildFastLoop.rounds
          (EmitFastNewSloppyArguments.fillMapped elements adjusted_map_array Value.TheHole)
          (-t) IndexAdvanceMode.kPre n (offset + (n : Int) * t)
          (Store (adjusted_map_array + (offset + (n : Int) * t)) (Value.Smi context_index)
            (Store (elements + (offset + (n : Int) * t)) Value.TheHole s),
            context_index + 1) := by
      rw [← hidx]; rfl
    rw [hstep, ih, EmitFastNewSloppyArguments.fillMappedEvents, List.append_assoc]
    rfl

/-- The events of the copy loop are, for every `j < n`, the load of the word
`j` pointers below `current` and the store of it in slot `j`. -/
theorem copy_events_mem (c : Layout) (env : Env) (elements : Int) (e : Event) :
    ∀ (n : Nat) (current offset : Int),
      e ∈ ConstructParametersObjectFromArgs.events c env elements n current offset ↔
        ∃ j : Nat, j < n ∧
          (e = Event.store (elements + (offset + (j : Int) * c.kTaggedSize))
                (env.stack (current - (j : Int) * c.kSystemPointerSize))
            ∨ e = Event.load (current - (j : Int) * c.kSystemPointerSize)) := by
  intro n
  induction n with
  | zero =>
    intro current offset
    simp [ConstructParametersObjectFromArgs.events]
  | succ n ih =>
    intro current offset
    rw [ConstructParametersObjectFromArgs.events, List.mem_append, ih]
    have e1 : ∀ k : Nat, elements + (offset + c.kTaggedSize + (k : Int) * c.kTaggedSize)
        = elements + (offset + ((k + 1 : Nat) : Int) * c.kTaggedSize) := by
      intro k; rw [slot_succ]; ring
    have e2 : ∀ k : Nat, current + -c.kSystemPointerSize - (k : Int) * c.kSystemPointerSize
        = current - ((k + 1 : Nat) : Int) * c.kSystemPointerSize := by
      intro k; rw [slot_succ]; ring
    have z1 : elements + (offset + ((0 : Nat) : Int) * c.kTaggedSize) = elements + offset := by
      simp
    have z2 : current - ((0 : Nat) : Int) * c.kSystemPointerSize = current := by simp
    constructor
    · rintro (⟨k, hk, h⟩ | h)
      · refine ⟨k + 1, by omega, ?_⟩
        rw [← e1, ← e2]
        exact h
      · refine ⟨0, by omega, ?_⟩
        rw [z1, z2]
        simpa using h
    · rintro ⟨j, hj, h⟩
      cases j with
      | zero =>
        right
        rw [z1, z2] at h
        simpa using h
      | succ k =>
        left
        refine ⟨k, by omega, ?_⟩
        rw [e1, e2]
        exact h

/-- The events of the first loop of the aliased case are, for every `j < n`,
the load of the word `n - j` pointers above `current` and the store of it in
slot `j`. -/
theorem fillNonMapped_events_mem (c : Layout) (env : Env) (elements : Int) (e : Event) :
    ∀ (n : Nat) (offset current : Int),
      e ∈ EmitFastNewSloppyArguments.fillNonMappedEvents c env elements n offset current ↔
        ∃ j : Nat, j < n ∧
          (e = Event.store (elements + (offset + (j : Int) * c.kTaggedSize))
                (env.stack (current + ((n : Int) - (j : Int)) * c.kSystemPointerSize))
            ∨ e = Event.load (current + ((n : Int) - (j : Int)) * c.kSystemPointerSize)) := by
  intro n
  induction n with
  | zero =>
    intro offset current
    simp [EmitFastNewSloppyArguments.fillNonMappedEvents]
  | succ n ih =>
    intro offset current
    rw [EmitFastNewSloppyArguments.fillNonMappedEvents, List.mem_append, ih]
    have e1 : ∀ k : Nat, current + c.kSystemPointerSize
          + ((n : Int) - (k : Int)) * c.kSystemPointerSize
        = current + (((n + 1 : Nat) : Int) - (k : Int)) * c.kSystemPointerSize := by
      intro k; push_cast; ring
    have e2 : current + c.kSystemPointerSize + 0
        = current + (((n + 1 : Nat) : Int) - (n : Int)) * c.kSystemPointerSize := by
      push_cast; ring
    constructor
    · rintro (⟨k, hk, h⟩ | h)
      · refine ⟨k, by omega, ?_⟩
        rw [← e1]
        exact h
      · refine ⟨n, by omega, ?_⟩
        rw [← e2]
        simpa using h
    · rintro ⟨j, hj, h⟩
      by_cases hjn : j = n
      · subst hjn
        right
        rw [← e2] at h
        simpa using h
      · left
        refine ⟨j, by omega, ?_⟩
        rw [e1]
        exact h

/-- The events of the second loop of the aliased case are, for every `j < n`,
the store of the hole in slot `j` and the store of the context index
`context_index + (n - 1 - j)` in the parallel word of the parameter map. -/
theorem fillMapped_events_mem (t elements adjusted_map_array : Int) (e : Event) :
    ∀ (n : Nat) (offset context_index : Int),
      e ∈ EmitFastNewSloppyArguments.fillMappedEvents t elements adjusted_map_array n offset
          context_index ↔
        ∃ j : Nat, j < n ∧
          (e = Event.store (adjusted_map_array + (offset + (j : Int) * t))
                (Value.Smi (context_index + ((n : Int) - 1 - (j : Int))))
            ∨ e = Event.store (elements + (offset + (j : Int) * t)) Value.TheHole) := by
  intro n
  induction n with
  | zero =>
    intro offset context_index
    simp [EmitFastNewSloppyArguments.fillMappedEvents]
  | succ n ih =>
    intro offset context_index
    rw [EmitFastNewSloppyArguments.fillMappedEvents, List.mem_append, ih]
    have e1 : ∀ k : Nat, context_index + 1 + ((n : Int) - 1 - (k : Int))
        = context_index + (((n + 1 : Nat) : Int) - 1 - (k : Int)) := by
      intro k; push_cast; ring
    have e2 : context_index = context_index + (((n + 1 : Nat) : Int) - 1 - (n : Int)) := by
      push_cast; ring
    constructor
    · rintro (⟨k, hk, h⟩ | h)
      · refine ⟨k, by omega, ?_⟩
        rw [← e1]
        exact h
      · refine ⟨n, by omega, ?_⟩
        rw [← e2]
        simpa using h
    · rintro ⟨j, hj, h⟩
      by_cases hjn : j = n
      · subst hjn
        right
        rw [← e2] at h
        simpa using h
      · left
        refine ⟨j, by omega, ?_⟩
        rw [e1]
        exact h

/-! ## The effects of the fast paths -/

/-- What is written by some events is written by more events. -/
theorem Written.mono {es fs : List Event} {address : Int} (h : Written es address)
    (hsub : ∀ e ∈ es, e ∈ fs) : Written fs address := by
  obtain ⟨v, hv⟩ := h
  exact ⟨v, hsub _ hv⟩

/-- The effects of the header-only allocation: one allocation of the base
size and four stores, all into the header. -/
theorem emptyState_effects (c : Layout) (hc : c.WellFormed) (map : Value) (base_size : Int)
    (arguments : CodeStubArguments) (s : State)
    (hbase : c.JSArray_kLengthOffset + c.kTaggedSize ≤ base_size) :
    ∃ es : List Event,
      AllocatedOnce s (AllocateArgumentsObject.emptyState c map base_size s) base_size
        (s.heap.top + c.kHeapObjectTag) es ∧
      StoresInside c es base_size (s.heap.top + c.kHeapObjectTag) ∧
      LoadsArguments c es arguments ∧
      UnchangedOutside c s (AllocateArgumentsObject.emptyState c map base_size s) base_size
        (s.heap.top + c.kHeapObjectTag) ∧
      HeaderWritten c es (s.heap.top + c.kHeapObjectTag) := by
  obtain ⟨ht, h0, h1, h2, h3, h4, h5, h6, h7, h8, hp, h9, h10, h11, h12⟩ := hc
  refine ⟨[Event.store (s.heap.top + c.kHeapObjectTag + c.JSArray_kElementsOffset
            - c.kHeapObjectTag) Value.EmptyFixedArray,
          Event.store (s.heap.top + c.kHeapObjectTag + c.JSArray_kLengthOffset
            - c.kHeapObjectTag) (Value.Smi 0),
          Event.store (s.heap.top + c.kHeapObjectTag + c.JSArray_kPropertiesOrHashOffset
            - c.kHeapObjectTag) Value.EmptyFixedArray,
          Event.store (s.heap.top + c.kHeapObjectTag + c.HeapObject_kMapOffset
            - c.kHeapObjectTag) map], ⟨rfl, ?_⟩, ?_, ?_, ?_, ?_⟩
  · intro e he
    simp only [List.mem_cons, List.mem_singleton, List.not_mem_nil, or_false] at he
    rcases he with rfl | rfl | rfl | rfl <;> rfl
  · intro a v he
    simp only [List.mem_cons, List.mem_singleton, List.not_mem_nil, or_false,
      Event.store.injEq] at he
    rcases he with ⟨rfl, _⟩ | ⟨rfl, _⟩ | ⟨rfl, _⟩ | ⟨rfl, _⟩ <;> constructor <;> omega
  · intro a he
    simp at he
  · intro a ha
    simp only [AllocateArgumentsObject.emptyState]
    repeat (first | rw [Store_mem_eq _ _ _ _ (by omega)] | rw [Store_mem_ne _ _ _ _ (by omega)])
    rfl
  · exact ⟨⟨map, by simp⟩, ⟨Value.EmptyFixedArray, by simp⟩, ⟨Value.EmptyFixedArray, by simp⟩,
      ⟨Value.Smi 0, by simp⟩⟩

/-- With enough fuel, `ConstructParametersObjectFromArgs` ends in the state
after the allocation and `n` rounds of its copy loop. -/
theorem ConstructParametersObjectFromArgs_eq (c : Layout) (hc : c.WellFormed) (env : Env)
    (fuel : Nat) (map : Value) (frame_ptr arg_count first_arg rest_count base_size : Int)
    (s : State) (n : Nat) (hn : arg_count = first_arg + (n : Int)) (hfuel : n ≤ fuel) :
    ConstructParametersObjectFromArgs c env fuel map frame_ptr arg_count first_arg
        (Node.dynamic rest_count) base_size s
      = some (s.heap.top + c.kHeapObjectTag,
          (BuildFastLoop.rounds
            (CodeStubArguments.ForEach.body env (ConstructParametersObjectFromArgs.body c
              (s.heap.top + c.kHeapObjectTag + base_size)))
            (-c.kSystemPointerSize) IndexAdvanceMode.kPost n
            ((CodeStubArguments.new c arg_count frame_ptr).base
              - ElementOffsetFromIndex c first_arg ElementsKind.SYSTEM_POINTER_ELEMENTS 0)
            (AllocateArgumentsObject.elementsState c map rest_count base_size s,
              c.FixedArray_kHeaderSize - c.kHeapObjectTag)).1) := by
  have hp := hc.pointer_pos
  have hloop := BuildFastLoop_rounds
    (CodeStubArguments.ForEach.body env (ConstructParametersObjectFromArgs.body c
      (s.heap.top + c.kHeapObjectTag + base_size)))
    ((CodeStubArguments.new c arg_count frame_ptr).base
      - ElementOffsetFromIndex c first_arg ElementsKind.SYSTEM_POINTER_ELEMENTS 0)
    ((CodeStubArguments.new c arg_count frame_ptr).base
      - ElementOffsetFromIndex c (CodeStubArguments.new c arg_count frame_ptr).argc
        ElementsKind.SYSTEM_POINTER_ELEMENTS 0)
    (-c.kSystemPointerSize) IndexAdvanceMode.kPost (by omega) n fuel
    (AllocateArgumentsObject.elementsState c map rest_count base_size s,
      c.FixedArray_kHeaderSize - c.kHeapObjectTag) hfuel
    (by simp only [ElementOffsetFromIndex, ElementSize, CodeStubArguments.new]; rw [hn]; ring)
  simp only [ConstructParametersObjectFromArgs, AllocateArgumentsObject_elements,
    CodeStubArguments.ForEach]
  rw [hloop]

/-- The effects of `ConstructParametersObjectFromArgs` when it copies the `n`
arguments from `first_arg` on into `n` elements: one allocation of the header,
the backing-store header and `n` slots; stores into that region only, which
write the header, the backing-store header and every slot; loads of the
arguments `first_arg`, ..., `arg_count - 1` only. -/
theorem ConstructParametersObjectFromArgs_effects (c : Layout) (hc : c.WellFormed) (env : Env)
    (fuel : Nat) (map : Value) (frame_ptr arg_count first_arg rest_count base_size : Int)
    (s : State) (n : Nat) (hbase : c.JSArray_kLengthOffset + c.kTaggedSize ≤ base_size)
    (hfirst : 0 ≤ first_arg) (hn : arg_count = first_arg + (n : Int))
    (hrest : rest_count = (n : Int)) (hfuel : n ≤ fuel) :
    ∃ (s' : State) (es : List Event),
      ConstructParametersObjectFromArgs c env fuel map frame_ptr arg_count first_arg
          (Node.dynamic rest_count) base_size s
        = some (s.heap.top + c.kHeapObjectTag, s') ∧
      AllocatedOnce s s' (base_size + c.FixedArray_kHeaderSize + rest_count * c.kTaggedSize)
        (s.heap.top + c.kHeapObjectTag) es ∧
      StoresInside c es (base_size + c.FixedArray_kHeaderSize + rest_count * c.kTaggedSize)
        (s.heap.top + c.kHeapObjectTag) ∧
      LoadsArguments c es (CodeStubArguments.new c arg_count frame_ptr) ∧
      UnchangedOutside c s s'
        (base_size + c.FixedArray_kHeaderSize + rest_count * c.kTaggedSize)
        (s.heap.top + c.kHeapObjectTag) ∧
      HeaderWritten c es (s.heap.top + c.kHeapObjectTag) ∧
      FixedArrayWritten c es (s.heap.top + c.kHeapObjectTag + base_size) rest_count := by
  have heq := ConstructParametersObjectFromArgs_eq c hc env fuel map frame_ptr arg_count
    first_arg rest_count base_size s n hn hfuel
  obtain ⟨ht, h0, h1, h2, h3, h4, h5, h6, h7, h8, hp, h9, h10, h11, h12⟩ := hc
  subst hrest
  have hnn := slot_nonneg n c.kTaggedSize ht
  have htrace := copy_rounds_trace c env (s.heap.top + c.kHeapObjectTag + base_size) n
    ((CodeStubArguments.new c arg_count frame_ptr).base
      - ElementOffsetFromIndex c first_arg ElementsKind.SYSTEM_POINTER_ELEMENTS 0)
    (c.FixedArray_kHeaderSize - c.kHeapObjectTag)
    (AllocateArgumentsObject.elementsState c map (n : Int) base_size s)
  obtain ⟨_, r2, _⟩ := copy_rounds c env (s.heap.top + c.kHeapObjectTag + base_size) ht n
    ((CodeStubArguments.new c arg_count frame_ptr).base
      - ElementOffsetFromIndex c first_arg ElementsKind.SYSTEM_POINTER_ELEMENTS 0)
    (c.FixedArray_kHeaderSize - c.kHeapObjectTag)
    (AllocateArgumentsObject.elementsState c map (n : Int) base_size s)
  have hmem := fun e => copy_events_mem c env (s.heap.top + c.kHeapObjectTag + base_size) e n
    ((CodeStubArguments.new c arg_count frame_ptr).base
      - ElementOffsetFromIndex c first_arg ElementsKind.SYSTEM_POINTER_ELEMENTS 0)
    (c.FixedArray_kHeaderSize - c.kHeapObjectTag)
  refine ⟨_, ConstructParametersObjectFromArgs.events c env
      (s.heap.top + c.kHeapObjectTag + base_size) n
      ((CodeStubArguments.new c arg_count frame_ptr).base
        - ElementOffsetFromIndex c first_arg ElementsKind.SYSTEM_POINTER_ELEMENTS 0)
      (c.FixedArray_kHeaderSize - c.kHeapObjectTag)
    ++ [Event.store (s.heap.top + c.kHeapObjectTag + c.JSArray_kElementsOffset
            - c.kHeapObjectTag)
          (Value.HeapObject (s.heap.top + c.kHeapObjectTag + base_size)),
        Event.store (s.heap.top + c.kHeapObjectTag + base_size + c.HeapObject_kMapOffset
            - c.kHeapObjectTag) Value.FixedArrayMap,
        Event.store (s.heap.top + c.kHeapObjectTag + base_size + c.FixedArray_kLengthOffset
            - c.kHeapObjectTag) (Value.Smi (n : Int)),
        Event.store (s.heap.top + c.kHeapObjectTag + c.JSArray_kLengthOffset
            - c.kHeapObjectTag) (Value.Smi (n : Int)),
        Event.store (s.heap.top + c.kHeapObjectTag + c.JSArray_kPropertiesOrHashOffset
            - c.kHeapObjectTag) Value.EmptyFixedArray,
        Event.store (s.heap.top + c.kHeapObjectTag + c.HeapObject_kMapOffset
            - c.kHeapObjectTag) map],
    heq, ⟨?_, ?_⟩, ?_, ?_, ?_, ?_, ?_⟩
  · rw [htrace, List.append_assoc]
    rfl
  · intro e he
    rcases List.mem_append.mp he with he | he
    · obtain ⟨j, _, rfl | rfl⟩ := (hmem e).mp he <;> rfl
    · simp only [List.mem_cons, List.mem_singleton, List.not_mem_nil, or_false] at he
      rcases he with rfl | rfl | rfl | rfl | rfl | rfl <;> rfl
  · intro a v he
    rcases List.mem_append.mp he with he | he
    · obtain ⟨j, hj, h | h⟩ := (hmem _).mp he
      · simp only [Event.store.injEq] at h
        obtain ⟨rfl, _⟩ := h
        have := slot_nonneg j c.kTaggedSize ht
        have := slot_lt j n c.kTaggedSize ht hj
        constructor <;> omega
      · cases h
    · simp only [List.mem_cons, List.mem_singleton, List.not_mem_nil, or_false,
        Event.store.injEq] at he
      rcases he with ⟨rfl, _⟩ | ⟨rfl, _⟩ | ⟨rfl, _⟩ | ⟨rfl, _⟩ | ⟨rfl, _⟩ | ⟨rfl, _⟩ <;>
        constructor <;> omega
  · intro a he
    rcases List.mem_append.mp he with he | he
    · obtain ⟨j, hj, h | h⟩ := (hmem _).mp he
      · cases h
      · simp only [Event.load.injEq] at h
        refine ⟨first_arg + (j : Int), by omega, ?_, ?_⟩
        · simp only [CodeStubArguments.new]
          omega
        · rw [h]
          simp only [CodeStubArguments.AtIndexPtr, ElementOffsetFromIndex, ElementSize]
          ring
    · simp at he
  · intro a ha
    rw [r2]
    · simp only [AllocateArgumentsObject.elementsState]
      repeat (first | rw [Store_mem_eq _ _ _ _ (by omega)] | rw [Store_mem_ne _ _ _ _ (by omega)])
      rfl
    · intro j hj
      have := slot_nonneg j c.kTaggedSize ht
      have := slot_lt j n c.kTaggedSize ht hj
      omega
  · exact ⟨⟨map, by simp⟩, ⟨Value.EmptyFixedArray, by simp⟩,
      ⟨Value.HeapObject (s.heap.top + c.kHeapObjectTag + base_size), by simp⟩,
      ⟨Value.Smi (n : Int), by simp⟩⟩
  · refine ⟨⟨Value.FixedArrayMap, by simp⟩, ⟨Value.Smi (n : Int), by simp⟩, ?_⟩
    intro i hi0 hin
    obtain ⟨j, rfl⟩ := Int.eq_ofNat_of_zero_le hi0
    have hj : j < n := by exact_mod_cast hin
    refine ⟨env.stack ((CodeStubArguments.new c arg_count frame_ptr).base
      - ElementOffsetFromIndex c first_arg ElementsKind.SYSTEM_POINTER_ELEMENTS 0
      - (j : Int) * c.kSystemPointerSize), ?_⟩
    apply List.mem_append_left
    rw [hmem]
    refine ⟨j, hj, Or.inl ?_⟩
    simp only [OffsetOfElementAt, Event.store.injEq, and_true]
    ring

/-- With both counts at least 1, a passing ceiling check and enough fuel, the
aliased case of `EmitFastNewSloppyArguments` ends in the state after its two
loops, of `n1 = argument_count - mapped_count` and `n2 = mapped_count`
rounds. -/
theorem EmitFastNewSloppyArguments_mapped_eq (c : Layout) (hc : c.WellFormed) (env : Env)
    (fuel : Nat) (context function : Value) (s : State)
    (frame argument_count formal_parameter_count : Int) (n1 n2 : Nat)
    (hinfo : env.GetArgumentsFrameAndCount context function
      = { frame := frame, argument_count := argument_count,
          formal_parameter_count := formal_parameter_count })
    (hcount : 1 ≤ argument_count) (hformal : 1 ≤ formal_parameter_count)
    (hfits : FixedArraySizeDoesntFitInNewSpace c
      (argument_count + (min argument_count formal_parameter_count + 2))
      (c.JSSloppyArgumentsObject_kSize + c.FixedArray_kHeaderSize * 2) = false)
    (hfuel : argument_count ≤ (fuel : Int))
    (hk : min argument_count formal_parameter_count = (n2 : Int))
    (hargc : argument_count = (n2 : Int) + (n1 : Int)) :
    EmitFastNewSloppyArguments c env fuel context function s
      = some (Value.HeapObject (s.heap.top + c.kHeapObjectTag),
          EmitFastNewSloppyArguments.aliasedState c env
            (env.LoadContextElement (env.LoadNativeContext context)
              ContextField.FAST_ALIASED_ARGUMENTS_MAP_INDEX)
            context function frame argument_count formal_parameter_count n1 n2 s) := by
  have ht := hc.tagged_pos
  have hmul : argument_count * c.kTaggedSize
      = (n2 : Int) * c.kTaggedSize + (n1 : Int) * c.kTaggedSize := by rw [hargc]; ring
  have hne0 : argument_count ≠ 0 := by omega
  have hnf0 : formal_parameter_count ≠ 0 := by omega
  have hstart : c.FixedArray_kHeaderSize - c.kHeapObjectTag + (n2 : Int) * c.kTaggedSize
        + (n1 : Int) * c.kTaggedSize
      = c.FixedArray_kHeaderSize - c.kHeapObjectTag + argument_count * c.kTaggedSize := by
    omega
  have hloop1 := BuildFastLoop_rounds
    (EmitFastNewSloppyArguments.fillNonMapped c env
      (s.heap.top + c.kHeapObjectTag + c.JSSloppyArgumentsObject_kSize))
    (c.FixedArray_kHeaderSize - c.kHeapObjectTag + argument_count * c.kTaggedSize)
    (c.FixedArray_kHeaderSize - c.kHeapObjectTag + (n2 : Int) * c.kTaggedSize)
    (-c.kTaggedSize) IndexAdvanceMode.kPre (by omega) n1 fuel
    (EmitFastNewSloppyArguments.preparedState c
      (env.LoadContextElement (env.LoadNativeContext context)
        ContextField.FAST_ALIASED_ARGUMENTS_MAP_INDEX) context function argument_count
      ((n2 : Int) + 2) s,
      (CodeStubArguments.new c argument_count frame).AtIndexPtr c argument_count)
    (by omega) (by rw [hmul]; ring)
  have hloop2 := BuildFastLoop_rounds
    (EmitFastNewSloppyArguments.fillMapped
      (s.heap.top + c.kHeapObjectTag + c.JSSloppyArgumentsObject_kSize)
      (s.heap.top + c.kHeapObjectTag + c.JSSloppyArgumentsObject_kSize
        + (c.FixedArray_kHeaderSize + argument_count * c.kTaggedSize)
        + (OffsetOfElementAt c 2 - c.FixedArray_kHeaderSize)) Value.TheHole)
    (c.FixedArray_kHeaderSize - c.kHeapObjectTag + (n2 : Int) * c.kTaggedSize)
    (c.FixedArray_kHeaderSize - c.kHeapObjectTag + 0 * c.kTaggedSize)
    (-c.kTaggedSize) IndexAdvanceMode.kPre (by omega) n2 fuel
    ((BuildFastLoop.rounds
      (EmitFastNewSloppyArguments.fillNonMapped c env
        (s.heap.top + c.kHeapObjectTag + c.JSSloppyArgumentsObject_kSize))
      (-c.kTaggedSize) IndexAdvanceMode.kPre n1
      (c.FixedArray_kHeaderSize - c.kHeapObjectTag + argument_count * c.kTaggedSize)
      (EmitFastNewSloppyArguments.preparedState c
        (env.LoadContextElement (env.LoadNativeContext context)
          ContextField.FAST_ALIASED_ARGUMENTS_MAP_INDEX) context function argument_count
        ((n2 : Int) + 2) s,
        (CodeStubArguments.new c argument_count frame).AtIndexPtr c argument_count)).1,
      c.MIN_CONTEXT_SLOTS + formal_parameter_count - (n2 : Int))
    (by omega) (by ring)
  have hfits' := hfits
  rw [hk] at hfits'
  rw [EmitFastNewSloppyArguments.aliasedState, hstart]
  simp only [EmitFastNewSloppyArguments.preparedState] at hloop1 hloop2 ⊢
  simp only [EmitFastNewSloppyArguments, hinfo, Node.value, hne0, hnf0, if_false, hfits',
    hk, AllocateArgumentsObject_mapped, ElementOffsetFromIndex, ElementSize,
    Bool.false_eq_true]
  rw [hloop1]
  simp only []
  rw [hloop2]

/-- The trace of the aliased case after its two loops. -/
theorem aliasedState_trace (c : Layout) (env : Env) (map context function : Value)
    (frame argument_count formal_parameter_count : Int) (n1 n2 : Nat) (s : State) :
    (EmitFastNewSloppyArguments.aliasedState c env map context function frame argument_count
        formal_parameter_count n1 n2 s).trace
      = EmitFastNewSloppyArguments.aliasedEvents c env map context function frame
          argument_count formal_parameter_count n1 n2 s.heap.top
        ++ Event.allocate (c.JSSloppyArgumentsObject_kSize + c.FixedArray_kHeaderSize
            + c.FixedArray_kHeaderSize + (argument_count + ((n2 : Int) + 2)) * c.kTaggedSize)
          (s.heap.top + c.kHeapObjectTag) :: s.trace := by
  rw [EmitFastNewSloppyArguments.aliasedState, fillMapped_rounds_trace,
    fillNonMapped_rounds_trace, EmitFastNewSloppyArguments.aliasedEvents]
  simp only [List.append_assoc]
  rfl

/-- The effects of the aliased case of `EmitFastNewSloppyArguments`: stores
into the allocated region only, which write the header with the callee, the
backing store with all its slots and the parameter map with all its slots;
loads of actual arguments only; nothing changed outside the region. -/
theorem aliased_effects (c : Layout) (hc : c.WellFormed) (env : Env)
    (map context function : Value) (frame argument_count formal_parameter_count : Int)
    (n1 n2 : Nat) (s : State) (hargc : argument_count = (n2 : Int) + (n1 : Int)) :
    (∀ e ∈ EmitFastNewSloppyArguments.aliasedEvents c env map context function frame
        argument_count formal_parameter_count n1 n2 s.heap.top,
      Event.isStoreOrLoad e = true) ∧
    StoresInside c
      (EmitFastNewSloppyArguments.aliasedEvents c env map context function frame
        argument_count formal_parameter_count n1 n2 s.heap.top)
      (c.JSSloppyArgumentsObject_kSize + c.FixedArray_kHeaderSize + c.FixedArray_kHeaderSize
        + (argument_count + ((n2 : Int) + 2)) * c.kTaggedSize)
      (s.heap.top + c.kHeapObjectTag) ∧
    LoadsArguments c
      (EmitFastNewSloppyArguments.aliasedEvents c env map context function frame
        argument_count formal_parameter_count n1 n2 s.heap.top)
      (CodeStubArguments.new c argument_count frame) ∧
    UnchangedOutside c s
      (EmitFastNewSloppyArguments.aliasedState c env map context function frame
        argument_count formal_parameter_count n1 n2 s)
      (c.JSSloppyArgumentsObject_kSize + c.FixedArray_kHeaderSize + c.FixedArray_kHeaderSize
        + (argument_count + ((n2 : Int) + 2)) * c.kTaggedSize)
      (s.heap.top + c.kHeapObjectTag) ∧
    HeaderWritten c
      (EmitFastNewSloppyArguments.aliasedEvents c env map context function frame
        argument_count formal_parameter_count n1 n2 s.heap.top)
      (s.heap.top + c.kHeapObjectTag) ∧
    Written
      (EmitFastNewSloppyArguments.aliasedEvents c env map context function frame
        argument_count formal_parameter_count n1 n2 s.heap.top)
      (s.heap.top + c.kHeapObjectTag + c.JSSloppyArgumentsObject_kCalleeOffset
        - c.kHeapObjectTag) ∧
    FixedArrayWritten c
      (EmitFastNewSloppyArguments.aliasedEvents c env map context function frame
        argument_count formal_parameter_count n1 n2 s.heap.top)
      (s.heap.top + c.kHeapObjectTag + c.JSSloppyArgumentsObject_kSize) argument_count ∧
    FixedArrayWritten c
      (EmitFastNewSloppyArguments.aliasedEvents c env map context function frame
        argument_count formal_parameter_count n1 n2 s.heap.top)
      (s.heap.top + c.kHeapObjectTag + c.JSSloppyArgumentsObject_kSize
        + OffsetOfElementAt c argument_count) ((n2 : Int) + 2) := by
  obtain ⟨ht, h0, h1, h2, h3, h4, h5, h6, h7, h8, hp, h9, h10, h11, h12⟩ := hc
  have hmul : argument_count * c.kTaggedSize
      = (n2 : Int) * c.kTaggedSize + (n1 : Int) * c.kTaggedSize := by rw [hargc]; ring
  have hsize : (argument_count + ((n2 : Int) + 2)) * c.kTaggedSize
      = argument_count * c.kTaggedSize + (n2 : Int) * c.kTaggedSize + 2 * c.kTaggedSize := by
    ring
  have hn1 := slot_nonneg n1 c.kTaggedSize ht
  have hn2 := slot_nonneg n2 c.kTaggedSize ht
  have hA := fun e => fillMapped_events_mem c.kTaggedSize
    (s.heap.top + c.kHeapObjectTag + c.JSSloppyArgumentsObject_kSize)
    (s.heap.top + c.kHeapObjectTag + c.JSSloppyArgumentsObject_kSize
      + (c.FixedArray_kHeaderSize + argument_count * c.kTaggedSize)
      + (OffsetOfElementAt c 2 - c.FixedArray_kHeaderSize)) e n2
    (c.FixedArray_kHeaderSize - c.kHeapObjectTag)
    (c.MIN_CONTEXT_SLOTS + formal_parameter_count - (n2 : Int))
  have hB := fun e => fillNonMapped_events_mem c env
    (s.heap.top + c.kHeapObjectTag + c.JSSloppyArgumentsObject_kSize) e n1
    (c.FixedArray_kHeaderSize - c.kHeapObjectTag + (n2 : Int) * c.kTaggedSize)
    ((CodeStubArguments.new c argument_count frame).AtIndexPtr c argument_count)
  refine ⟨?_, ?_, ?_, ?_, ?_, ?_, ?_, ?_⟩
  · intro e he
    rw [EmitFastNewSloppyArguments.aliasedEvents] at he
    rcases List.mem_append.mp he with he | he
    · obtain ⟨j, _, rfl | rfl⟩ := (hA e).mp he <;> rfl
    · rcases List.mem_append.mp he with he | he
      · obtain ⟨j, _, rfl | rfl⟩ := (hB e).mp he <;> rfl
      · simp only [List.mem_cons, List.mem_singleton, List.not_mem_nil, or_false] at he
        rcases he with rfl | rfl | rfl | rfl | rfl | rfl | rfl | rfl | rfl | rfl | rfl <;> rfl
  · intro a v he
    rw [EmitFastNewSloppyArguments.aliasedEvents] at he
    rcases List.mem_append.mp he with he | he
    · obtain ⟨j, hj, h | h⟩ := (hA _).mp he
      · simp only [Event.store.injEq] at h
        obtain ⟨rfl, _⟩ := h
        have := slot_nonneg j c.kTaggedSize ht
        have := slot_lt j n2 c.kTaggedSize ht hj
        simp only [OffsetOfElementAt]
        constructor <;> omega
      · simp only [Event.store.injEq] at h
        obtain ⟨rfl, _⟩ := h
        have := slot_nonneg j c.kTaggedSize ht
        have := slot_lt j n2 c.kTaggedSize ht hj
        constructor <;> omega
    · rcases List.mem_append.mp he with he | he
      · obtain ⟨j, hj, h | h⟩ := (hB _).mp he
        · simp only [Event.store.injEq] at h
          obtain ⟨rfl, _⟩ := h
          have := slot_nonneg j c.kTaggedSize ht
          have := slot_lt j n1 c.kTaggedSize ht hj
          constructor <;> omega
        · cases h
      · simp only [List.mem_cons, List.mem_singleton, List.not_mem_nil, or_false,
          Event.store.injEq, OffsetOfElementAt] at he
        rcases he with ⟨rfl, _⟩ | ⟨rfl, _⟩ | ⟨rfl, _⟩ | ⟨rfl, _⟩ | ⟨rfl, _⟩ | ⟨rfl, _⟩
          | ⟨rfl, _⟩ | ⟨rfl, _⟩ | ⟨rfl, _⟩ | ⟨rfl, _⟩ | ⟨rfl, _⟩ <;> constructor <;> omega
  · intro a he
    rw [EmitFastNewSloppyArguments.aliasedEvents] at he
    rcases List.mem_append.mp he with he | he
    · obtain ⟨j, _, h | h⟩ := (hA _).mp he <;> cases h
    · rcases List.mem_append.mp he with he | he
      · obtain ⟨j, hj, h | h⟩ := (hB _).mp he
        · cases h
        · simp only [Event.load.injEq] at h
          refine ⟨(n2 : Int) + (j : Int), by omega, ?_, ?_⟩
          · simp only [CodeStubArguments.new]
            omega
          · rw [h]
            simp only [CodeStubArguments.AtIndexPtr, ElementOffsetFromIndex, ElementSize]
            rw [hargc]
            ring
      · simp at he
  · intro a ha
    obtain ⟨_, a2, _⟩ := fillNonMapped_rounds c env
      (s.heap.top + c.kHeapObjectTag + c.JSSloppyArgumentsObject_kSize) ht n1
      ((CodeStubArguments.new c argument_count frame).AtIndexPtr c argument_count)
      (c.FixedArray_kHeaderSize - c.kHeapObjectTag + (n2 : Int) * c.kTaggedSize)
      (EmitFastNewSloppyArguments.preparedState c map context function argument_count
        ((n2 : Int) + 2) s)
    obtain ⟨_, _, b3, _⟩ := fillMapped_rounds c.kTaggedSize
      (s.heap.top + c.kHeapObjectTag + c.JSSloppyArgumentsObject_kSize)
      (s.heap.top + c.kHeapObjectTag + c.JSSloppyArgumentsObject_kSize
        + (c.FixedArray_kHeaderSize + argument_count * c.kTaggedSize)
        + (OffsetOfElementAt c 2 - c.FixedArray_kHeaderSize)) ht n2
      (c.MIN_CONTEXT_SLOTS + formal_parameter_count - (n2 : Int))
      (c.FixedArray_kHeaderSize - c.kHeapObjectTag)
      (BuildFastLoop.rounds
        (EmitFastNewSloppyArguments.fillNonMapped c env
          (s.heap.top + c.kHeapObjectTag + c.JSSloppyArgumentsObject_kSize))
        (-c.kTaggedSize) IndexAdvanceMode.kPre n1
        (c.FixedArray_kHeaderSize - c.kHeapObjectTag + (n2 : Int) * c.kTaggedSize
          + (n1 : Int) * c.kTaggedSize)
        (EmitFastNewSloppyArguments.preparedState c map context function argument_count
          ((n2 : Int) + 2) s,
          (CodeStubArguments.new c argument_count frame).AtIndexPtr c argument_count)).1
      (by simp only [OffsetOfElementAt]; omega)
    rw [EmitFastNewSloppyArguments.aliasedState, b3, a2]
    · simp only [EmitFastNewSloppyArguments.preparedState, StoreFixedArrayElement,
        StoreObjectFieldNoWriteBarrier, OffsetOfElementAt,
        AllocateArgumentsObject.mappedState]
      repeat (first | rw [Store_mem_eq _ _ _ _ (by omega)] | rw [Store_mem_ne _ _ _ _ (by omega)])
      rfl
    · intro j hj
      have := slot_nonneg j c.kTaggedSize ht
      have := slot_lt j n1 c.kTaggedSize ht hj
      omega
    · intro j hj
      have := slot_nonneg j c.kTaggedSize ht
      have := slot_lt j n2 c.kTaggedSize ht hj
      omega
    · intro j hj
      have := slot_nonneg j c.kTaggedSize ht
      have := slot_lt j n2 c.kTaggedSize ht hj
      simp only [OffsetOfElementAt]
      omega
  · rw [EmitFastNewSloppyArguments.aliasedEvents]
    refine ⟨⟨map, ?_⟩, ⟨Value.EmptyFixedArray, ?_⟩,
      ⟨Value.HeapObject (s.heap.top + c.kHeapObjectTag + c.JSSloppyArgumentsObject_kSize
        + (c.FixedArray_kHeaderSize + argument_count * c.kTaggedSize)), ?_⟩,
      ⟨Value.Smi argument_count, ?_⟩⟩ <;>
    · apply List.mem_append_right
      apply List.mem_append_right
      simp
  · rw [EmitFastNewSloppyArguments.aliasedEvents]
    refine ⟨function, ?_⟩
    apply List.mem_append_right
    apply List.mem_append_right
    simp
  · rw [EmitFastNewSloppyArguments.aliasedEvents]
    refine ⟨⟨Value.FixedArrayMap, ?_⟩, ⟨Value.Smi argument_count, ?_⟩, ?_⟩
    · apply List.mem_append_right
      apply List.mem_append_right
      simp
    · apply List.mem_append_right
      apply List.mem_append_right
      simp
    intro i hi0 hin
    by_cases hlt : i < (n2 : Int)
    · obtain ⟨j, rfl⟩ := Int.eq_ofNat_of_zero_le hi0
      have hj : j < n2 := by exact_mod_cast hlt
      refine ⟨Value.TheHole, ?_⟩
      apply List.mem_append_left
      rw [hA]
      refine ⟨j, hj, Or.inr ?_⟩
      simp only [OffsetOfElementAt, Event.store.injEq, and_true]
      ring
    · obtain ⟨j, hj⟩ := Int.eq_ofNat_of_zero_le (show 0 ≤ i - (n2 : Int) by omega)
      have hi : i = (n2 : Int) + (j : Int) := by omega
      subst hi
      have hjn : j < n1 := by
        have : (j : Int) < (n1 : Int) := by omega
        exact_mod_cast this
      refine ⟨env.stack ((CodeStubArguments.new c argument_count frame).AtIndexPtr c
        argument_count + ((n1 : Int) - (j : Int)) * c.kSystemPointerSize), ?_⟩
      apply List.mem_append_right
      apply List.mem_append_left
      rw [hB]
      refine ⟨j, hjn, Or.inl ?_⟩
      simp only [OffsetOfElementAt, Event.store.injEq, and_true]
      ring
  · rw [EmitFastNewSloppyArguments.aliasedEvents]
    refine ⟨⟨Value.SloppyArgumentsElementsMap, ?_⟩, ⟨Value.Smi ((n2 : Int) + 2), ?_⟩, ?_⟩
    · apply List.mem_append_right
      apply List.mem_append_right
      simp only [OffsetOfElementAt, List.mem_cons, Event.store.injEq]
      simp
    · apply List.mem_append_right
      apply List.mem_append_right
      simp only [OffsetOfElementAt, List.mem_cons, Event.store.injEq]
      simp
    · intro i hi0 hin
      by_cases h01 : i < 2
      · have hcases : i = 0 ∨ i = 1 := by omega
        rcases hcases with rfl | rfl
        · refine ⟨context, ?_⟩
          apply List.mem_append_right
          apply List.mem_append_right
          simp [OffsetOfElementAt]
        · refine ⟨Value.HeapObject
            (s.heap.top + c.kHeapObjectTag + c.JSSloppyArgumentsObject_kSize), ?_⟩
          apply List.mem_append_right
          apply List.mem_append_right
          simp [OffsetOfElementAt]
      · obtain ⟨j, hj⟩ := Int.eq_ofNat_of_zero_le (show 0 ≤ i - 2 by omega)
        have hi : i = (j : Int) + 2 := by omega
        subst hi
        have hjn : j < n2 := by
          have : (j : Int) < (n2 : Int) := by omega
          exact_mod_cast this
        refine ⟨Value.Smi (c.MIN_CONTEXT_SLOTS + formal_parameter_count - (n2 : Int)
          + ((n2 : Int) - 1 - (j : Int))), ?_⟩
        apply List.mem_append_left
        rw [hA]
        refine ⟨j, hjn, Or.inl ?_⟩
        simp only [OffsetOfElementAt, Event.store.injEq, and_true]
        ring

/-- One more store into the region keeps the effects of a fast path. -/
theorem effects_store (c : Layout) (ht : 0 < c.kTaggedSize) {s s' : State} {size result : Int}
    {es : List Event} {arguments : CodeStubArguments} (address : Int) (value : Value)
    (h1 : AllocatedOnce s s' size result es) (h2 : StoresInside c es size result)
    (h3 : LoadsArguments c es arguments) (h4 : UnchangedOutside c s s' size result)
    (hlow : result - c.kHeapObjectTag ≤ address)
    (hhigh : address + c.kTaggedSize ≤ result - c.kHeapObjectTag + size) :
    AllocatedOnce s (Store address value s') size result (Event.store address value :: es) ∧
    StoresInside c (Event.store address value :: es) size result ∧
    LoadsArguments c (Event.store address value :: es) arguments ∧
    UnchangedOutside c s (Store address value s') size result ∧
    Written (Event.store address value :: es) address ∧
    (∀ b : Int, Written es b → Written (Event.store address value :: es) b) := by
  refine ⟨⟨?_, ?_⟩, ?_, ?_, ?_, ⟨value, List.mem_cons_self _ _⟩, ?_⟩
  · show Event.store address value :: s'.trace = _
    rw [h1.1]
    rfl
  · intro e he
    rcases List.mem_cons.mp he with rfl | he
    · rfl
    · exact h1.2 e he
  · intro a v he
    rcases List.mem_cons.mp he with h | he
    · simp only [Event.store.injEq] at h
      obtain ⟨rfl, _⟩ := h
      exact ⟨hlow, hhigh⟩
    · exact h2 a v he
  · intro a he
    rcases List.mem_cons.mp he with h | he
    · cases h
    · exact h3 a he
  · intro a ha
    rw [Store_mem_ne _ _ _ _ (by omega)]
    exact h4 a ha
  · intro b hb
    exact hb.mono (fun e he => List.mem_cons_of_mem _ he)

/-- A count that passes the ceiling check fits: the base size and the slots
are a regular heap object. -/
theorem fits_bound (c : Layout) (ht : 0 < c.kTaggedSize) (count base_size : Int)
    (hfits : FixedArraySizeDoesntFitInNewSpace c count base_size = false)
    (hbase : base_size ≤ c.kMaxRegularHeapObjectSize) :
    base_size + count * c.kTaggedSize ≤ c.kMaxRegularHeapObjectSize := by
  simp only [FixedArraySizeDoesntFitInNewSpace, decide_eq_false_iff_not, not_lt, gt_iff_lt]
    at hfits
  rw [Int.tdiv_eq_ediv (by omega) ht.le] at hfits
  have := (Int.le_ediv_iff_mul_le ht).mp hfits
  omega

/-- The effects of `EmitFastNewStrictArguments` on its fast path. -/
theorem EmitFastNewStrictArguments_effects (c : Layout) (hc : c.WellFormed) (env : Env)
    (fuel : Nat) (context function : Value) (s : State)
    (frame argument_count formal_parameter_count : Int)
    (hinfo : env.GetArgumentsFrameAndCount context function
      = { frame := frame, argument_count := argument_count,
          formal_parameter_count := formal_parameter_count })
    (hcount : 0 ≤ argument_count)
    (hfits : FixedArraySizeDoesntFitInNewSpace c argument_count
      (c.JSStrictArgumentsObject_kSize + c.FixedArray_kHeaderSize) = false)
    (hfuel : argument_count ≤ (fuel : Int)) :
    ∃ (s' : State) (size : Int) (es : List Event),
      EmitFastNewStrictArguments c env fuel context function s
        = some (Value.HeapObject (s.heap.top + c.kHeapObjectTag), s') ∧
      AllocatedOnce s s' size (s.heap.top + c.kHeapObjectTag) es ∧
      StoresInside c es size (s.heap.top + c.kHeapObjectTag) ∧
      LoadsArguments c es (CodeStubArguments.new c argument_count frame) ∧
      UnchangedOutside c s s' size (s.heap.top + c.kHeapObjectTag) ∧
      HeaderWritten c es (s.heap.top + c.kHeapObjectTag) ∧
      (0 < argument_count →
        FixedArrayWritten c es
          (s.heap.top + c.kHeapObjectTag + c.JSStrictArgumentsObject_kSize) argument_count ∧
        size = c.JSStrictArgumentsObject_kSize + c.FixedArray_kHeaderSize
          + argument_count * c.kTaggedSize) ∧
      (argument_count = 0 → size = c.JSStrictArgumentsObject_kSize) := by
  by_cases hzero : argument_count = 0
  · obtain ⟨es, e1, e2, e3, e4, e5⟩ := emptyState_effects c hc
      (env.LoadContextElement (env.LoadNativeContext context)
        ContextField.STRICT_ARGUMENTS_MAP_INDEX) c.JSStrictArgumentsObject_kSize
      (CodeStubArguments.new c argument_count frame) s hc.length_strict
    refine ⟨_, c.JSStrictArgumentsObject_kSize, es, ?_, e1, e2, e3, e4, e5,
      fun h => absurd hzero (by omega), fun _ => rfl⟩
    rw [hzero] at hfits
    simp only [EmitFastNewStrictArguments, hinfo, hfits, Node.value, hzero,
      AllocateArgumentsObject_empty]
    simp
  · obtain ⟨n, hn⟩ := Int.eq_ofNat_of_zero_le hcount
    obtain ⟨s', es, hs, e1, e2, e3, e4, e5, e6⟩ :=
      ConstructParametersObjectFromArgs_effects c hc env fuel
        (env.LoadContextElement (env.LoadNativeContext context)
          ContextField.STRICT_ARGUMENTS_MAP_INDEX) frame argument_count 0 argument_count
        c.JSStrictArgumentsObject_kSize s n hc.length_strict (le_refl 0) (by omega) hn
        (by omega)
    refine ⟨s', _, es, ?_, e1, e2, e3, e4, e5, fun _ => ⟨e6, rfl⟩,
      fun h => absurd h hzero⟩
    simp only [EmitFastNewStrictArguments, hinfo, hfits, Node.value, hzero]
    simp only [Bool.false_eq_true, if_false, hs]

/-- The effects of `EmitFastNewRestParameter` on its fast paths. -/
theorem EmitFastNewRestParameter_effects (c : Layout) (hc : c.WellFormed) (env : Env)
    (fuel : Nat) (context function : Value) (s : State)
    (frame argument_count formal_parameter_count : Int)
    (hinfo : env.GetArgumentsFrameAndCount context function
      = { frame := frame, argument_count := argument_count,
          formal_parameter_count := formal_parameter_count })
    (hformal : 0 ≤ formal_parameter_count)
    (hfast : argument_count - formal_parameter_count ≤ 0
      ∨ FixedArraySizeDoesntFitInNewSpace c (argument_count - formal_parameter_count)
          (c.JSArray_kSize + c.FixedArray_kHeaderSize) = false)
    (hfuel : argument_count - formal_parameter_count ≤ (fuel : Int)) :
    ∃ (s' : State) (size : Int) (es : List Event),
      EmitFastNewRestParameter c env fuel context function s
        = some (Value.HeapObject (s.heap.top + c.kHeapObjectTag), s') ∧
      AllocatedOnce s s' size (s.heap.top + c.kHeapObjectTag) es ∧
      StoresInside c es size (s.heap.top + c.kHeapObjectTag) ∧
      LoadsArguments c es (CodeStubArguments.new c argument_count frame) ∧
      UnchangedOutside c s s' size (s.heap.top + c.kHeapObjectTag) ∧
      HeaderWritten c es (s.heap.top + c.kHeapObjectTag) ∧
      (0 < argument_count - formal_parameter_count →
        FixedArrayWritten c es (s.heap.top + c.kHeapObjectTag + c.JSArray_kSize)
          (argument_count - formal_parameter_count) ∧
        size = c.JSArray_kSize + c.FixedArray_kHeaderSize
          + (argument_count - formal_parameter_count) * c.kTaggedSize) ∧
      (argument_count - formal_parameter_count ≤ 0 → size = c.JSArray_kSize) := by
  by_cases hle : argument_count - formal_parameter_count ≤ 0
  · obtain ⟨es, e1, e2, e3, e4, e5⟩ := emptyState_effects c hc
      (env.LoadContextElement (env.LoadNativeContext context)
        ContextField.JS_ARRAY_PACKED_ELEMENTS_MAP_INDEX) c.JSArray_kSize
      (CodeStubArguments.new c argument_count frame) s hc.length_array
    refine ⟨_, c.JSArray_kSize, es, ?_, e1, e2, e3, e4, e5,
      fun h => absurd hle (by omega), fun _ => rfl⟩
    simp only [EmitFastNewRestParameter, hinfo, Node.value, hle, if_true,
      AllocateArgumentsObject_empty]
  · have hfits : FixedArraySizeDoesntFitInNewSpace c (argument_count - formal_parameter_count)
        (c.JSArray_kSize + c.FixedArray_kHeaderSize) = false := by
      rcases hfast with h | h
      · exact absurd h hle
      · exact h
    obtain ⟨n, hn⟩ := Int.eq_ofNat_of_zero_le
      (show 0 ≤ argument_count - formal_parameter_count by omega)
    obtain ⟨s', es, hs, e1, e2, e3, e4, e5, e6⟩ :=
      ConstructParametersObjectFromArgs_effects c hc env fuel
        (env.LoadContextElement (env.LoadNativeContext context)
          ContextField.JS_ARRAY_PACKED_ELEMENTS_MAP_INDEX) frame argument_count
        formal_parameter_count (argument_count - formal_parameter_count)
        c.JSArray_kSize s n hc.length_array hformal (by omega) hn (by omega)
    refine ⟨s', _, es, ?_, e1, e2, e3, e4, e5, fun _ => ⟨e6, rfl⟩,
      fun h => absurd h hle⟩
    simp only [EmitFastNewRestParameter, hinfo, hfits, Node.value, hle]
    simp only [Bool.false_eq_true, if_false, hs]

/-- The effects of `EmitFastNewSloppyArguments` on its fast paths. -/
theorem EmitFastNewSloppyArguments_effects (c : Layout) (hc : c.WellFormed) (env : Env)
    (fuel : Nat) (context function : Value) (s : State)
    (frame argument_count formal_parameter_count : Int)
    (hinfo : env.GetArgumentsFrameAndCount context function
      = { frame := frame, argument_count := argument_count,
          formal_parameter_count := formal_parameter_count })
    (hcount : 0 ≤ argument_count) (hformal : 0 ≤ formal_parameter_count)
    (hfast : argument_count = 0
      ∨ (formal_parameter_count = 0 ∧ FixedArraySizeDoesntFitInNewSpace c argument_count
          (c.JSSloppyArgumentsObject_kSize + c.FixedArray_kHeaderSize) = false)
      ∨ (formal_parameter_count ≠ 0 ∧ FixedArraySizeDoesntFitInNewSpace c
          (argument_count + (min argument_count formal_parameter_count + 2))
          (c.JSSloppyArgumentsObject_kSize + c.FixedArray_kHeaderSize * 2) = false))
    (hfuel : argument_count ≤ (fuel : Int)) :
    ∃ (s' : State) (size : Int) (es : List Event),
      EmitFastNewSloppyArguments c env fuel context function s
        = some (Value.HeapObject (s.heap.top + c.kHeapObjectTag), s') ∧
      AllocatedOnce s s' size (s.heap.top + c.kHeapObjectTag) es ∧
      StoresInside c es size (s.heap.top + c.kHeapObjectTag) ∧
      LoadsArguments c es (CodeStubArguments.new c argument_count frame) ∧
      UnchangedOutside c s s' size (s.heap.top + c.kHeapObjectTag) ∧
      HeaderWritten c es (s.heap.top + c.kHeapObjectTag) ∧
      Written es (s.heap.top + c.kHeapObjectTag + c.JSSloppyArgumentsObject_kCalleeOffset
        - c.kHeapObjectTag) ∧
      (0 < argument_count →
        FixedArrayWritten c es
          (s.heap.top + c.kHeapObjectTag + c.JSSloppyArgumentsObject_kSize) argument_count) ∧
      (0 < argument_count → 0 < formal_parameter_count →
        FixedArrayWritten c es
          (s.heap.top + c.kHeapObjectTag + c.JSSloppyArgumentsObject_kSize
            + OffsetOfElementAt c argument_count)
          (min argument_count formal_parameter_count + 2)) ∧
      (argument_count = 0 → size = c.JSSloppyArgumentsObject_kSize) ∧
      (0 < argument_count → formal_parameter_count = 0 →
        size = c.JSSloppyArgumentsObject_kSize + c.FixedArray_kHeaderSize
          + argument_count * c.kTaggedSize) ∧
      (0 < argument_count → 0 < formal_parameter_count →
        size = c.JSSloppyArgumentsObject_kSize + c.FixedArray_kHeaderSize * 2
          + (argument_count + (min argument_count formal_parameter_count + 2))
            * c.kTaggedSize) := by
  have ht := hc.tagged_pos
  have hw := hc
  obtain ⟨_, h0, h1, h2, h3, h4, h5, h6, h7, h8, hp, h9, h10, h11, h12⟩ := hw
  by_cases hzero : argument_count = 0
  · obtain ⟨es, e1, e2, e3, e4, e5⟩ := emptyState_effects c hc
      (env.LoadContextElement (env.LoadNativeContext context)
        ContextField.SLOPPY_ARGUMENTS_MAP_INDEX) c.JSSloppyArgumentsObject_kSize
      (CodeStubArguments.new c argument_count frame) s (by omega)
    obtain ⟨f1, f2, f3, f4, f5, f6⟩ := effects_store c ht
      (s.heap.top + c.kHeapObjectTag + c.JSSloppyArgumentsObject_kCalleeOffset
        - c.kHeapObjectTag) function e1 e2 e3 e4 (by omega) (by omega)
    refine ⟨_, c.JSSloppyArgumentsObject_kSize, _, ?_, f1, f2, f3, f4,
      ⟨f6 _ e5.1, f6 _ e5.2.1, f6 _ e5.2.2.1, f6 _ e5.2.2.2⟩, f5,
      fun h => absurd hzero (by omega), fun h => absurd hzero (by omega), fun _ => rfl,
      fun h => absurd hzero (by omega), fun h => absurd hzero (by omega)⟩
    simp only [EmitFastNewSloppyArguments, hinfo, Node.value, hzero, if_true,
      AllocateArgumentsObject_empty, StoreObjectFieldNoWriteBarrier]
  · rcases hfast with hz | ⟨hf, hfits⟩ | ⟨hf, hfits⟩
    · exact absurd hz hzero
    · obtain ⟨n, hn⟩ := Int.eq_ofNat_of_zero_le hcount
      obtain ⟨s', es, hs, e1, e2, e3, e4, e5, e6⟩ :=
        ConstructParametersObjectFromArgs_effects c hc env fuel
          (env.LoadContextElement (env.LoadNativeContext context)
            ContextField.SLOPPY_ARGUMENTS_MAP_INDEX) frame argument_count 0 argument_count
          c.JSSloppyArgumentsObject_kSize s n (by omega) (le_refl 0) (by omega) hn
          (by omega)
      have hslots := slot_nonneg n c.kTaggedSize ht
      rw [← hn] at hslots
      obtain ⟨f1, f2, f3, f4, f5, f6⟩ := effects_store c ht
        (s.heap.top + c.kHeapObjectTag + c.JSSloppyArgumentsObject_kCalleeOffset
          - c.kHeapObjectTag) function e1 e2 e3 e4 (by omega) (by omega)
      refine ⟨_, _, _, ?_, f1, f2, f3, f4,
        ⟨f6 _ e5.1, f6 _ e5.2.1, f6 _ e5.2.2.1, f6 _ e5.2.2.2⟩, f5,
        fun _ => ⟨f6 _ e6.1, f6 _ e6.2.1, fun i hi hi' => f6 _ (e6.2.2 i hi hi')⟩,
        fun _ h => absurd hf (by omega), fun h => absurd h hzero, fun _ _ => rfl,
        fun _ h => absurd hf (by omega)⟩
      simp only [EmitFastNewSloppyArguments, hinfo, Node.value, hzero, hf, hfits, if_true,
        if_false, Bool.false_eq_true, hs, StoreObjectFieldNoWriteBarrier]
    · have hcount1 : 1 ≤ argument_count := by omega
      have hformal1 : 1 ≤ formal_parameter_count := by omega
      obtain ⟨n2, hk⟩ := Int.eq_ofNat_of_zero_le
        (show 0 ≤ min argument_count formal_parameter_count by omega)
      obtain ⟨n1, hn1⟩ := Int.eq_ofNat_of_zero_le
        (show 0 ≤ argument_count - min argument_count formal_parameter_count by omega)
      have hargc : argument_count = (n2 : Int) + (n1 : Int) := by omega
      have heq := EmitFastNewSloppyArguments_mapped_eq c hc env fuel context function s frame
        argument_count formal_parameter_count n1 n2 hinfo hcount1 hformal1 hfits hfuel hk hargc
      have htrace := aliasedState_trace c env
        (env.LoadContextElement (env.LoadNativeContext context)
          ContextField.FAST_ALIASED_ARGUMENTS_MAP_INDEX) context function frame
        argument_count formal_parameter_count n1 n2 s
      obtain ⟨e0, e2, e3, e4, e5, e6, e7, e8⟩ := aliased_effects c hc env
        (env.LoadContextElement (env.LoadNativeContext context)
          ContextField.FAST_ALIASED_ARGUMENTS_MAP_INDEX) context function frame
        argument_count formal_parameter_count n1 n2 s hargc
      refine ⟨_, _, _, heq, ⟨htrace, e0⟩, e2, e3, e4, e5, e6, fun _ => e7,
        fun _ _ => ?_, fun h => absurd h hzero, fun _ h => absurd h hf, fun _ _ => ?_⟩
      · rw [hk]
        exact e8
      · rw [hk]
        ring

/-- The stores of two runs of events are those of the earlier run followed by
those of the later one. -/
theorem storesFrom_append (low : Int) (es es' : List Event) :
    storesFrom low (es ++ es') = storesFrom low es' ++ storesFrom low es := by
  simp [storesFrom, List.filterMap_append]

/-- A store below `low` does not count. -/
theorem storesFrom_cons_below (low address : Int) (value : Value) (es : List Event)
    (h : address < low) :
    storesFrom low (Event.store address value :: es) = storesFrom low es := by
  have : ¬ low ≤ address := by omega
  simp [storesFrom, List.filterMap_cons, this]

/-- A store from `low` on is the last one made. -/
theorem storesFrom_cons_from (low address : Int) (value : Value) (es : List Event)
    (h : low ≤ address) :
    storesFrom low (Event.store address value :: es)
      = storesFrom low es ++ [(address, value)] := by
  simp [storesFrom, List.filterMap_cons, h]

/-- A load is no store. -/
theorem storesFrom_cons_load (low address : Int) (es : List Event) :
    storesFrom low (Event.load address :: es) = storesFrom low es := by
  simp [storesFrom, List.filterMap_cons]

/-- An allocation is no store. -/
theorem storesFrom_cons_allocate (low size result : Int) (es : List Event) :
    storesFrom low (Event.allocate size result :: es) = storesFrom low es := by
  simp [storesFrom, List.filterMap_cons]

/-- The first loop of the aliased case stores below the parameter map. -/
theorem storesFrom_fillNonMappedEvents (c : Layout) (ht : 0 < c.kTaggedSize) (env : Env)
    (elements low : Int) :
    ∀ (n : Nat) (offset current : Int),
      elements + (offset + (n : Int) * c.kTaggedSize) ≤ low →
      storesFrom low
        (EmitFastNewSloppyArguments.fillNonMappedEvents c env elements n offset current)
        = [] := by
  intro n
  induction n with
  | zero =>
    intro offset current _
    rfl
  | succ m ih =>
    intro offset current h
    have hm : ((m + 1 : Nat) : Int) * c.kTaggedSize
        = (m : Int) * c.kTaggedSize + c.kTaggedSize := by push_cast; ring
    rw [EmitFastNewSloppyArguments.fillNonMappedEvents, storesFrom_append,
      storesFrom_cons_below _ _ _ _ (by omega), storesFrom_cons_load,
      ih offset _ (by omega)]
    rfl

/-- The second loop of the aliased case stores into the parameter map, round
`k` into the slot `n - 1 - k` counted from `offset`, the context index
`context_index + k`. -/
theorem storesFrom_fillMappedEvents (t : Int) (ht : 0 < t) (elements adjusted_map_array low : Int) :
    ∀ (n : Nat) (offset context_index : Int),
      elements + (offset + (n : Int) * t) ≤ low →
      low ≤ adjusted_map_array + offset →
      storesFrom low
        (EmitFastNewSloppyArguments.fillMappedEvents t elements adjusted_map_array n offset
          context_index)
        = (List.range n).map (fun k : Nat =>
            (adjusted_map_array + (offset + ((n : Int) - 1 - (k : Int)) * t),
              Value.Smi (context_index + (k : Int)))) := by
  intro n
  induction n with
  | zero =>
    intro offset context_index _ _
    rfl
  | succ m ih =>
    intro offset context_index h h'
    have hm : ((m + 1 : Nat) : Int) * t = (m : Int) * t + t := by push_cast; ring
    have hm' := slot_nonneg m t ht
    rw [EmitFastNewSloppyArguments.fillMappedEvents, storesFrom_append,
      storesFrom_cons_from _ _ _ _ (by omega),
      storesFrom_cons_below _ _ _ _ (by omega),
      ih offset _ (by omega) h', List.range_succ_eq_map, List.map_cons,
      List.map_map]
    simp only [storesFrom, List.filterMap_nil, List.reverse_nil, List.nil_append,
      List.singleton_append, List.cons.injEq, Prod.mk.injEq, Value.Smi.injEq]
    refine ⟨⟨by push_cast; ring, by simp⟩, ?_⟩
    apply List.map_congr_left
    intro k _
    simp only [Function.comp, Prod.mk.injEq, Value.Smi.injEq]
    refine ⟨by push_cast; ring, by push_cast; ring⟩

/-- The loop of `BuildFastLoop` does not end on fuel for fewer rounds than the
end index is increments away. -/
theorem BuildFastLoop.loop_short {σ : Type} (body : Int → σ → σ) (end_index increment : Int)
    (advance_mode : IndexAdvanceMode) (hinc : increment ≠ 0) :
    ∀ (fuel n : Nat) (var : Int) (vars : σ), fuel ≤ n →
      end_index = var + ((n : Int) + 1) * increment →
      BuildFastLoop.loop body end_index increment advance_mode fuel var vars = none := by
  intro fuel
  induction fuel with
  | zero =>
    intro n var vars _ _
    rfl
  | succ f ih =>
    intro n var vars hfuel hend
    obtain ⟨m, rfl⟩ : ∃ m, n = m + 1 := ⟨n - 1, by omega⟩
    have hv : (if advance_mode = IndexAdvanceMode.kPost then
        (if advance_mode = IndexAdvanceMode.kPre then var + increment else var) + increment
        else (if advance_mode = IndexAdvanceMode.kPre then var + increment else var))
        = var + increment := by
      cases advance_mode <;> simp
    have hne : var + increment ≠ end_index := by
      intro h
      have h1 : ((m : Int) + 1) * increment = 0 := by
        have : end_index = var + increment + ((m : Int) + 1) * increment := by
          rw [hend]; push_cast; ring
        omega
      rcases mul_eq_zero.mp h1 with h2 | h2
      · omega
      · exact hinc h2
    simp only [BuildFastLoop.loop, hv, ne_eq, hne, not_false_eq_true, if_true]
    exact ih m (var + increment) _ (by omega) (by rw [hend]; push_cast; ring)

/-- The loop `BuildFastLoop` ends exactly when the fuel is enough for the `n`
rounds that the end index is away from the start index. -/
theorem BuildFastLoop_exact {σ : Type} (body : Int → σ → σ) (start_index end_index increment : Int)
    (advance_mode : IndexAdvanceMode) (hinc : increment ≠ 0) (n fuel : Nat) (vars : σ)
    (hend : end_index = start_index + (n : Int) * increment) :
    BuildFastLoop fuel vars start_index end_index body increment advance_mode
      = if n ≤ fuel then
          some (end_index,
            BuildFastLoop.rounds body increment advance_mode n start_index vars)
        else none := by
  by_cases hfuel : n ≤ fuel
  · rw [if_pos hfuel]
    exact BuildFastLoop_rounds body start_index end_index increment advance_mode hinc n fuel
      vars hfuel hend
  · rw [if_neg hfuel]
    obtain ⟨m, rfl⟩ : ∃ m, n = m + 1 := ⟨n - 1, by omega⟩
    have hne : start_index ≠ end_index := by
      intro h
      have h1 : ((m : Int) + 1) * increment = 0 := by
        have : end_index = start_index + ((m : Int) + 1) * increment := by
          rw [hend]; push_cast; ring
        omega
      rcases mul_eq_zero.mp h1 with h2 | h2
      · omega
      · exact hinc h2
    simp only [BuildFastLoop, hne, if_false]
    exact BuildFastLoop.loop_short body end_index increment advance_mode hinc fuel m
      start_index vars (by omega) (by rw [hend]; push_cast; ring)

/-- The stores of the aliased case into the content slots of its parameter
map, in the order in which they are made: round `k` of the second loop stores
the context index `MIN_CONTEXT_SLOTS + formal_parameter_count - mapped_count + k`
into the slot `mapped_count - 1 - k`, and nothing else stores there. -/
theorem EmitFastNewSloppyArguments_alias_stores (c : Layout) (hc : c.WellFormed) (env : Env)
    (fuel : Nat) (context function : Value) (s : State)
    (frame argument_count formal_parameter_count : Int)
    (hinfo : env.GetArgumentsFrameAndCount context function
      = { frame := frame, argument_count := argument_count,
          formal_parameter_count := formal_parameter_count })
    (hcount : 1 ≤ argument_count) (hformal : 1 ≤ formal_parameter_count)
    (hfits : FixedArraySizeDoesntFitInNewSpace c
      (argument_count + (min argument_count formal_parameter_count + 2))
      (c.JSSloppyArgumentsObject_kSize + c.FixedArray_kHeaderSize * 2) = false)
    (hfuel : argument_count ≤ (fuel : Int)) :
    ∃ s' : State,
      EmitFastNewSloppyArguments c env fuel context function s
        = some (Value.HeapObject (s.heap.top + c.kHeapObjectTag), s') ∧
      storesFrom
          (s.heap.top + c.kHeapObjectTag + c.JSSloppyArgumentsObject_kSize
            + OffsetOfElementAt c argument_count + (OffsetOfElementAt c 2 - c.kHeapObjectTag))
          s'.trace
        = storesFrom
            (s.heap.top + c.kHeapObjectTag + c.JSSloppyArgumentsObject_kSize
              + OffsetOfElementAt c argument_count
              + (OffsetOfElementAt c 2 - c.kHeapObjectTag))
            s.trace
          ++ (List.range (min argument_count formal_parameter_count).toNat).map
              (fun k : Nat =>
                (s.heap.top + c.kHeapObjectTag + c.JSSloppyArgumentsObject_kSize
                    + OffsetOfElementAt c argument_count
                    + (OffsetOfElementAt c
                        (min argument_count formal_parameter_count - 1 - (k : Int) + 2)
                      - c.kHeapObjectTag),
                  Value.Smi (c.MIN_CONTEXT_SLOTS + formal_parameter_count
                    - min argument_count formal_parameter_count + (k : Int)))) := by
  have hcw := hc
  obtain ⟨ht, h0, h1, h2, h3, h4, h5, h6, h7, h8, hp, h9, h10, h11, h12⟩ := hc
  obtain ⟨n2, hk⟩ := Int.eq_ofNat_of_zero_le
    (show 0 ≤ min argument_count formal_parameter_count by omega)
  obtain ⟨n1, hn1⟩ := Int.eq_ofNat_of_zero_le
    (show 0 ≤ argument_count - min argument_count formal_parameter_count by omega)
  have hargc : argument_count = (n2 : Int) + (n1 : Int) := by omega
  have hmul : argument_count * c.kTaggedSize
      = (n2 : Int) * c.kTaggedSize + (n1 : Int) * c.kTaggedSize := by rw [hargc]; ring
  have hs1 := slot_nonneg n1 c.kTaggedSize ht
  have hs2 := slot_nonneg n2 c.kTaggedSize ht
  have heq := EmitFastNewSloppyArguments_mapped_eq c hcw env fuel context function s frame
    argument_count formal_parameter_count n1 n2 hinfo hcount hformal hfits hfuel hk hargc
  refine ⟨_, heq, ?_⟩
  have hA := storesFrom_fillMappedEvents c.kTaggedSize ht
    (s.heap.top + c.kHeapObjectTag + c.JSSloppyArgumentsObject_kSize)
    (s.heap.top + c.kHeapObjectTag + c.JSSloppyArgumentsObject_kSize
      + (c.FixedArray_kHeaderSize + argument_count * c.kTaggedSize)
      + (OffsetOfElementAt c 2 - c.FixedArray_kHeaderSize))
    (s.heap.top + c.kHeapObjectTag + c.JSSloppyArgumentsObject_kSize
      + OffsetOfElementAt c argument_count + (OffsetOfElementAt c 2 - c.kHeapObjectTag))
    n2 (c.FixedArray_kHeaderSize - c.kHeapObjectTag)
    (c.MIN_CONTEXT_SLOTS + formal_parameter_count - (n2 : Int))
    (by simp only [OffsetOfElementAt]; omega) (by simp only [OffsetOfElementAt]; omega)
  have hB := storesFrom_fillNonMappedEvents c ht env
    (s.heap.top + c.kHeapObjectTag + c.JSSloppyArgumentsObject_kSize)
    (s.heap.top + c.kHeapObjectTag + c.JSSloppyArgumentsObject_kSize
      + OffsetOfElementAt c argument_count + (OffsetOfElementAt c 2 - c.kHeapObjectTag))
    n1 (c.FixedArray_kHeaderSize - c.kHeapObjectTag + (n2 : Int) * c.kTaggedSize)
    ((CodeStubArguments.new c argument_count frame).AtIndexPtr c argument_count)
    (by simp only [OffsetOfElementAt]; omega)
  rw [aliasedState_trace, storesFrom_append, storesFrom_cons_allocate,
    EmitFastNewSloppyArguments.aliasedEvents, storesFrom_append, storesFrom_append, hA, hB]
  have hL : ∀ (low address : Int) (value : Value) (es : List Event), address < low →
      storesFrom low (Event.store address value :: es) = storesFrom low es :=
    storesFrom_cons_below
  simp only [OffsetOfElementAt] at *
  rw [hL _ _ _ _ (by omega), hL _ _ _ _ (by omega), hL _ _ _ _ (by omega),
    hL _ _ _ _ (by omega), hL _ _ _ _ (by omega), hL _ _ _ _ (by omega),
    hL _ _ _ _ (by omega), hL _ _ _ _ (by omega), hL _ _ _ _ (by omega),
    hL _ _ _ _ (by omega), hL _ _ _ _ (by omega)]
  have hnat : (min argument_count formal_parameter_count).toNat = n2 := by omega
  rw [hnat, hk]
  simp only [storesFrom, List.filterMap_nil, List.reverse_nil, List.nil_append,
    List.append_nil, List.append_cancel_left_eq]
  apply List.map_congr_left
  intro k _
  simp only [Prod.mk.injEq, and_true]
  ring

/-! ## One allocation -/

/-- Right after an allocation nothing else has happened. -/
theorem AllocatedOnce.allocate (c : Layout) (size : Int) (s : State) :
    AllocatedOnce s (Allocate c size s).2 size (s.heap.top + c.kHeapObjectTag) [] :=
  ⟨rfl, fun _ he => absurd he (List.not_mem_nil _)⟩

/-- A store after the allocation is one more event. -/
theorem AllocatedOnce.store {s s' : State} {size result : Int} {es : List Event}
    (h : AllocatedOnce s s' size result es) (address : Int) (value : Value) :
    AllocatedOnce s (Store address value s') size result (Event.store address value :: es) := by
  refine ⟨?_, ?_⟩
  · show Event.store address value :: s'.trace = _
    rw [h.1]
    rfl
  · intro e he
    rcases List.mem_cons.mp he with rfl | he
    · rfl
    · exact h.2 e he

/-- The size of the one allocation between two states is determined by them. -/
theorem AllocatedOnce.size_eq {s s' : State} {size size' result result' : Int}
    {es es' : List Event} (h : AllocatedOnce s s' size result es)
    (h' : AllocatedOnce s s' size' result' es') : size = size' := by
  have e := h.1.symm.trans h'.1
  have e' := List.append_inj_right' e rfl
  simp only [List.cons.injEq, Event.allocate.injEq, and_true] at e'
  exact e'.1

/-- One allocation followed by stores and loads is no runtime call. -/
theorem AllocatedOnce.noRuntimeCall {s s' : State} {size result : Int} {es : List Event}
    (h : AllocatedOnce s s' size result es) : NoRuntimeCall s s' := by
  refine ⟨es ++ [Event.allocate size result], ?_, ?_⟩
  · rw [h.1]
    simp
  · intro e he
    rcases List.mem_append.mp he with h1 | h1
    · have h2 := h.2 e h1
      cases e <;> simp_all [Event.isStoreOrLoad, Event.isCallRuntime]
    · simp only [List.mem_singleton] at h1
      subst h1
      rfl

/-! ## The allocation of `AllocateArgumentsObject` -/

/-- C12: every call of `AllocateArgumentsObject` whose `arguments_count` is not
the constant zero makes one allocation, of `base_size` + (the header size of a
fixed array if a parameter map is requested, else 0) + the header size of a
fixed array + (`arguments_count` + `parameter_map_count`) slots, the parameter
map count being 0 when no parameter map is requested; the call with the
constant zero and no parameter map makes one allocation of `base_size`. -/
theorem AllocateArgumentsObject_requested_size (c : Layout) (map : Value)
    (arguments_count : Node) (parameter_map_count : Option Node) (base_size : Int)
    (s : State) :
    (IsIntPtrOrSmiConstantZero arguments_count = false →
      ∃ (r : Int × Option Int × Option Int) (s' : State) (es : List Event),
        AllocateArgumentsObject c map arguments_count parameter_map_count base_size s
          = some (r, s') ∧
        r.1 = s.heap.top + c.kHeapObjectTag ∧
        AllocatedOnce s s'
          (base_size + (if parameter_map_count.isSome then c.FixedArray_kHeaderSize else 0)
            + c.FixedArray_kHeaderSize
            + (arguments_count.value
                + (match parameter_map_count with
                  | some count => count.value
                  | none => 0)) * c.kTaggedSize)
          r.1 es) ∧
    (IsIntPtrOrSmiConstantZero arguments_count = true → parameter_map_count = none →
      ∃ (r : Int × Option Int × Option Int) (s' : State) (es : List Event),
        AllocateArgumentsObject c map arguments_count parameter_map_count base_size s
          = some (r, s') ∧
        r.1 = s.heap.top + c.kHeapObjectTag ∧
        AllocatedOnce s s' base_size r.1 es) := by
  constructor
  · intro hempty
    cases parameter_map_count with
    | none =>
      have hsize : base_size + c.FixedArray_kHeaderSize + arguments_count.value * c.kTaggedSize
          = base_size + (if (none : Option Node).isSome then c.FixedArray_kHeaderSize else 0)
            + c.FixedArray_kHeaderSize
            + (arguments_count.value
                + (match (none : Option Node) with
                  | some count => count.value
                  | none => 0)) * c.kTaggedSize := by
        simp
      rw [← hsize]
      simp only [AllocateArgumentsObject, hempty, Option.isSome, Bool.false_and,
        Bool.false_eq_true, if_false]
      exact ⟨_, _, _, rfl, rfl,
        ((((((AllocatedOnce.allocate c _ s).store _ _).store _ _).store _ _).store _ _).store
          _ _).store _ _⟩
    | some count =>
      have hsize : base_size + c.FixedArray_kHeaderSize + c.FixedArray_kHeaderSize
            + (arguments_count.value + count.value) * c.kTaggedSize
          = base_size + (if (some count).isSome then c.FixedArray_kHeaderSize else 0)
            + c.FixedArray_kHeaderSize
            + (arguments_count.value
                + (match some count with
                  | some count => count.value
                  | none => 0)) * c.kTaggedSize := by
        simp
      rw [← hsize]
      simp only [AllocateArgumentsObject, hempty, Option.isSome, Bool.false_and,
        Bool.false_eq_true, if_false]
      exact ⟨_, _, _, rfl, rfl,
        ((((((((AllocatedOnce.allocate c _ s).store _ _).store _ _).store _ _).store _ _).store
          _ _).store _ _).store _ _).store _ _⟩
  · intro hempty hnone
    subst hnone
    simp only [AllocateArgumentsObject, hempty, Option.isSome, Bool.and_false,
      Bool.false_eq_true, if_false, if_true]
    exact ⟨_, _, _, rfl, rfl,
      ((((AllocatedOnce.allocate c _ s).store _ _).store _ _).store _ _).store _ _⟩

/-- C13: in `AllocateArgumentsObject` for a count that is not the constant
zero, the parts tile the one allocation.  With a parameter map: the elements
start `base_size` bytes after the object, the parameter map starts where the
elements end (their header and `arguments_count` slots after their start),
and the parameter map ends (its header and `parameter_map_count` slots after
its start) where the allocation ends.  Without a parameter map the elements
end where the allocation ends.  The object starts at the old allocation top,
which moves up by the allocated size. -/
theorem AllocateArgumentsObject_tiling (c : Layout) (map : Value)
    (arguments_count : Node) (parameter_map_count : Option Node) (base_size : Int)
    (s : State) (hempty : IsIntPtrOrSmiConstantZero arguments_count = false) :
    (∀ count : Node, parameter_map_count = some count →
      ∃ (result arguments parameter_map : Int) (s' : State) (size : Int) (es : List Event),
        AllocateArgumentsObject c map arguments_count parameter_map_count base_size s
          = some ((result, some arguments, some parameter_map), s') ∧
        AllocatedOnce s s' size result es ∧
        result - c.kHeapObjectTag = s.heap.top ∧
        s'.heap.top = s.heap.top + size ∧
        arguments = result + base_size ∧
        parameter_map
          = arguments + (c.FixedArray_kHeaderSize + arguments_count.value * c.kTaggedSize) ∧
        parameter_map + (c.FixedArray_kHeaderSize + count.value * c.kTaggedSize)
          = result + size) ∧
    (parameter_map_count = none →
      ∃ (result arguments : Int) (s' : State) (size : Int) (es : List Event),
        AllocateArgumentsObject c map arguments_count parameter_map_count base_size s
          = some ((result, some arguments, none), s') ∧
        AllocatedOnce s s' size result es ∧
        result - c.kHeapObjectTag = s.heap.top ∧
        s'.heap.top = s.heap.top + size ∧
        arguments = result + base_size ∧
        arguments + (c.FixedArray_kHeaderSize + arguments_count.value * c.kTaggedSize)
          = result + size) := by
  constructor
  · intro count hsome
    subst hsome
    simp only [AllocateArgumentsObject, hempty, Option.isSome, Bool.false_and,
      Bool.false_eq_true, if_false]
    refine ⟨_, _, _, _, _, _, rfl,
      ((((((((AllocatedOnce.allocate c _ s).store _ _).store _ _).store _ _).store _ _).store
        _ _).store _ _).store _ _).store _ _, ?_, rfl, rfl, rfl, ?_⟩
    all_goals
      simp only [Allocate, InnerAllocate, ElementOffsetFromIndex, ElementSize,
        Option.isSome_some, Option.isSome_none, if_true, if_false, Bool.false_eq_true]
      ring
  · intro hnone
    subst hnone
    simp only [AllocateArgumentsObject, hempty, Option.isSome, Bool.false_and,
      Bool.false_eq_true, if_false]
    refine ⟨_, _, _, _, _, rfl,
      ((((((AllocatedOnce.allocate c _ s).store _ _).store _ _).store _ _).store _ _).store
        _ _).store _ _, ?_, rfl, rfl, ?_⟩
    all_goals
      simp only [Allocate, InnerAllocate, ElementOffsetFromIndex, ElementSize,
        Option.isSome_some, Option.isSome_none, if_true, if_false, Bool.false_eq_true]
      ring

/-! ## Every word of the region -/

/-- A word that is written, under another name of its address. -/
theorem Written.of_eq {es : List Event} {a b : Int} (h : Written es a) (e : a = b) :
    Written es b :=
  e ▸ h

/-- One written word. -/
theorem WordsWritten.one (c : Layout) {es : List Event} {start : Int}
    (h : Written es start) : WordsWritten c es start 1 := by
  intro k hk hk'
  obtain rfl : k = 0 := by omega
  exact h.of_eq (by ring)

/-- Written words followed by written words. -/
theorem WordsWritten.append {c : Layout} {es : List Event} {start a b : Int}
    (h1 : WordsWritten c es start a) (h2 : WordsWritten c es (start + a * c.kTaggedSize) b) :
    WordsWritten c es start (a + b) := by
  intro k hk hk'
  by_cases hka : k < a
  · exact h1 k hk hka
  · exact (h2 (k - a) (by omega) (by omega)).of_eq (by ring)

/-- The written words, from another name of the start and of the count. -/
theorem WordsWritten.congr {c : Layout} {es : List Event} {start start' n n' : Int}
    (h : WordsWritten c es start n) (e : start = start') (e' : n = n') :
    WordsWritten c es start' n' := by
  subst e
  subst e'
  exact h

/-- As many written words as the region has are all its words. -/
theorem WordsWritten.every {c : Layout} (ht : 0 < c.kTaggedSize) {es : List Event}
    {result size n : Int} (h : WordsWritten c es (result - c.kHeapObjectTag) n)
    (hsize : size = n * c.kTaggedSize) : EveryWordWritten c es size result := by
  intro k hk hk'
  rw [hsize] at hk'
  exact h k hk (lt_of_mul_lt_mul_right hk' ht.le)

/-- In a layout without gaps the four header fields are the first four
words of the object. -/
theorem HeaderWritten.header_words {c : Layout} (hp : c.Packed) {es : List Event} {result : Int}
    (h : HeaderWritten c es result) : WordsWritten c es (result - c.kHeapObjectTag) 4 := by
  intro k hk hk'
  obtain rfl | rfl | rfl | rfl : k = 0 ∨ k = 1 ∨ k = 2 ∨ k = 3 := by omega
  · exact h.1.of_eq (by rw [hp.map]; ring)
  · exact h.2.1.of_eq (by rw [hp.properties]; ring)
  · exact h.2.2.1.of_eq (by rw [hp.elements]; ring)
  · exact h.2.2.2.of_eq (by rw [hp.length]; ring)

/-- In a layout without gaps the type descriptor, the length and the `n`
slots of a fixed array are its `2 + n` words. -/
theorem FixedArrayWritten.array_words {c : Layout} (hp : c.Packed) {es : List Event}
    {array n : Int} (h : FixedArrayWritten c es array n) :
    WordsWritten c es (array - c.kHeapObjectTag) (2 + n) := by
  intro k hk hk'
  by_cases h0 : k = 0
  · subst h0
    exact h.1.of_eq (by rw [hp.map]; ring)
  · by_cases h1 : k = 1
    · subst h1
      exact h.2.1.of_eq (by rw [hp.fixed_length]; ring)
    · exact (h.2.2 (k - 2) (by omega) (by omega)).of_eq
        (by simp only [OffsetOfElementAt]; rw [hp.fixed_header]; ring)

/-- In a layout without gaps, an object of four header words, with a backing
store of `n` slots when `n` is above zero, has all its words written. -/
theorem every_word_of_object {c : Layout} (ht : 0 < c.kTaggedSize) (hp : c.Packed)
    {es : List Event} {result base_size size n : Int} (hbase : base_size = 4 * c.kTaggedSize)
    (hheader : HeaderWritten c es result)
    (helements : 0 < n → FixedArrayWritten c es (result + base_size) n
      ∧ size = base_size + c.FixedArray_kHeaderSize + n * c.kTaggedSize)
    (hempty : n ≤ 0 → size = base_size) : EveryWordWritten c es size result := by
  by_cases hn : 0 < n
  · obtain ⟨h1, h2⟩ := helements hn
    refine ((hheader.header_words hp).append ((h1.array_words hp).congr ?_ rfl)).every ht ?_
    · rw [hbase]
      ring
    · rw [h2, hbase, hp.fixed_header]
      ring
  · refine (hheader.header_words hp).every ht ?_
    rw [hempty (by omega), hbase]

/-- In a layout without gaps, a sloppy arguments object of five header
words, with a backing store of `n` slots when `n` is above zero and an alias
map of `m` slots when there is one, has all its words written. -/
theorem every_word_of_sloppy {c : Layout} (ht : 0 < c.kTaggedSize) (hp : c.Packed)
    {es : List Event} {result size n m : Int} (aliased : Prop)
    (hheader : HeaderWritten c es result)
    (hcallee : Written es (result + c.JSSloppyArgumentsObject_kCalleeOffset
      - c.kHeapObjectTag))
    (helements : 0 < n → FixedArrayWritten c es (result + c.JSSloppyArgumentsObject_kSize) n)
    (hmap : 0 < n → aliased →
      FixedArrayWritten c es
        (result + c.JSSloppyArgumentsObject_kSize + OffsetOfElementAt c n) m)
    (hsize0 : n ≤ 0 → size = c.JSSloppyArgumentsObject_kSize)
    (hsize1 : 0 < n → ¬ aliased →
      size = c.JSSloppyArgumentsObject_kSize + c.FixedArray_kHeaderSize + n * c.kTaggedSize)
    (hsize2 : 0 < n → aliased →
      size = c.JSSloppyArgumentsObject_kSize + c.FixedArray_kHeaderSize * 2
        + (n + m) * c.kTaggedSize) : EveryWordWritten c es size result := by
  have hfive : WordsWritten c es (result - c.kHeapObjectTag) (4 + 1) :=
    (hheader.header_words hp).append
      (WordsWritten.one c (hcallee.of_eq (by rw [hp.callee]; ring)))
  by_cases hn : 0 < n
  · have hel : WordsWritten c es (result - c.kHeapObjectTag + (4 + 1) * c.kTaggedSize)
        (2 + n) :=
      ((helements hn).array_words hp).congr (by rw [hp.sloppy]; ring) rfl
    by_cases ha : aliased
    · have hm : WordsWritten c es
          (result - c.kHeapObjectTag + (4 + 1 + (2 + n)) * c.kTaggedSize) (2 + m) :=
        ((hmap hn ha).array_words hp).congr
          (by simp only [OffsetOfElementAt]; rw [hp.sloppy, hp.fixed_header]; ring) rfl
      refine ((hfive.append hel).append hm).every ht ?_
      rw [hsize2 hn ha, hp.sloppy, hp.fixed_header]
      ring
    · refine (hfive.append hel).every ht ?_
      rw [hsize1 hn ha, hp.sloppy, hp.fixed_header]
      ring
  · refine hfive.every ht ?_
    rw [hsize0 (by omega), hp.sloppy]
    ring

/-! ## The fast paths as a whole -/

/-- C14: on every fast path of the three builders the object is returned
after one allocation followed by stores and loads only (no other allocation,
no runtime call), and these stores write the type descriptor, properties,
elements and length fields of the header (and the callee for sloppy
arguments), the type descriptor, the length and every content slot of the
backing store (`argument_count` of them, or the rest count), and in the
aliased case the type descriptor, the length and all
`mapped_count + 2` slots of the alias map; in a layout without gaps these
are all the words of the allocated region. -/
theorem fast_paths_initialise_every_slot (c : Layout) (hc : c.WellFormed) (env : Env)
    (fuel : Nat) (context function : Value) (s : State)
    (frame argument_count formal_parameter_count : Int)
    (hinfo : env.GetArgumentsFrameAndCount context function
      = { frame := frame, argument_count := argument_count,
          formal_parameter_count := formal_parameter_count })
    (hcount : 0 ≤ argument_count) (hformal : 0 ≤ formal_parameter_count)
    (hfuel : argument_count ≤ (fuel : Int)) :
    (FixedArraySizeDoesntFitInNewSpace c argument_count
        (c.JSStrictArgumentsObject_kSize + c.FixedArray_kHeaderSize) = false →
      ∃ (s' : State) (size : Int) (es : List Event),
        EmitFastNewStrictArguments c env fuel context function s
          = some (Value.HeapObject (s.heap.top + c.kHeapObjectTag), s') ∧
        AllocatedOnce s s' size (s.heap.top + c.kHeapObjectTag) es ∧
        HeaderWritten c es (s.heap.top + c.kHeapObjectTag) ∧
        (0 < argument_count →
          FixedArrayWritten c es
            (s.heap.top + c.kHeapObjectTag + c.JSStrictArgumentsObject_kSize)
            argument_count) ∧
        (c.Packed → EveryWordWritten c es size (s.heap.top + c.kHeapObjectTag))) ∧
    ((argument_count - formal_parameter_count ≤ 0
        ∨ FixedArraySizeDoesntFitInNewSpace c (argument_count - formal_parameter_count)
            (c.JSArray_kSize + c.FixedArray_kHeaderSize) = false) →
      ∃ (s' : State) (size : Int) (es : List Event),
        EmitFastNewRestParameter c env fuel context function s
          = some (Value.HeapObject (s.heap.top + c.kHeapObjectTag), s') ∧
        AllocatedOnce s s' size (s.heap.top + c.kHeapObjectTag) es ∧
        HeaderWritten c es (s.heap.top + c.kHeapObjectTag) ∧
        (0 < argument_count - formal_parameter_count →
          FixedArrayWritten c es (s.heap.top + c.kHeapObjectTag + c.JSArray_kSize)
            (argument_count - formal_parameter_count)) ∧
        (c.Packed → EveryWordWritten c es size (s.heap.top + c.kHeapObjectTag))) ∧
    ((argument_count = 0
        ∨ (formal_parameter_count = 0 ∧ FixedArraySizeDoesntFitInNewSpace c argument_count
            (c.JSSloppyArgumentsObject_kSize + c.FixedArray_kHeaderSize) = false)
        ∨ (formal_parameter_count ≠ 0 ∧ FixedArraySizeDoesntFitInNewSpace c
            (argument_count + (min argument_count formal_parameter_count + 2))
            (c.JSSloppyArgumentsObject_kSize + c.FixedArray_kHeaderSize * 2) = false)) →
      ∃ (s' : State) (size : Int) (es : List Event),
        EmitFastNewSloppyArguments c env fuel context function s
          = some (Value.HeapObject (s.heap.top + c.kHeapObjectTag), s') ∧
        AllocatedOnce s s' size (s.heap.top + c.kHeapObjectTag) es ∧
        HeaderWritten c es (s.heap.top + c.kHeapObjectTag) ∧
        Written es (s.heap.top + c.kHeapObjectTag + c.JSSloppyArgumentsObject_kCalleeOffset
          - c.kHeapObjectTag) ∧
        (0 < argument_count →
          FixedArrayWritten c es
            (s.heap.top + c.kHeapObjectTag + c.JSSloppyArgumentsObject_kSize)
            argument_count) ∧
        (0 < argument_count → 0 < formal_parameter_count →
          FixedArrayWritten c es
            (s.heap.top + c.kHeapObjectTag + c.JSSloppyArgumentsObject_kSize
              + OffsetOfElementAt c argument_count)
            (min argument_count formal_parameter_count + 2)) ∧
        (c.Packed → EveryWordWritten c es size (s.heap.top + c.kHeapObjectTag))) := by
  have ht := hc.tagged_pos
  refine ⟨fun hfits => ?_, fun hfast => ?_, fun hfast => ?_⟩
  · obtain ⟨s', size, es, h, e1, _, _, _, e5, e6, e7⟩ :=
      EmitFastNewStrictArguments_effects c hc env fuel context function s frame
        argument_count formal_parameter_count hinfo hcount hfits hfuel
    exact ⟨s', size, es, h, e1, e5, fun hpos => (e6 hpos).1,
      fun hp => every_word_of_object ht hp hp.strict e5 e6 (fun hle => e7 (by omega))⟩
  · obtain ⟨s', size, es, h, e1, _, _, _, e5, e6, e7⟩ :=
      EmitFastNewRestParameter_effects c hc env fuel context function s frame
        argument_count formal_parameter_count hinfo hformal hfast (by omega)
    exact ⟨s', size, es, h, e1, e5, fun hpos => (e6 hpos).1,
      fun hp => every_word_of_object ht hp hp.array e5 e6 e7⟩
  · obtain ⟨s', size, es, h, e1, _, _, _, e5, e6, e7, e8, e9, e10, e11⟩ :=
      EmitFastNewSloppyArguments_effects c hc env fuel context function s frame
        argument_count formal_parameter_count hinfo hcount hformal hfast hfuel
    refine ⟨s', size, es, h, e1, e5, e6, e7, e8, fun hp => ?_⟩
    refine every_word_of_sloppy ht hp (0 < formal_parameter_count) e5 e6 e7 e8
      (fun hle => e9 (by omega)) (fun hpos hna => e10 hpos (by omega)) (fun hpos ha => ?_)
    rw [e11 hpos ha]

/-- C16: on every fast path of the three builders the object is returned
after one allocation followed by stores and loads only; every store is to a
word inside the allocated region, which starts at the old allocation top, the
heap is unchanged outside this region, and every load reads the frame at an
argument index in `[0, argument_count)`.  The frame is not part of the state
that the builders change. -/
theorem fast_paths_store_inside_allocation (c : Layout) (hc : c.WellFormed) (env : Env)
    (fuel : Nat) (context function : Value) (s : State)
    (frame argument_count formal_parameter_count : Int)
    (hinfo : env.GetArgumentsFrameAndCount context function
      = { frame := frame, argument_count := argument_count,
          formal_parameter_count := formal_parameter_count })
    (hcount : 0 ≤ argument_count) (hformal : 0 ≤ formal_parameter_count)
    (hfuel : argument_count ≤ (fuel : Int)) :
    (FixedArraySizeDoesntFitInNewSpace c argument_count
        (c.JSStrictArgumentsObject_kSize + c.FixedArray_kHeaderSize) = false →
      ∃ (s' : State) (size : Int) (es : List Event),
        EmitFastNewStrictArguments c env fuel context function s
          = some (Value.HeapObject (s.heap.top + c.kHeapObjectTag), s') ∧
        AllocatedOnce s s' size (s.heap.top + c.kHeapObjectTag) es ∧
        StoresInside c es size (s.heap.top + c.kHeapObjectTag) ∧
        LoadsArguments c es (CodeStubArguments.new c argument_count frame) ∧
        UnchangedOutside c s s' size (s.heap.top + c.kHeapObjectTag)) ∧
    ((argument_count - formal_parameter_count ≤ 0
        ∨ FixedArraySizeDoesntFitInNewSpace c (argument_count - formal_parameter_count)
            (c.JSArray_kSize + c.FixedArray_kHeaderSize) = false) →
      ∃ (s' : State) (size : Int) (es : List Event),
        EmitFastNewRestParameter c env fuel context function s
          = some (Value.HeapObject (s.heap.top + c.kHeapObjectTag), s') ∧
        AllocatedOnce s s' size (s.heap.top + c.kHeapObjectTag) es ∧
        StoresInside c es size (s.heap.top + c.kHeapObjectTag) ∧
        LoadsArguments c es (CodeStubArguments.new c argument_count frame) ∧
        UnchangedOutside c s s' size (s.heap.top + c.kHeapObjectTag)) ∧
    ((argument_count = 0
        ∨ (formal_parameter_count = 0 ∧ FixedArraySizeDoesntFitInNewSpace c argument_count
            (c.JSSloppyArgumentsObject_kSize + c.FixedArray_kHeaderSize) = false)
        ∨ (formal_parameter_count ≠ 0 ∧ FixedArraySizeDoesntFitInNewSpace c
            (argument_count + (min argument_count formal_parameter_count + 2))
            (c.JSSloppyArgumentsObject_kSize + c.FixedArray_kHeaderSize * 2) = false)) →
      ∃ (s' : State) (size : Int) (es : List Event),
        EmitFastNewSloppyArguments c env fuel context function s
          = some (Value.HeapObject (s.heap.top + c.kHeapObjectTag), s') ∧
        AllocatedOnce s s' size (s.heap.top + c.kHeapObjectTag) es ∧
        StoresInside c es size (s.heap.top + c.kHeapObjectTag) ∧
        LoadsArguments c es (CodeStubArguments.new c argument_count frame) ∧
        UnchangedOutside c s s' size (s.heap.top + c.kHeapObjectTag)) := by
  refine ⟨fun hfits => ?_, fun hfast => ?_, fun hfast => ?_⟩
  · obtain ⟨s', size, es, h, e1, e2, e3, e4, _⟩ :=
      EmitFastNewStrictArguments_effects c hc env fuel context function s frame
        argument_count formal_parameter_count hinfo hcount hfits hfuel
    exact ⟨s', size, es, h, e1, e2, e3, e4⟩
  · obtain ⟨s', size, es, h, e1, e2, e3, e4, _⟩ :=
      EmitFastNewRestParameter_effects c hc env fuel context function s frame
        argument_count formal_parameter_count hinfo hformal hfast (by omega)
    exact ⟨s', size, es, h, e1, e2, e3, e4⟩
  · obtain ⟨s', size, es, h, e1, e2, e3, e4, _⟩ :=
      EmitFastNewSloppyArguments_effects c hc env fuel context function s frame
        argument_count formal_parameter_count hinfo hcount hformal hfast hfuel
    exact ⟨s', size, es, h, e1, e2, e3, e4⟩

/-- C18: on the fast paths that allocate a backing store, the one allocation
requests the base size given to the preceding ceiling check plus the checked
count of slots: for strict arguments with at least one argument the strict
size, a header and `argument_count` slots; for a rest parameter with a rest
count above zero the array size, a header and the rest count of slots; for
sloppy arguments without formal parameters and with at least one argument the
sloppy size, a header and `argument_count` slots; in the aliased case the
sloppy size, two headers and `argument_count + mapped_count + 2` slots.  On
the fast paths without a backing store it requests the size of the object
alone: the strict size for strict arguments with no argument (after a passed
check), the array size for a rest count of zero or less, the sloppy size for
sloppy arguments with no argument.  In every one of these cases the requested
size is at most `kMaxRegularHeapObjectSize`. -/
theorem allocation_size_checked (c : Layout) (hc : c.WellFormed) (env : Env)
    (fuel : Nat) (context function : Value) (s : State)
    (frame argument_count formal_parameter_count : Int)
    (hinfo : env.GetArgumentsFrameAndCount context function
      = { frame := frame, argument_count := argument_count,
          formal_parameter_count := formal_parameter_count })
    (hcount : 0 ≤ argument_count) (hformal : 0 ≤ formal_parameter_count)
    (hfuel : argument_count ≤ (fuel : Int)) :
    (FixedArraySizeDoesntFitInNewSpace c argument_count
        (c.JSStrictArgumentsObject_kSize + c.FixedArray_kHeaderSize) = false →
      ∃ (s' : State) (size : Int) (es : List Event),
        EmitFastNewStrictArguments c env fuel context function s
          = some (Value.HeapObject (s.heap.top + c.kHeapObjectTag), s') ∧
        AllocatedOnce s s' size (s.heap.top + c.kHeapObjectTag) es ∧
        (1 ≤ argument_count →
          size = c.JSStrictArgumentsObject_kSize + c.FixedArray_kHeaderSize
            + argument_count * c.kTaggedSize) ∧
        (argument_count = 0 → size = c.JSStrictArgumentsObject_kSize) ∧
        size ≤ c.kMaxRegularHeapObjectSize) ∧
    (0 < argument_count - formal_parameter_count →
      FixedArraySizeDoesntFitInNewSpace c (argument_count - formal_parameter_count)
        (c.JSArray_kSize + c.FixedArray_kHeaderSize) = false →
      ∃ (s' : State) (size : Int) (es : List Event),
        EmitFastNewRestParameter c env fuel context function s
          = some (Value.HeapObject (s.heap.top + c.kHeapObjectTag), s') ∧
        AllocatedOnce s s' size (s.heap.top + c.kHeapObjectTag) es ∧
        size = c.JSArray_kSize + c.FixedArray_kHeaderSize
          + (argument_count - formal_parameter_count) * c.kTaggedSize ∧
        size ≤ c.kMaxRegularHeapObjectSize) ∧
    (argument_count - formal_parameter_count ≤ 0 →
      ∃ (s' : State) (size : Int) (es : List Event),
        EmitFastNewRestParameter c env fuel context function s
          = some (Value.HeapObject (s.heap.top + c.kHeapObjectTag), s') ∧
        AllocatedOnce s s' size (s.heap.top + c.kHeapObjectTag) es ∧
        size = c.JSArray_kSize ∧
        size ≤ c.kMaxRegularHeapObjectSize) ∧
    (argument_count = 0 →
      ∃ (s' : State) (size : Int) (es : List Event),
        EmitFastNewSloppyArguments c env fuel context function s
          = some (Value.HeapObject (s.heap.top + c.kHeapObjectTag), s') ∧
        AllocatedOnce s s' size (s.heap.top + c.kHeapObjectTag) es ∧
        size = c.JSSloppyArgumentsObject_kSize ∧
        size ≤ c.kMaxRegularHeapObjectSize) ∧
    (1 ≤ argument_count → formal_parameter_count = 0 →
      FixedArraySizeDoesntFitInNewSpace c argument_count
        (c.JSSloppyArgumentsObject_kSize + c.FixedArray_kHeaderSize) = false →
      ∃ (s' : State) (size : Int) (es : List Event),
        EmitFastNewSloppyArguments c env fuel context function s
          = some (Value.HeapObject (s.heap.top + c.kHeapObjectTag), s') ∧
        AllocatedOnce s s' size (s.heap.top + c.kHeapObjectTag) es ∧
        size = c.JSSloppyArgumentsObject_kSize + c.FixedArray_kHeaderSize
          + argument_count * c.kTaggedSize ∧
        size ≤ c.kMaxRegularHeapObjectSize) ∧
    (1 ≤ argument_count → 1 ≤ formal_parameter_count →
      FixedArraySizeDoesntFitInNewSpace c
        (argument_count + (min argument_count formal_parameter_count + 2))
        (c.JSSloppyArgumentsObject_kSize + c.FixedArray_kHeaderSize * 2) = false →
      ∃ (s' : State) (size : Int) (es : List Event),
        EmitFastNewSloppyArguments c env fuel context function s
          = some (Value.HeapObject (s.heap.top + c.kHeapObjectTag), s') ∧
        AllocatedOnce s s' size (s.heap.top + c.kHeapObjectTag) es ∧
        size = c.JSSloppyArgumentsObject_kSize + c.FixedArray_kHeaderSize * 2
          + (argument_count + (min argument_count formal_parameter_count + 2))
            * c.kTaggedSize ∧
        size ≤ c.kMaxRegularHeapObjectSize) := by
  have hw := hc
  obtain ⟨ht, h0, h1, h2, h3, h4, h5, h6, h7, h8, hp, h9, h10, h11, h12⟩ := hw
  refine ⟨fun hfits => ?_, fun hrest hfits => ?_, fun hrest => ?_, fun hzero => ?_,
    fun hpos hzero hfits => ?_, fun hpos hformal1 hfits => ?_⟩
  · obtain ⟨s', size, es, h, e1, _, _, _, _, e6, e7⟩ :=
      EmitFastNewStrictArguments_effects c hc env fuel context function s frame
        argument_count formal_parameter_count hinfo hcount hfits hfuel
    have hb := fits_bound c ht _ _ hfits (by omega)
    refine ⟨s', size, es, h, e1, fun hpos => (e6 (by omega)).2, e7, ?_⟩
    by_cases hz : argument_count = 0
    · rw [e7 hz]
      omega
    · rw [(e6 (by omega)).2]
      exact hb
  · obtain ⟨s', size, es, h, e1, _, _, _, _, e6, _⟩ :=
      EmitFastNewRestParameter_effects c hc env fuel context function s frame
        argument_count formal_parameter_count hinfo hformal (Or.inr hfits) (by omega)
    have hb := fits_bound c ht _ _ hfits (by omega)
    refine ⟨s', size, es, h, e1, (e6 hrest).2, ?_⟩
    rw [(e6 hrest).2]
    exact hb
  · obtain ⟨s', size, es, h, e1, _, _, _, _, _, e7⟩ :=
      EmitFastNewRestParameter_effects c hc env fuel context function s frame
        argument_count formal_parameter_count hinfo hformal (Or.inl hrest) (by omega)
    refine ⟨s', size, es, h, e1, e7 hrest, ?_⟩
    rw [e7 hrest]
    omega
  · obtain ⟨s', size, es, h, e1, _, _, _, _, _, _, _, e9, _⟩ :=
      EmitFastNewSloppyArguments_effects c hc env fuel context function s frame
        argument_count formal_parameter_count hinfo hcount hformal (Or.inl hzero) hfuel
    refine ⟨s', size, es, h, e1, e9 hzero, ?_⟩
    rw [e9 hzero]
    omega
  · obtain ⟨s', size, es, h, e1, _, _, _, _, _, _, _, _, e10, _⟩ :=
      EmitFastNewSloppyArguments_effects c hc env fuel context function s frame
        argument_count formal_parameter_count hinfo hcount hformal
        (Or.inr (Or.inl ⟨hzero, hfits⟩)) hfuel
    have hb := fits_bound c ht _ _ hfits (by omega)
    refine ⟨s', size, es, h, e1, e10 (by omega) hzero, ?_⟩
    rw [e10 (by omega) hzero]
    exact hb
  · obtain ⟨s', size, es, h, e1, _, _, _, _, _, _, _, _, _, e11⟩ :=
      EmitFastNewSloppyArguments_effects c hc env fuel context function s frame
        argument_count formal_parameter_count hinfo hcount hformal
        (Or.inr (Or.inr ⟨by omega, hfits⟩)) hfuel
    have hb := fits_bound c ht _ _ hfits (by omega)
    refine ⟨s', size, es, h, e1, e11 (by omega) (by omega), ?_⟩
    rw [e11 (by omega) (by omega)]
    exact hb

/-- C8: with the ceiling guard `count > (kMaxRegularHeapObjectSize - base) /
kTaggedSize`, each builder takes the slow path (its result is that of the
runtime call) if and only if its checked count exceeds that maximum;
otherwise whatever it returns is reached without a runtime call, and for a
well-formed layout, counts that are not negative and fuel for the arguments
it does return the new object, built inline: after one allocation at the old
allocation top, followed by stores and loads only.  The checked count and
base are: `argument_count` and `StrictSize + header` for strict;
`argument_count - formal_parameter_count`, when positive, and
`ArraySize + header` for rest; `argument_count` and `SloppySize + header` for
sloppy without formal parameters and with an argument;
`argument_count + min(argument_count, formal_parameter_count) + 2` and
`SloppySize + 2 * header` for sloppy with both counts at least 1.  So a count
equal to the maximum is built inline and the maximum plus one goes to the
slow collaborator. -/
theorem slow_path_iff_ceiling_exceeded (c : Layout) (env : Env) (fuel : Nat)
    (context function : Value) (s : State) (frame argument_count formal_parameter_count : Int)
    (hinfo : env.GetArgumentsFrameAndCount context function
      = { frame := frame, argument_count := argument_count,
          formal_parameter_count := formal_parameter_count }) :
    ((EmitFastNewStrictArguments c env fuel context function s
          = some (CallRuntime env RuntimeFunctionId.kNewStrictArguments context function s)
        ↔ argument_count > Int.tdiv (c.kMaxRegularHeapObjectSize
            - (c.JSStrictArgumentsObject_kSize + c.FixedArray_kHeaderSize)) c.kTaggedSize) ∧
      (¬ argument_count > Int.tdiv (c.kMaxRegularHeapObjectSize
            - (c.JSStrictArgumentsObject_kSize + c.FixedArray_kHeaderSize)) c.kTaggedSize →
        ∀ r : Value × State, EmitFastNewStrictArguments c env fuel context function s = some r →
          NoRuntimeCall s r.2) ∧
      (¬ argument_count > Int.tdiv (c.kMaxRegularHeapObjectSize
            - (c.JSStrictArgumentsObject_kSize + c.FixedArray_kHeaderSize)) c.kTaggedSize →
        c.WellFormed → 0 ≤ argument_count → argument_count ≤ (fuel : Int) →
        ∃ (s' : State) (size : Int) (es : List Event),
          EmitFastNewStrictArguments c env fuel context function s
            = some (Value.HeapObject (s.heap.top + c.kHeapObjectTag), s') ∧
          AllocatedOnce s s' size (s.heap.top + c.kHeapObjectTag) es ∧
          NoRuntimeCall s s')) ∧
    (0 < argument_count - formal_parameter_count →
      (EmitFastNewRestParameter c env fuel context function s
          = some (CallRuntime env RuntimeFunctionId.kNewRestParameter context function s)
        ↔ argument_count - formal_parameter_count > Int.tdiv (c.kMaxRegularHeapObjectSize
            - (c.JSArray_kSize + c.FixedArray_kHeaderSize)) c.kTaggedSize) ∧
      (¬ argument_count - formal_parameter_count > Int.tdiv (c.kMaxRegularHeapObjectSize
            - (c.JSArray_kSize + c.FixedArray_kHeaderSize)) c.kTaggedSize →
        ∀ r : Value × State, EmitFastNewRestParameter c env fuel context function s = some r →
          NoRuntimeCall s r.2) ∧
      (¬ argument_count - formal_parameter_count > Int.tdiv (c.kMaxRegularHeapObjectSize
            - (c.JSArray_kSize + c.FixedArray_kHeaderSize)) c.kTaggedSize →
        c.WellFormed → 0 ≤ formal_parameter_count →
        argument_count - formal_parameter_count ≤ (fuel : Int) →
        ∃ (s' : State) (size : Int) (es : List Event),
          EmitFastNewRestParameter c env fuel context function s
            = some (Value.HeapObject (s.heap.top + c.kHeapObjectTag), s') ∧
          AllocatedOnce s s' size (s.heap.top + c.kHeapObjectTag) es ∧
          NoRuntimeCall s s')) ∧
    (1 ≤ argument_count → formal_parameter_count = 0 →
      (EmitFastNewSloppyArguments c env fuel context function s
          = some (CallRuntime env RuntimeFunctionId.kNewSloppyArguments context function s)
        ↔ argument_count > Int.tdiv (c.kMaxRegularHeapObjectSize
            - (c.JSSloppyArgumentsObject_kSize + c.FixedArray_kHeaderSize)) c.kTaggedSize) ∧
      (¬ argument_count > Int.tdiv (c.kMaxRegularHeapObjectSize
            - (c.JSSloppyArgumentsObject_kSize + c.FixedArray_kHeaderSize)) c.kTaggedSize →
        ∀ r : Value × State, EmitFastNewSloppyArguments c env fuel context function s = some r →
          NoRuntimeCall s r.2) ∧
      (¬ argument_count > Int.tdiv (c.kMaxRegularHeapObjectSize
            - (c.JSSloppyArgumentsObject_kSize + c.FixedArray_kHeaderSize)) c.kTaggedSize →
        c.WellFormed → argument_count ≤ (fuel : Int) →
        ∃ (s' : State) (size : Int) (es : List Event),
          EmitFastNewSloppyArguments c env fuel context function s
            = some (Value.HeapObject (s.heap.top + c.kHeapObjectTag), s') ∧
          AllocatedOnce s s' size (s.heap.top + c.kHeapObjectTag) es ∧
          NoRuntimeCall s s')) ∧
    (1 ≤ argument_count → 1 ≤ formal_parameter_count →
      (EmitFastNewSloppyArguments c env fuel context function s
          = some (CallRuntime env RuntimeFunctionId.kNewSloppyArguments context function s)
        ↔ argument_count + min argument_count formal_parameter_count + 2
          > Int.tdiv (c.kMaxRegularHeapObjectSize
            - (c.JSSloppyArgumentsObject_kSize + 2 * c.FixedArray_kHeaderSize)) c.kTaggedSize) ∧
      (¬ argument_count + min argument_count formal_parameter_count + 2
          > Int.tdiv (c.kMaxRegularHeapObjectSize
            - (c.JSSloppyArgumentsObject_kSize + 2 * c.FixedArray_kHeaderSize)) c.kTaggedSize →
        ∀ r : Value × State, EmitFastNewSloppyArguments c env fuel context function s = some r →
          NoRuntimeCall s r.2) ∧
      (¬ argument_count + min argument_count formal_parameter_count + 2
          > Int.tdiv (c.kMaxRegularHeapObjectSize
            - (c.JSSloppyArgumentsObject_kSize + 2 * c.FixedArray_kHeaderSize)) c.kTaggedSize →
        c.WellFormed → argument_count ≤ (fuel : Int) →
        ∃ (s' : State) (size : Int) (es : List Event),
          EmitFastNewSloppyArguments c env fuel context function s
            = some (Value.HeapObject (s.heap.top + c.kHeapObjectTag), s') ∧
          AllocatedOnce s s' size (s.heap.top + c.kHeapObjectTag) es ∧
          NoRuntimeCall s s')) := by
  obtain ⟨a, b, d, e⟩ := runtime_call_iff_ceiling_exceeded c env fuel context function s frame
    argument_count formal_parameter_count hinfo
  refine ⟨⟨a.1, a.2, fun hp hc hcount hfuel => ?_⟩,
    fun hrest => ⟨(b hrest).1, (b hrest).2, fun hp hc hformal hfuel => ?_⟩,
    fun hcount hzero => ⟨(d hcount hzero).1, (d hcount hzero).2, fun hp hc hfuel => ?_⟩,
    fun hcount hformal => ⟨(e hcount hformal).1, (e hcount hformal).2,
      fun hp hc hfuel => ?_⟩⟩
  · have hfits : FixedArraySizeDoesntFitInNewSpace c argument_count
        (c.JSStrictArgumentsObject_kSize + c.FixedArray_kHeaderSize) = false := by
      simpa [FixedArraySizeDoesntFitInNewSpace] using hp
    obtain ⟨s', size, es, h, e1, _⟩ :=
      EmitFastNewStrictArguments_effects c hc env fuel context function s frame
        argument_count formal_parameter_count hinfo hcount hfits hfuel
    exact ⟨s', size, es, h, e1, e1.noRuntimeCall⟩
  · have hfits : FixedArraySizeDoesntFitInNewSpace c (argument_count - formal_parameter_count)
        (c.JSArray_kSize + c.FixedArray_kHeaderSize) = false := by
      simpa [FixedArraySizeDoesntFitInNewSpace] using hp
    obtain ⟨s', size, es, h, e1, _⟩ :=
      EmitFastNewRestParameter_effects c hc env fuel context function s frame
        argument_count formal_parameter_count hinfo hformal (Or.inr hfits) hfuel
    exact ⟨s', size, es, h, e1, e1.noRuntimeCall⟩
  · have hfits : FixedArraySizeDoesntFitInNewSpace c argument_count
        (c.JSSloppyArgumentsObject_kSize + c.FixedArray_kHeaderSize) = false := by
      simpa [FixedArraySizeDoesntFitInNewSpace] using hp
    obtain ⟨s', size, es, h, e1, _⟩ :=
      EmitFastNewSloppyArguments_effects c hc env fuel context function s frame
        argument_count formal_parameter_count hinfo (by omega) (by omega)
        (Or.inr (Or.inl ⟨hzero, hfits⟩)) hfuel
    exact ⟨s', size, es, h, e1, e1.noRuntimeCall⟩
  · have hfits : FixedArraySizeDoesntFitInNewSpace c
        (argument_count + (min argument_count formal_parameter_count + 2))
        (c.JSSloppyArgumentsObject_kSize + c.FixedArray_kHeaderSize * 2) = false := by
      simp only [FixedArraySizeDoesntFitInNewSpace, decide_eq_false_iff_not]
      rw [mul_comm c.FixedArray_kHeaderSize 2, ← add_assoc]
      exact hp
    obtain ⟨s', size, es, h, e1, _⟩ :=
      EmitFastNewSloppyArguments_effects c hc env fuel context function s frame
        argument_count formal_parameter_count hinfo (by omega) (by omega)
        (Or.inr (Or.inr ⟨by omega, hfits⟩)) hfuel
    exact ⟨s', size, es, h, e1, e1.noRuntimeCall⟩

/-! ## Termination -/

/-- C15: with `argument_count >= 1` and `formal_parameter_count >= 1`, the
first fill loop of the aliased case, from the offset of index `argument_count`
down to the offset of index `mapped_count`, ends after exactly
`argument_count - mapped_count` rounds (on any less fuel it has not ended),
and the second one, from the offset of index `mapped_count` down to the
offset of index 0, after exactly `mapped_count` rounds; and for all counts
that are not negative, each of the three builders returns when the fuel is
enough for `argument_count` rounds. -/
theorem fill_loops_terminate (c : Layout) (hc : c.WellFormed) (env : Env)
    (fuel : Nat) (context function : Value) (s : State)
    (frame argument_count formal_parameter_count : Int)
    (hinfo : env.GetArgumentsFrameAndCount context function
      = { frame := frame, argument_count := argument_count,
          formal_parameter_count := formal_parameter_count })
    (hcount : 0 ≤ argument_count) (hformal : 0 ≤ formal_parameter_count) :
    (1 ≤ argument_count → 1 ≤ formal_parameter_count →
      ∀ (elements adjusted_map_array : Int) (the_hole : Value) (v1 v2 : State × Int),
        BuildFastLoop fuel v1
            (ElementOffsetFromIndex c argument_count ElementsKind.PACKED_ELEMENTS
              (c.FixedArray_kHeaderSize - c.kHeapObjectTag))
            (ElementOffsetFromIndex c (min argument_count formal_parameter_count)
              ElementsKind.PACKED_ELEMENTS (c.FixedArray_kHeaderSize - c.kHeapObjectTag))
            (EmitFastNewSloppyArguments.fillNonMapped c env elements)
            (-c.kTaggedSize) IndexAdvanceMode.kPre
          = (if (argument_count - min argument_count formal_parameter_count).toNat ≤ fuel then
              some (ElementOffsetFromIndex c (min argument_count formal_parameter_count)
                  ElementsKind.PACKED_ELEMENTS (c.FixedArray_kHeaderSize - c.kHeapObjectTag),
                BuildFastLoop.rounds (EmitFastNewSloppyArguments.fillNonMapped c env elements)
                  (-c.kTaggedSize) IndexAdvanceMode.kPre
                  (argument_count - min argument_count formal_parameter_count).toNat
                  (ElementOffsetFromIndex c argument_count ElementsKind.PACKED_ELEMENTS
                    (c.FixedArray_kHeaderSize - c.kHeapObjectTag)) v1)
            else none) ∧
        BuildFastLoop fuel v2
            (ElementOffsetFromIndex c (min argument_count formal_parameter_count)
              ElementsKind.PACKED_ELEMENTS (c.FixedArray_kHeaderSize - c.kHeapObjectTag))
            (ElementOffsetFromIndex c 0 ElementsKind.PACKED_ELEMENTS
              (c.FixedArray_kHeaderSize - c.kHeapObjectTag))
            (EmitFastNewSloppyArguments.fillMapped elements adjusted_map_array the_hole)
            (-c.kTaggedSize) IndexAdvanceMode.kPre
          = (if (min argument_count formal_parameter_count).toNat ≤ fuel then
              some (ElementOffsetFromIndex c 0 ElementsKind.PACKED_ELEMENTS
                  (c.FixedArray_kHeaderSize - c.kHeapObjectTag),
                BuildFastLoop.rounds
                  (EmitFastNewSloppyArguments.fillMapped elements adjusted_map_array the_hole)
                  (-c.kTaggedSize) IndexAdvanceMode.kPre
                  (min argument_count formal_parameter_count).toNat
                  (ElementOffsetFromIndex c (min argument_count formal_parameter_count)
                    ElementsKind.PACKED_ELEMENTS
                    (c.FixedArray_kHeaderSize - c.kHeapObjectTag)) v2)
            else none)) ∧
    (argument_count ≤ (fuel : Int) →
      (EmitFastNewStrictArguments c env fuel context function s).isSome = true ∧
      (EmitFastNewRestParameter c env fuel context function s).isSome = true ∧
      (EmitFastNewSloppyArguments c env fuel context function s).isSome = true) := by
  have ht := hc.tagged_pos
  refine ⟨fun hcount1 hformal1 elements adjusted_map_array the_hole v1 v2 => ⟨?_, ?_⟩,
    fun hfuel => ⟨?_, ?_, ?_⟩⟩
  · apply BuildFastLoop_exact _ _ _ _ _ (by omega)
    have hn : (((argument_count - min argument_count formal_parameter_count).toNat : Nat) : Int)
        = argument_count - min argument_count formal_parameter_count :=
      Int.toNat_of_nonneg (by omega)
    rw [hn]
    simp only [ElementOffsetFromIndex, ElementSize]
    ring
  · apply BuildFastLoop_exact _ _ _ _ _ (by omega)
    have hn : (((min argument_count formal_parameter_count).toNat : Nat) : Int)
        = min argument_count formal_parameter_count :=
      Int.toNat_of_nonneg (by omega)
    rw [hn]
    simp only [ElementOffsetFromIndex, ElementSize]
    ring
  · by_cases hfits : FixedArraySizeDoesntFitInNewSpace c argument_count
        (c.JSStrictArgumentsObject_kSize + c.FixedArray_kHeaderSize) = true
    · simp [EmitFastNewStrictArguments, hinfo, hfits]
    · obtain ⟨s', size, es, h, _⟩ :=
        EmitFastNewStrictArguments_effects c hc env fuel context function s frame
          argument_count formal_parameter_count hinfo hcount
          (by simpa using hfits) hfuel
      rw [h]
      rfl
  · by_cases hfast : argument_count - formal_parameter_count ≤ 0
        ∨ FixedArraySizeDoesntFitInNewSpace c (argument_count - formal_parameter_count)
            (c.JSArray_kSize + c.FixedArray_kHeaderSize) = false
    · obtain ⟨s', size, es, h, _⟩ :=
        EmitFastNewRestParameter_effects c hc env fuel context function s frame
          argument_count formal_parameter_count hinfo hformal hfast (by omega)
      rw [h]
      rfl
    · have h1 : ¬ argument_count - formal_parameter_count ≤ 0 := fun h => hfast (Or.inl h)
      have h2 : FixedArraySizeDoesntFitInNewSpace c (argument_count - formal_parameter_count)
          (c.JSArray_kSize + c.FixedArray_kHeaderSize) = true := by
        cases hb : FixedArraySizeDoesntFitInNewSpace c
            (argument_count - formal_parameter_count)
            (c.JSArray_kSize + c.FixedArray_kHeaderSize)
        · exact absurd (Or.inr hb) hfast
        · rfl
      simp [EmitFastNewRestParameter, hinfo, h1, h2, Node.value]
  · by_cases hfast : argument_count = 0
        ∨ (formal_parameter_count = 0 ∧ FixedArraySizeDoesntFitInNewSpace c argument_count
            (c.JSSloppyArgumentsObject_kSize + c.FixedArray_kHeaderSize) = false)
        ∨ (formal_parameter_count ≠ 0 ∧ FixedArraySizeDoesntFitInNewSpace c
            (argument_count + (min argument_count formal_parameter_count + 2))
            (c.JSSloppyArgumentsObject_kSize + c.FixedArray_kHeaderSize * 2) = false)
    · obtain ⟨s', size, es, h, _⟩ :=
        EmitFastNewSloppyArguments_effects c hc env fuel context function s frame
          argument_count formal_parameter_count hinfo hcount hformal hfast hfuel
      rw [h]
      rfl
    · have h0 : argument_count ≠ 0 := fun h => hfast (Or.inl h)
      by_cases hf : formal_parameter_count = 0
      · have h2 : FixedArraySizeDoesntFitInNewSpace c argument_count
            (c.JSSloppyArgumentsObject_kSize + c.FixedArray_kHeaderSize) = true := by
          cases hb : FixedArraySizeDoesntFitInNewSpace c argument_count
              (c.JSSloppyArgumentsObject_kSize + c.FixedArray_kHeaderSize)
          · exact absurd (Or.inr (Or.inl ⟨hf, hb⟩)) hfast
          · rfl
        simp [EmitFastNewSloppyArguments, hinfo, h0, hf, h2, Node.value]
      · have h2 : FixedArraySizeDoesntFitInNewSpace c
            (argument_count + (min argument_count formal_parameter_count + 2))
            (c.JSSloppyArgumentsObject_kSize + c.FixedArray_kHeaderSize * 2) = true := by
          cases hb : FixedArraySizeDoesntFitInNewSpace c
              (argument_count + (min argument_count formal_parameter_count + 2))
              (c.JSSloppyArgumentsObject_kSize + c.FixedArray_kHeaderSize * 2)
          · exact absurd (Or.inr (Or.inr ⟨hf, hb⟩)) hfast
          · rfl
        simp [EmitFastNewSloppyArguments, hinfo, h0, hf, h2, Node.value]

/-! ## The context indices of the aliased case -/

/-- C11: in the second fill loop of the aliased case, which visits the mapped
slots from index `mapped_count - 1` down to index 0, the context index stored
into the alias map is `MIN_CONTEXT_SLOTS + formal_parameter_count - mapped_count`
on the first step, goes up by one on each step, and is
`MIN_CONTEXT_SLOTS + formal_parameter_count - 1` on the last step: the stores
into the content slots of the alias map are, in the order in which they are
made, step `k` into slot `mapped_count - 1 - k` (position
`mapped_count - 1 - k + 2` of the array) of the index
`MIN_CONTEXT_SLOTS + formal_parameter_count - mapped_count + k`, for
`k = 0, ..., mapped_count - 1`. -/
theorem context_index_order (c : Layout) (hc : c.WellFormed) (env : Env)
    (fuel : Nat) (context function : Value) (s : State)
    (frame argument_count formal_parameter_count : Int)
    (hinfo : env.GetArgumentsFrameAndCount context function
      = { frame := frame, argument_count := argument_count,
          formal_parameter_count := formal_parameter_count })
    (hcount : 1 ≤ argument_count) (hformal : 1 ≤ formal_parameter_count)
    (hfits : FixedArraySizeDoesntFitInNewSpace c
      (argument_count + (min argument_count formal_parameter_count + 2))
      (c.JSSloppyArgumentsObject_kSize + c.FixedArray_kHeaderSize * 2) = false)
    (hfuel : argument_count ≤ (fuel : Int)) :
    ∃ s' : State,
      EmitFastNewSloppyArguments c env fuel context function s
        = some (Value.HeapObject (s.heap.top + c.kHeapObjectTag), s') ∧
      storesFrom
          (s.heap.top + c.kHeapObjectTag + c.JSSloppyArgumentsObject_kSize
            + OffsetOfElementAt c argument_count + (OffsetOfElementAt c 2 - c.kHeapObjectTag))
          s'.trace
        = storesFrom
            (s.heap.top + c.kHeapObjectTag + c.JSSloppyArgumentsObject_kSize
              + OffsetOfElementAt c argument_count
              + (OffsetOfElementAt c 2 - c.kHeapObjectTag))
            s.trace
          ++ (List.range (min argument_count formal_parameter_count).toNat).map
              (fun k : Nat =>
                (s.heap.top + c.kHeapObjectTag + c.JSSloppyArgumentsObject_kSize
                    + OffsetOfElementAt c argument_count
                    + (OffsetOfElementAt c
                        (min argument_count formal_parameter_count - 1 - (k : Int) + 2)
                      - c.kHeapObjectTag),
                  Value.Smi (c.MIN_CONTEXT_SLOTS + formal_parameter_count
                    - min argument_count formal_parameter_count + (k : Int)))) :=
  EmitFastNewSloppyArguments_alias_stores c hc env fuel context function s frame
    argument_count formal_parameter_count hinfo hcount hformal hfits hfuel

/-- C19: in the aliased case on the fast path, the context indices in the
content slots of the alias map are each in
`[MIN_CONTEXT_SLOTS, MIN_CONTEXT_SLOTS + formal_parameter_count)`, and two
content slots that hold the same index are the same slot. -/
theorem context_indices_distinct_in_bounds (c : Layout) (hc : c.WellFormed) (env : Env)
    (fuel : Nat) (context function : Value) (s : State)
    (frame argument_count formal_parameter_count : Int)
    (hinfo : env.GetArgumentsFrameAndCount context function
      = { frame := frame, argument_count := argument_count,
          formal_parameter_count := formal_parameter_count })
    (hcount : 1 ≤ argument_count) (hformal : 1 ≤ formal_parameter_count)
    (hfits : FixedArraySizeDoesntFitInNewSpace c
      (argument_count + (min argument_count formal_parameter_count + 2))
      (c.JSSloppyArgumentsObject_kSize + c.FixedArray_kHeaderSize * 2) = false)
    (hfuel : argument_count ≤ (fuel : Int)) :
    ∃ s' : State,
      EmitFastNewSloppyArguments c env fuel context function s
        = some (Value.HeapObject (s.heap.top + c.kHeapObjectTag), s') ∧
      (∀ i : Int, 0 ≤ i → i < min argument_count formal_parameter_count →
        ∃ a : Int,
          LoadFixedArrayElement c s'.heap
              (s.heap.top + c.kHeapObjectTag + c.JSSloppyArgumentsObject_kSize
                + OffsetOfElementAt c argument_count) (i + 2) = some (Value.Smi a) ∧
          c.MIN_CONTEXT_SLOTS ≤ a ∧
          a < c.MIN_CONTEXT_SLOTS + formal_parameter_count) ∧
      (∀ i j : Int, 0 ≤ i → i < min argument_count formal_parameter_count →
        0 ≤ j → j < min argument_count formal_parameter_count →
        LoadFixedArrayElement c s'.heap
            (s.heap.top + c.kHeapObjectTag + c.JSSloppyArgumentsObject_kSize
              + OffsetOfElementAt c argument_count) (i + 2)
          = LoadFixedArrayElement c s'.heap
              (s.heap.top + c.kHeapObjectTag + c.JSSloppyArgumentsObject_kSize
                + OffsetOfElementAt c argument_count) (j + 2) →
        i = j) := by
  obtain ⟨s', h, _, _, _, _, _, _, _, _, _, _, _, _, _, idx, _⟩ :=
    EmitFastNewSloppyArguments_mapped_spec c hc env fuel context function s frame
      argument_count formal_parameter_count hinfo hcount hformal hfits hfuel
  refine ⟨s', h, ?_, ?_⟩
  · intro i hi hi'
    exact ⟨_, idx i hi hi', by omega, by omega⟩
  · intro i j hi hi' hj hj' heq
    rw [idx i hi hi', idx j hj hj'] at heq
    simp only [Option.some.injEq, Value.Smi.injEq] at heq
    omega

/-! ## Instances -/

/-- The example layout is well formed. -/
theorem Layout.x64_wellFormed : Layout.x64.WellFormed := by
  constructor <;> decide

/-- The strict arguments object of a call with the arguments 10, 20, 30. -/
theorem EmitFastNewStrictArguments_fast_path_witness :
    Layout.x64.WellFormed ∧
    (Env.sample 3 2).GetArgumentsFrameAndCount (Value.HeapObject 101) (Value.HeapObject 201)
      = { frame := 1000, argument_count := 3, formal_parameter_count := 2 } ∧
    (0 : Int) ≤ 3 ∧
    FixedArraySizeDoesntFitInNewSpace Layout.x64 3
      (Layout.x64.JSStrictArgumentsObject_kSize + Layout.x64.FixedArray_kHeaderSize) = false ∧
    (3 : Int) ≤ ((3 : Nat) : Int) ∧
    ∃ s' : State,
      EmitFastNewStrictArguments Layout.x64 (Env.sample 3 2) 3 (Value.HeapObject 101)
          (Value.HeapObject 201) State.sample = some (Value.HeapObject 5001, s') ∧
      LoadObjectField Layout.x64 s'.heap 5001 Layout.x64.JSArray_kLengthOffset
        = some (Value.Smi 3) ∧
      LoadFixedArrayElement Layout.x64 s'.heap 5033 0 = some (Value.Smi 10) ∧
      LoadFixedArrayElement Layout.x64 s'.heap 5033 1 = some (Value.Smi 20) ∧
      LoadFixedArrayElement Layout.x64 s'.heap 5033 2 = some (Value.Smi 30) := by
  obtain ⟨s', h1, h2, h3, _, _⟩ := EmitFastNewStrictArguments_fast_path Layout.x64
    Layout.x64_wellFormed (Env.sample 3 2) 3 (Value.HeapObject 101) (Value.HeapObject 201)
    State.sample 1000 3 2 rfl (by decide) (by decide) (by decide)
  obtain ⟨_, _, _, h4, _⟩ := h3 (by decide)
  exact ⟨Layout.x64_wellFormed, rfl, by decide, by decide, by decide, s', h1, h2,
    h4 0 (by decide) (by decide), h4 1 (by decide) (by decide), h4 2 (by decide) (by decide)⟩

/-- The rest parameter of a call with two formal parameters and the arguments
10, 20, 30. -/
theorem EmitFastNewRestParameter_fast_path_witness :
    Layout.x64.WellFormed ∧
    (Env.sample 3 2).GetArgumentsFrameAndCount (Value.HeapObject 101) (Value.HeapObject 201)
      = { frame := 1000, argument_count := 3, formal_parameter_count := 2 } ∧
    (2 : Int) < 3 ∧
    FixedArraySizeDoesntFitInNewSpace Layout.x64 (3 - 2)
      (Layout.x64.JSArray_kSize + Layout.x64.FixedArray_kHeaderSize) = false ∧
    (3 - 2 : Int) ≤ ((1 : Nat) : Int) ∧
    ∃ s' : State,
      EmitFastNewRestParameter Layout.x64 (Env.sample 3 2) 1 (Value.HeapObject 101)
          (Value.HeapObject 201) State.sample = some (Value.HeapObject 5001, s') ∧
      LoadObjectField Layout.x64 s'.heap 5001 Layout.x64.JSArray_kLengthOffset
        = some (Value.Smi 1) ∧
      LoadObjectField Layout.x64 s'.heap 5033 Layout.x64.FixedArray_kLengthOffset
        = some (Value.Smi 1) ∧
      LoadFixedArrayElement Layout.x64 s'.heap 5033 0 = some (Value.Smi 30) := by
  obtain ⟨s', h1, h2, _, _, h3, h4, _⟩ := EmitFastNewRestParameter_fast_path Layout.x64
    Layout.x64_wellFormed (Env.sample 3 2) 1 (Value.HeapObject 101) (Value.HeapObject 201)
    State.sample 1000 3 2 rfl (by decide) (by decide) (by decide)
  exact ⟨Layout.x64_wellFormed, rfl, by decide, by decide, by decide, s', h1, h2, h3,
    h4 0 (by decide) (by decide)⟩

/-- The rest parameter of a call with three formal parameters and two
arguments. -/
theorem EmitFastNewRestParameter_no_rest_parameters_witness :
    Layout.x64.WellFormed ∧
    (Env.sample 2 3).GetArgumentsFrameAndCount (Value.HeapObject 101) (Value.HeapObject 201)
      = { frame := 1000, argument_count := 2, formal_parameter_count := 3 } ∧
    (2 : Int) ≤ 3 ∧
    ∃ s' : State,
      EmitFastNewRestParameter Layout.x64 (Env.sample 2 3) 0 (Value.HeapObject 101)
          (Value.HeapObject 201) State.sample = some (Value.HeapObject 5001, s') ∧
      LoadObjectField Layout.x64 s'.heap 5001 Layout.x64.JSArray_kLengthOffset
        = some (Value.Smi 0) ∧
      LoadObjectField Layout.x64 s'.heap 5001 Layout.x64.JSArray_kElementsOffset
        = some Value.EmptyFixedArray ∧
      s'.heap.top = 5032 := by
  obtain ⟨s', h1, h2, h3, h4, _⟩ := EmitFastNewRestParameter_no_rest_parameters Layout.x64
    Layout.x64_wellFormed (Env.sample 2 3) 0 (Value.HeapObject 101) (Value.HeapObject 201)
    State.sample 1000 2 3 rfl (by decide)
  exact ⟨Layout.x64_wellFormed, rfl, by decide, s', h1, h2, h3, h4⟩

/-- The backing store of the sloppy arguments object of a call with two formal
parameters and the arguments 10, 20, 30. -/
theorem EmitFastNewSloppyArguments_backing_store_witness :
    Layout.x64.WellFormed ∧
    (Env.sample 3 2).GetArgumentsFrameAndCount (Value.HeapObject 101) (Value.HeapObject 201)
      = { frame := 1000, argument_count := 3, formal_parameter_count := 2 } ∧
    (1 : Int) ≤ 3 ∧ (1 : Int) ≤ 2 ∧
    FixedArraySizeDoesntFitInNewSpace Layout.x64 (3 + (min 3 2 + 2))
      (Layout.x64.JSSloppyArgumentsObject_kSize + Layout.x64.FixedArray_kHeaderSize * 2)
      = false ∧
    (3 : Int) ≤ ((3 : Nat) : Int) ∧
    ∃ s' : State,
      EmitFastNewSloppyArguments Layout.x64 (Env.sample 3 2) 3 (Value.HeapObject 101)
          (Value.HeapObject 201) State.sample = some (Value.HeapObject 5001, s') ∧
      LoadFixedArrayElement Layout.x64 s'.heap 5041 0 = some Value.TheHole ∧
      LoadFixedArrayElement Layout.x64 s'.heap 5041 1 = some Value.TheHole ∧
      LoadFixedArrayElement Layout.x64 s'.heap 5041 2 = some (Value.Smi 30) := by
  obtain ⟨s', h1, h2, h3⟩ := EmitFastNewSloppyArguments_backing_store Layout.x64
    Layout.x64_wellFormed (Env.sample 3 2) 3 (Value.HeapObject 101) (Value.HeapObject 201)
    State.sample 1000 3 2 rfl (by decide) (by decide) (by decide) (by decide)
  exact ⟨Layout.x64_wellFormed, rfl, by decide, by decide, by decide, by decide, s', h1,
    h2 0 (by decide) (by decide), h2 1 (by decide) (by decide),
    h3 2 (by decide) (by decide)⟩

/-- The alias map of the sloppy arguments object of a call with two formal
parameters and the arguments 10, 20, 30: slot 1 holds the first context
index and slot 0 the second. -/
theorem EmitFastNewSloppyArguments_context_indices_witness :
    Layout.x64.WellFormed ∧
    (Env.sample 3 2).GetArgumentsFrameAndCount (Value.HeapObject 101) (Value.HeapObject 201)
      = { frame := 1000, argument_count := 3, formal_parameter_count := 2 } ∧
    (1 : Int) ≤ 3 ∧ (1 : Int) ≤ 2 ∧
    FixedArraySizeDoesntFitInNewSpace Layout.x64 (3 + (min 3 2 + 2))
      (Layout.x64.JSSloppyArgumentsObject_kSize + Layout.x64.FixedArray_kHeaderSize * 2)
      = false ∧
    (3 : Int) ≤ ((3 : Nat) : Int) ∧
    ∃ s' : State,
      EmitFastNewSloppyArguments Layout.x64 (Env.sample 3 2) 3 (Value.HeapObject 101)
          (Value.HeapObject 201) State.sample = some (Value.HeapObject 5001, s') ∧
      LoadObjectField Layout.x64 s'.heap 5001 Layout.x64.JSArray_kElementsOffset
        = some (Value.HeapObject 5081) ∧
      LoadFixedArrayElement Layout.x64 s'.heap 5081 (1 + 2)
        = some (Value.Smi Layout.x64.MIN_CONTEXT_SLOTS) ∧
      LoadFixedArrayElement Layout.x64 s'.heap 5081 (0 + 2)
        = some (Value.Smi (Layout.x64.MIN_CONTEXT_SLOTS + 1)) := by
  obtain ⟨s', h1, h2, h3, _⟩ := EmitFastNewSloppyArguments_context_indices Layout.x64
    Layout.x64_wellFormed (Env.sample 3 2) 3 (Value.HeapObject 101) (Value.HeapObject 201)
    State.sample 1000 3 2 rfl (by decide) (by decide) (by decide) (by decide)
  exact ⟨Layout.x64_wellFormed, rfl, by decide, by decide, by decide, by decide, s', h1, h2,
    h3 1 (by decide) (by decide), h3 0 (by decide) (by decide)⟩

/-- The sloppy and the strict arguments object of a call without formal
parameters and with the arguments 10, 20, 30. -/
theorem EmitFastNewSloppyArguments_like_strict_witness :
    Layout.x64.WellFormed ∧
    (Env.sample 3 0).GetArgumentsFrameAndCount (Value.HeapObject 101) (Value.HeapObject 201)
      = { frame := 1000, argument_count := 3, formal_parameter_count := 0 } ∧
    (1 : Int) ≤ 3 ∧
    FixedArraySizeDoesntFitInNewSpace Layout.x64 3
      (Layout.x64.JSSloppyArgumentsObject_kSize + Layout.x64.FixedArray_kHeaderSize) = false ∧
    (3 : Int) ≤ ((3 : Nat) : Int) ∧
    ∃ sloppy strict : State,
      EmitFastNewSloppyArguments Layout.x64 (Env.sample 3 0) 3 (Value.HeapObject 101)
          (Value.HeapObject 201) State.sample = some (Value.HeapObject 5001, sloppy) ∧
      EmitFastNewStrictArguments Layout.x64 (Env.sample 3 0) 3 (Value.HeapObject 101)
          (Value.HeapObject 201) State.sample = some (Value.HeapObject 5001, strict) ∧
      LoadObjectField Layout.x64 sloppy.heap 5001 Layout.x64.JSArray_kLengthOffset
        = some (Value.Smi 3) ∧
      LoadObjectField Layout.x64 strict.heap 5001 Layout.x64.JSArray_kLengthOffset
        = some (Value.Smi 3) ∧
      LoadFixedArrayElement Layout.x64 sloppy.heap 5041 2 = some (Value.Smi 30) ∧
      LoadFixedArrayElement Layout.x64 strict.heap 5033 2
        = LoadFixedArrayElement Layout.x64 sloppy.heap 5041 2 ∧
      LoadObjectField Layout.x64 sloppy.heap 5001
        Layout.x64.JSSloppyArgumentsObject_kCalleeOffset = some (Value.HeapObject 201) := by
  obtain ⟨sloppy, strict, h1, h2, h3, h4, _, _, _, _, _, _, h5, _, _, h6⟩ :=
    EmitFastNewSloppyArguments_like_strict Layout.x64
      Layout.x64_wellFormed (Env.sample 3 0) 3 (Value.HeapObject 101) (Value.HeapObject 201)
      State.sample 1000 3 rfl (by decide) (by decide) (by decide)
  exact ⟨Layout.x64_wellFormed, rfl, by decide, by decide, by decide, sloppy, strict, h1, h2,
    h3, h4, (h5 2 (by decide) (by decide)).1, (h5 2 (by decide) (by decide)).2, h6⟩

/-- The three objects of a call with two formal parameters and no argument. -/
theorem zero_arguments_witness :
    Layout.x64.WellFormed ∧
    (Env.sample 0 2).GetArgumentsFrameAndCount (Value.HeapObject 101) (Value.HeapObject 201)
      = { frame := 1000, argument_count := 0, formal_parameter_count := 2 } ∧
    (0 : Int) ≤ 2 ∧
    (∃ s' : State,
      EmitFastNewStrictArguments Layout.x64 (Env.sample 0 2) 0 (Value.HeapObject 101)
          (Value.HeapObject 201) State.sample = some (Value.HeapObject 5001, s') ∧
      LoadObjectField Layout.x64 s'.heap 5001 Layout.x64.JSArray_kElementsOffset
        = some Value.EmptyFixedArray ∧
      s'.heap.top = 5032) ∧
    (∃ s' : State,
      EmitFastNewSloppyArguments Layout.x64 (Env.sample 0 2) 0 (Value.HeapObject 101)
          (Value.HeapObject 201) State.sample = some (Value.HeapObject 5001, s') ∧
      LoadObjectField Layout.x64 s'.heap 5001 Layout.x64.JSArray_kElementsOffset
        = some Value.EmptyFixedArray ∧
      s'.heap.top = 5040) ∧
    (∃ s' : State,
      EmitFastNewRestParameter Layout.x64 (Env.sample 0 2) 0 (Value.HeapObject 101)
          (Value.HeapObject 201) State.sample = some (Value.HeapObject 5001, s') ∧
      LoadObjectField Layout.x64 s'.heap 5001 Layout.x64.JSArray_kElementsOffset
        = some Value.EmptyFixedArray ∧
      s'.heap.top = 5032) := by
  obtain ⟨⟨s1, a1, _, a2, a3, _⟩, ⟨s2, b1, _, b2, _, b3, _⟩, ⟨s3, c1, _, c2, c3, _⟩⟩ :=
    zero_arguments Layout.x64 Layout.x64_wellFormed (Env.sample 0 2) 0 (Value.HeapObject 101)
      (Value.HeapObject 201) State.sample 1000 2 rfl (by decide)
  exact ⟨Layout.x64_wellFormed, rfl, by decide, ⟨s1, a1, a2, a3⟩, ⟨s2, b1, b2, b3⟩,
    ⟨s3, c1, c2, c3⟩⟩

/-- The strict builder one argument above its ceiling: the result is that of
the runtime call, made on the heap at entry. -/
theorem ceiling_failure_delegates_witness :
    (Env.sample 16379 0).GetArgumentsFrameAndCount (Value.HeapObject 101) (Value.HeapObject 201)
      = { frame := 1000, argument_count := 16379, formal_parameter_count := 0 } ∧
    FixedArraySizeDoesntFitInNewSpace Layout.x64 16379
      (Layout.x64.JSStrictArgumentsObject_kSize + Layout.x64.FixedArray_kHeaderSize) = true ∧
    EmitFastNewStrictArguments Layout.x64 (Env.sample 16379 0) 0 (Value.HeapObject 101)
        (Value.HeapObject 201) State.sample
      = some (Value.Smi 0,
          { heap := State.sample.heap,
            trace := [Event.callRuntime RuntimeFunctionId.kNewStrictArguments
              (Value.HeapObject 101) (Value.HeapObject 201)] }) :=
  ⟨rfl, by decide,
    (ceiling_failure_delegates Layout.x64 (Env.sample 16379 0) 0 (Value.HeapObject 101)
      (Value.HeapObject 201) State.sample 1000 16379 0 rfl).1 (by decide)⟩

/-- The sloppy arguments object of a call with two formal parameters and the
arguments 10, 20, 30. -/
theorem EmitFastNewSloppyArguments_alias_map_witness :
    Layout.x64.WellFormed ∧
    (Env.sample 3 2).GetArgumentsFrameAndCount (Value.HeapObject 101) (Value.HeapObject 201)
      = { frame := 1000, argument_count := 3, formal_parameter_count := 2 } ∧
    (3 : Int) ≤ ((3 : Nat) : Int) ∧
    (1 : Int) ≤ 3 ∧ (1 : Int) ≤ 2 ∧
    FixedArraySizeDoesntFitInNewSpace Layout.x64 (3 + (min 3 2 + 2))
      (Layout.x64.JSSloppyArgumentsObject_kSize + Layout.x64.FixedArray_kHeaderSize * 2)
      = false ∧
    ∃ s' : State,
      EmitFastNewSloppyArguments Layout.x64 (Env.sample 3 2) 3 (Value.HeapObject 101)
          (Value.HeapObject 201) State.sample = some (Value.HeapObject 5001, s') ∧
      LoadObjectField Layout.x64 s'.heap 5001 Layout.x64.JSArray_kLengthOffset
        = some (Value.Smi 3) ∧
      LoadObjectField Layout.x64 s'.heap 5001 Layout.x64.JSSloppyArgumentsObject_kCalleeOffset
        = some (Value.HeapObject 201) ∧
      LoadObjectField Layout.x64 s'.heap 5001 Layout.x64.JSArray_kElementsOffset
        = some (Value.HeapObject 5081) ∧
      LoadObjectField Layout.x64 s'.heap 5081 Layout.x64.FixedArray_kLengthOffset
        = some (Value.Smi 4) ∧
      LoadFixedArrayElement Layout.x64 s'.heap 5081 0 = some (Value.HeapObject 101) ∧
      LoadFixedArrayElement Layout.x64 s'.heap 5081 1 = some (Value.HeapObject 5041) ∧
      LoadObjectField Layout.x64 s'.heap 5041 Layout.x64.FixedArray_kLengthOffset
        = some (Value.Smi 3) := by
  obtain ⟨s', h1, h2, h3, h4, _, _, h5, h6, h7, _, h8⟩ :=
    (EmitFastNewSloppyArguments_alias_map Layout.x64 Layout.x64_wellFormed (Env.sample 3 2) 3
      (Value.HeapObject 101) (Value.HeapObject 201) State.sample 1000 3 2 rfl (by decide)).1
      (by decide) (by decide) (by decide)
  exact ⟨Layout.x64_wellFormed, rfl, by decide, by decide, by decide, by decide, s', h1, h2,
    h3, h4, h5, h6, h7, h8⟩

/-- The example layout has no gaps. -/
theorem Layout.x64_packed : Layout.x64.Packed := by
  constructor <;> decide

/-- The sizes that `AllocateArgumentsObject` requests for 3 elements and a
parameter map of 4 slots after a header of 40 bytes, and for the constant
zero after a header of 32 bytes. -/
theorem AllocateArgumentsObject_requested_size_witness :
    IsIntPtrOrSmiConstantZero (Node.dynamic 3) = false ∧
    (∃ (r : Int × Option Int × Option Int) (s' : State) (es : List Event),
      AllocateArgumentsObject Layout.x64 (Value.HeapObject 17) (Node.dynamic 3)
          (some (Node.dynamic 4)) 40 State.sample = some (r, s') ∧
      r.1 = 5001 ∧ AllocatedOnce State.sample s' 128 r.1 es) ∧
    IsIntPtrOrSmiConstantZero (Node.constant 0) = true ∧
    (∃ (r : Int × Option Int × Option Int) (s' : State) (es : List Event),
      AllocateArgumentsObject Layout.x64 (Value.HeapObject 17) (Node.constant 0)
          none 32 State.sample = some (r, s') ∧
      r.1 = 5001 ∧ AllocatedOnce State.sample s' 32 r.1 es) :=
  ⟨rfl,
    (AllocateArgumentsObject_requested_size Layout.x64 (Value.HeapObject 17) (Node.dynamic 3)
      (some (Node.dynamic 4)) 40 State.sample).1 rfl,
    rfl,
    (AllocateArgumentsObject_requested_size Layout.x64 (Value.HeapObject 17) (Node.constant 0)
      none 32 State.sample).2 rfl rfl⟩

/-- The parts of the allocation for 3 elements and a parameter map of 4 slots
after a header of 40 bytes: the object at 5001, the elements at 5041, the
parameter map at 5081, the end at 5129. -/
theorem AllocateArgumentsObject_tiling_witness :
    IsIntPtrOrSmiConstantZero (Node.dynamic 3) = false ∧
    ∃ (result arguments parameter_map : Int) (s' : State) (size : Int) (es : List Event),
      AllocateArgumentsObject Layout.x64 (Value.HeapObject 17) (Node.dynamic 3)
          (some (Node.dynamic 4)) 40 State.sample
        = some ((result, some arguments, some parameter_map), s') ∧
      AllocatedOnce State.sample s' size result es ∧
      result - 1 = 5000 ∧
      s'.heap.top = 5000 + size ∧
      arguments = result + 40 ∧
      parameter_map = arguments + (16 + 3 * 8) ∧
      parameter_map + (16 + 4 * 8) = result + size :=
  ⟨rfl,
    (AllocateArgumentsObject_tiling Layout.x64 (Value.HeapObject 17) (Node.dynamic 3)
      (some (Node.dynamic 4)) 40 State.sample rfl).1 (Node.dynamic 4) rfl⟩

/-- The sloppy arguments object of a call with two formal parameters and the
arguments 10, 20, 30: every slot of the object, of its backing store and of
its alias map is written after the one allocation. -/
theorem fast_paths_initialise_every_slot_witness :
    Layout.x64.WellFormed ∧ Layout.x64.Packed ∧
    (Env.sample 3 2).GetArgumentsFrameAndCount (Value.HeapObject 101) (Value.HeapObject 201)
      = { frame := 1000, argument_count := 3, formal_parameter_count := 2 } ∧
    (0 : Int) ≤ 3 ∧ (0 : Int) ≤ 2 ∧ (3 : Int) ≤ ((3 : Nat) : Int) ∧
    FixedArraySizeDoesntFitInNewSpace Layout.x64 (3 + (min 3 2 + 2))
      (Layout.x64.JSSloppyArgumentsObject_kSize + Layout.x64.FixedArray_kHeaderSize * 2)
      = false ∧
    ∃ (s' : State) (size : Int) (es : List Event),
      EmitFastNewSloppyArguments Layout.x64 (Env.sample 3 2) 3 (Value.HeapObject 101)
          (Value.HeapObject 201) State.sample = some (Value.HeapObject 5001, s') ∧
      AllocatedOnce State.sample s' size 5001 es ∧
      HeaderWritten Layout.x64 es 5001 ∧
      Written es 5032 ∧
      FixedArrayWritten Layout.x64 es 5041 3 ∧
      FixedArrayWritten Layout.x64 es 5081 4 ∧
      EveryWordWritten Layout.x64 es size 5001 := by
  obtain ⟨s', size, es, h1, h2, h3, h4, h5, h6, h7⟩ :=
    (fast_paths_initialise_every_slot Layout.x64 Layout.x64_wellFormed (Env.sample 3 2) 3
      (Value.HeapObject 101) (Value.HeapObject 201) State.sample 1000 3 2 rfl (by decide)
      (by decide) (by decide)).2.2 (Or.inr (Or.inr ⟨by decide, by decide⟩))
  exact ⟨Layout.x64_wellFormed, Layout.x64_packed, rfl, by decide, by decide, by decide,
    by decide, s', size, es, h1, h2, h3, h4, h5 (by decide), h6 (by decide) (by decide),
    h7 Layout.x64_packed⟩

/-- The two fill loops for three arguments and two formal parameters take one
round and two rounds, and the three builders return on fuel for three
rounds. -/
theorem fill_loops_terminate_witness :
    Layout.x64.WellFormed ∧
    (Env.sample 3 2).GetArgumentsFrameAndCount (Value.HeapObject 101) (Value.HeapObject 201)
      = { frame := 1000, argument_count := 3, formal_parameter_count := 2 } ∧
    (0 : Int) ≤ 3 ∧ (0 : Int) ≤ 2 ∧ (1 : Int) ≤ 3 ∧ (1 : Int) ≤ 2 ∧
    (3 : Int) ≤ ((3 : Nat) : Int) ∧
    (BuildFastLoop 3 (State.sample, (1024 : Int)) 39 31
        (EmitFastNewSloppyArguments.fillNonMapped Layout.x64 (Env.sample 3 2) 5041)
        (-8) IndexAdvanceMode.kPre
      = some (31,
          BuildFastLoop.rounds
            (EmitFastNewSloppyArguments.fillNonMapped Layout.x64 (Env.sample 3 2) 5041)
            (-8) IndexAdvanceMode.kPre 1 39 (State.sample, (1024 : Int)))) ∧
    (BuildFastLoop 3 (State.sample, (4 : Int)) 31 15
        (EmitFastNewSloppyArguments.fillMapped 5041 5097 Value.TheHole)
        (-8) IndexAdvanceMode.kPre
      = some (15,
          BuildFastLoop.rounds
            (EmitFastNewSloppyArguments.fillMapped 5041 5097 Value.TheHole)
            (-8) IndexAdvanceMode.kPre 2 31 (State.sample, (4 : Int)))) ∧
    (EmitFastNewStrictArguments Layout.x64 (Env.sample 3 2) 3 (Value.HeapObject 101)
      (Value.HeapObject 201) State.sample).isSome = true ∧
    (EmitFastNewRestParameter Layout.x64 (Env.sample 3 2) 3 (Value.HeapObject 101)
      (Value.HeapObject 201) State.sample).isSome = true ∧
    (EmitFastNewSloppyArguments Layout.x64 (Env.sample 3 2) 3 (Value.HeapObject 101)
      (Value.HeapObject 201) State.sample).isSome = true := by
  have h := fill_loops_terminate Layout.x64 Layout.x64_wellFormed (Env.sample 3 2) 3
    (Value.HeapObject 101) (Value.HeapObject 201) State.sample 1000 3 2 rfl (by decide)
    (by decide)
  have hloops := h.1 (by decide) (by decide) 5041 5097 Value.TheHole
    (State.sample, (1024 : Int)) (State.sample, (4 : Int))
  have hbuild := h.2 (by decide)
  exact ⟨Layout.x64_wellFormed, rfl, by decide, by decide, by decide, by decide, by decide,
    hloops.1, hloops.2, hbuild.1, hbuild.2.1, hbuild.2.2⟩

/-- The sloppy arguments object of a call with two formal parameters and the
arguments 10, 20, 30: all stores go into the region of the one allocation,
all loads read arguments 0 to 2, and the heap is unchanged elsewhere. -/
theorem fast_paths_store_inside_allocation_witness :
    Layout.x64.WellFormed ∧
    (Env.sample 3 2).GetArgumentsFrameAndCount (Value.HeapObject 101) (Value.HeapObject 201)
      = { frame := 1000, argument_count := 3, formal_parameter_count := 2 } ∧
    (0 : Int) ≤ 3 ∧ (0 : Int) ≤ 2 ∧ (3 : Int) ≤ ((3 : Nat) : Int) ∧
    FixedArraySizeDoesntFitInNewSpace Layout.x64 (3 + (min 3 2 + 2))
      (Layout.x64.JSSloppyArgumentsObject_kSize + Layout.x64.FixedArray_kHeaderSize * 2)
      = false ∧
    ∃ (s' : State) (size : Int) (es : List Event),
      EmitFastNewSloppyArguments Layout.x64 (Env.sample 3 2) 3 (Value.HeapObject 101)
          (Value.HeapObject 201) State.sample = some (Value.HeapObject 5001, s') ∧
      AllocatedOnce State.sample s' size 5001 es ∧
      StoresInside Layout.x64 es size 5001 ∧
      LoadsArguments Layout.x64 es (CodeStubArguments.new Layout.x64 3 1000) ∧
      UnchangedOutside Layout.x64 State.sample s' size 5001 :=
  ⟨Layout.x64_wellFormed, rfl, by decide, by decide, by decide, by decide,
    (fast_paths_store_inside_allocation Layout.x64 Layout.x64_wellFormed (Env.sample 3 2) 3
      (Value.HeapObject 101) (Value.HeapObject 201) State.sample 1000 3 2 rfl (by decide)
      (by decide) (by decide)).2.2 (Or.inr (Or.inr ⟨by decide, by decide⟩))⟩

/-- The strict arguments object of a call with the arguments 10, 20, 30 takes
32 + 16 + 3 * 8 = 72 bytes. -/
theorem allocation_size_checked_witness :
    Layout.x64.WellFormed ∧
    (Env.sample 3 2).GetArgumentsFrameAndCount (Value.HeapObject 101) (Value.HeapObject 201)
      = { frame := 1000, argument_count := 3, formal_parameter_count := 2 } ∧
    (0 : Int) ≤ 3 ∧ (0 : Int) ≤ 2 ∧ (3 : Int) ≤ ((3 : Nat) : Int) ∧
    FixedArraySizeDoesntFitInNewSpace Layout.x64 3
      (Layout.x64.JSStrictArgumentsObject_kSize + Layout.x64.FixedArray_kHeaderSize) = false ∧
    ∃ (s' : State) (es : List Event),
      EmitFastNewStrictArguments Layout.x64 (Env.sample 3 2) 3 (Value.HeapObject 101)
          (Value.HeapObject 201) State.sample = some (Value.HeapObject 5001, s') ∧
      AllocatedOnce State.sample s' 72 5001 es := by
  obtain ⟨s', size, es, h1, h2, h3, _, _⟩ :=
    (allocation_size_checked Layout.x64 Layout.x64_wellFormed (Env.sample 3 2) 3
      (Value.HeapObject 101) (Value.HeapObject 201) State.sample 1000 3 2 rfl (by decide)
      (by decide) (by decide)).1 (by decide)
  have hsize : size = 72 := h3 (by decide)
  subst hsize
  exact ⟨Layout.x64_wellFormed, rfl, by decide, by decide, by decide, by decide, s', es,
    h1, h2⟩

/-- The strict arguments object of a call without arguments passes the
ceiling check on the base size 32 + 16 = 48 with the count 0, and allocates
32 bytes: not 48 + 0 * 8. -/
theorem strict_empty_allocation_counterexample :
    FixedArraySizeDoesntFitInNewSpace Layout.x64 0
      (Layout.x64.JSStrictArgumentsObject_kSize + Layout.x64.FixedArray_kHeaderSize) = false ∧
    ∃ (s' : State) (es : List Event),
      EmitFastNewStrictArguments Layout.x64 (Env.sample 0 0) 0 (Value.HeapObject 101)
          (Value.HeapObject 201) State.sample = some (Value.HeapObject 5001, s') ∧
      AllocatedOnce State.sample s' 32 5001 es ∧
      ¬ ∃ es' : List Event,
        AllocatedOnce State.sample s'
          (Layout.x64.JSStrictArgumentsObject_kSize + Layout.x64.FixedArray_kHeaderSize
            + 0 * Layout.x64.kTaggedSize) 5001 es' := by
  obtain ⟨s0, size, es0, h0, a0, _, _, _, _, _, hz⟩ :=
    EmitFastNewStrictArguments_effects Layout.x64 Layout.x64_wellFormed (Env.sample 0 0) 0
      (Value.HeapObject 101) (Value.HeapObject 201) State.sample 1000 0 0 rfl (by decide)
      (by decide) (by decide)
  have hsize : size = 32 := hz rfl
  subst hsize
  refine ⟨by decide, s0, es0, h0, a0, ?_⟩
  rintro ⟨es', ha⟩
  exact absurd (a0.size_eq ha) (by decide)

/-- The stores into the alias map of the sloppy arguments object of a call
with two formal parameters and three arguments: first the index 4 into slot
1 (at 5120), then the index 5 into slot 0 (at 5112). -/
theorem context_index_order_witness :
    Layout.x64.WellFormed ∧
    (Env.sample 3 2).GetArgumentsFrameAndCount (Value.HeapObject 101) (Value.HeapObject 201)
      = { frame := 1000, argument_count := 3, formal_parameter_count := 2 } ∧
    (1 : Int) ≤ 3 ∧ (1 : Int) ≤ 2 ∧
    FixedArraySizeDoesntFitInNewSpace Layout.x64 (3 + (min 3 2 + 2))
      (Layout.x64.JSSloppyArgumentsObject_kSize + Layout.x64.FixedArray_kHeaderSize * 2)
      = false ∧
    (3 : Int) ≤ ((3 : Nat) : Int) ∧
    ∃ s' : State,
      EmitFastNewSloppyArguments Layout.x64 (Env.sample 3 2) 3 (Value.HeapObject 101)
          (Value.HeapObject 201) State.sample = some (Value.HeapObject 5001, s') ∧
      storesFrom 5112 s'.trace = [(5120, Value.Smi 4), (5112, Value.Smi 5)] := by
  obtain ⟨s', h1, h2⟩ := context_index_order Layout.x64 Layout.x64_wellFormed (Env.sample 3 2)
    3 (Value.HeapObject 101) (Value.HeapObject 201) State.sample 1000 3 2 rfl (by decide)
    (by decide) (by decide) (by decide)
  exact ⟨Layout.x64_wellFormed, rfl, by decide, by decide, by decide, by decide, s', h1, h2⟩

/-- For two formal parameters and three arguments the stores into the alias
map are the index 4 into slot 1 first and the index 5 into slot 0 last: not
the index 4 + 2 - 1 = 5 first and the index 4 + 2 - 2 = 4 last. -/
theorem context_index_descending_counterexample :
    ∃ s' : State,
      EmitFastNewSloppyArguments Layout.x64 (Env.sample 3 2) 3 (Value.HeapObject 101)
          (Value.HeapObject 201) State.sample = some (Value.HeapObject 5001, s') ∧
      storesFrom 5112 s'.trace = [(5120, Value.Smi 4), (5112, Value.Smi 5)] ∧
      storesFrom 5112 s'.trace
        ≠ (List.range 2).map (fun k : Nat =>
            (5081 + (OffsetOfElementAt Layout.x64 (2 - 1 - (k : Int) + 2) - 1),
              Value.Smi (Layout.x64.MIN_CONTEXT_SLOTS + 2 - 1 - (k : Int)))) := by
  obtain ⟨s0, h0, hw0⟩ := EmitFastNewSloppyArguments_alias_stores Layout.x64
    Layout.x64_wellFormed (Env.sample 3 2) 3 (Value.HeapObject 101) (Value.HeapObject 201)
    State.sample 1000 3 2 rfl (by decide) (by decide) (by decide) (by decide)
  have hw : storesFrom 5112 s0.trace = [(5120, Value.Smi 4), (5112, Value.Smi 5)] := hw0
  refine ⟨s0, h0, hw, ?_⟩
  rw [hw]
  decide

/-- The context indices of the sloppy arguments object of a call with two
formal parameters and three arguments: 5 in slot 0 and 4 in slot 1, both in
`[4, 6)`. -/
theorem context_indices_distinct_in_bounds_witness :
    Layout.x64.WellFormed ∧
    (Env.sample 3 2).GetArgumentsFrameAndCount (Value.HeapObject 101) (Value.HeapObject 201)
      = { frame := 1000, argument_count := 3, formal_parameter_count := 2 } ∧
    (1 : Int) ≤ 3 ∧ (1 : Int) ≤ 2 ∧
    FixedArraySizeDoesntFitInNewSpace Layout.x64 (3 + (min 3 2 + 2))
      (Layout.x64.JSSloppyArgumentsObject_kSize + Layout.x64.FixedArray_kHeaderSize * 2)
      = false ∧
    (3 : Int) ≤ ((3 : Nat) : Int) ∧
    ∃ s' : State,
      EmitFastNewSloppyArguments Layout.x64 (Env.sample 3 2) 3 (Value.HeapObject 101)
          (Value.HeapObject 201) State.sample = some (Value.HeapObject 5001, s') ∧
      (∃ a : Int, LoadFixedArrayElement Layout.x64 s'.heap 5081 (0 + 2) = some (Value.Smi a) ∧
        4 ≤ a ∧ a < 4 + 2) ∧
      (∃ b : Int, LoadFixedArrayElement Layout.x64 s'.heap 5081 (1 + 2) = some (Value.Smi b) ∧
        4 ≤ b ∧ b < 4 + 2) ∧
      LoadFixedArrayElement Layout.x64 s'.heap 5081 (0 + 2)
        ≠ LoadFixedArrayElement Layout.x64 s'.heap 5081 (1 + 2) := by
  obtain ⟨s', h1, h2, h3⟩ := context_indices_distinct_in_bounds Layout.x64
    Layout.x64_wellFormed (Env.sample 3 2) 3 (Value.HeapObject 101) (Value.HeapObject 201)
    State.sample 1000 3 2 rfl (by decide) (by decide) (by decide) (by decide)
  exact ⟨Layout.x64_wellFormed, rfl, by decide, by decide, by decide, by decide, s', h1,
    h2 0 (by decide) (by decide), h2 1 (by decide) (by decide),
    fun heq => absurd (h3 0 1 (by decide) (by decide) (by decide) (by decide) heq)
      (by decide)⟩

/-- The four ceilings on the example layout, on fuel for all the arguments:
the strict builder builds 16378 arguments inline (after one allocation and
without a runtime call) and hands 16379 to the runtime; the rest builder
does so for 16378 and 16379 rest arguments after one formal parameter; the
sloppy builder for 16377 and 16378 arguments without formal parameters, and
for 16372 and 16373 arguments with one formal parameter. -/
theorem slow_path_iff_ceiling_exceeded_witness :
    Layout.x64.WellFormed ∧
    (Env.sample 16378 0).GetArgumentsFrameAndCount (Value.HeapObject 101) (Value.HeapObject 201)
      = { frame := 1000, argument_count := 16378, formal_parameter_count := 0 } ∧
    (0 : Int) ≤ 16378 ∧ (16378 : Int) ≤ ((16378 : Nat) : Int) ∧
    Int.tdiv (Layout.x64.kMaxRegularHeapObjectSize
      - (Layout.x64.JSStrictArgumentsObject_kSize + Layout.x64.FixedArray_kHeaderSize))
      Layout.x64.kTaggedSize = 16378 ∧
    Int.tdiv (Layout.x64.kMaxRegularHeapObjectSize
      - (Layout.x64.JSArray_kSize + Layout.x64.FixedArray_kHeaderSize))
      Layout.x64.kTaggedSize = 16378 ∧
    Int.tdiv (Layout.x64.kMaxRegularHeapObjectSize
      - (Layout.x64.JSSloppyArgumentsObject_kSize + Layout.x64.FixedArray_kHeaderSize))
      Layout.x64.kTaggedSize = 16377 ∧
    Int.tdiv (Layout.x64.kMaxRegularHeapObjectSize
      - (Layout.x64.JSSloppyArgumentsObject_kSize + 2 * Layout.x64.FixedArray_kHeaderSize))
      Layout.x64.kTaggedSize = 16375 ∧
    (∃ (s' : State) (size : Int) (es : List Event),
      EmitFastNewStrictArguments Layout.x64 (Env.sample 16378 0) 16378 (Value.HeapObject 101)
          (Value.HeapObject 201) State.sample = some (Value.HeapObject 5001, s') ∧
      AllocatedOnce State.sample s' size 5001 es ∧
      NoRuntimeCall State.sample s') ∧
    EmitFastNewStrictArguments Layout.x64 (Env.sample 16379 0) 16379 (Value.HeapObject 101)
        (Value.HeapObject 201) State.sample
      = some (CallRuntime (Env.sample 16379 0) RuntimeFunctionId.kNewStrictArguments
          (Value.HeapObject 101) (Value.HeapObject 201) State.sample) ∧
    (∃ (s' : State) (size : Int) (es : List Event),
      EmitFastNewRestParameter Layout.x64 (Env.sample 16379 1) 16378 (Value.HeapObject 101)
          (Value.HeapObject 201) State.sample = some (Value.HeapObject 5001, s') ∧
      AllocatedOnce State.sample s' size 5001 es ∧
      NoRuntimeCall State.sample s') ∧
    EmitFastNewRestParameter Layout.x64 (Env.sample 16380 1) 16379 (Value.HeapObject 101)
        (Value.HeapObject 201) State.sample
      = some (CallRuntime (Env.sample 16380 1) RuntimeFunctionId.kNewRestParameter
          (Value.HeapObject 101) (Value.HeapObject 201) State.sample) ∧
    (∃ (s' : State) (size : Int) (es : List Event),
      EmitFastNewSloppyArguments Layout.x64 (Env.sample 16377 0) 16377 (Value.HeapObject 101)
          (Value.HeapObject 201) State.sample = some (Value.HeapObject 5001, s') ∧
      AllocatedOnce State.sample s' size 5001 es ∧
      NoRuntimeCall State.sample s') ∧
    EmitFastNewSloppyArguments Layout.x64 (Env.sample 16378 0) 16378 (Value.HeapObject 101)
        (Value.HeapObject 201) State.sample
      = some (CallRuntime (Env.sample 16378 0) RuntimeFunctionId.kNewSloppyArguments
          (Value.HeapObject 101) (Value.HeapObject 201) State.sample) ∧
    (∃ (s' : State) (size : Int) (es : List Event),
      EmitFastNewSloppyArguments Layout.x64 (Env.sample 16372 1) 16372 (Value.HeapObject 101)
          (Value.HeapObject 201) State.sample = some (Value.HeapObject 5001, s') ∧
      AllocatedOnce State.sample s' size 5001 es ∧
      NoRuntimeCall State.sample s') ∧
    EmitFastNewSloppyArguments Layout.x64 (Env.sample 16373 1) 16373 (Value.HeapObject 101)
        (Value.HeapObject 201) State.sample
      = some (CallRuntime (Env.sample 16373 1) RuntimeFunctionId.kNewSloppyArguments
          (Value.HeapObject 101) (Value.HeapObject 201) State.sample) :=
  ⟨Layout.x64_wellFormed, rfl, by decide, by decide, by decide, by decide, by decide,
    by decide,
    (slow_path_iff_ceiling_exceeded Layout.x64 (Env.sample 16378 0) 16378
      (Value.HeapObject 101) (Value.HeapObject 201) State.sample 1000 16378 0 rfl).1.2.2
      (by decide) Layout.x64_wellFormed (by decide) (by decide),
    (slow_path_iff_ceiling_exceeded Layout.x64 (Env.sample 16379 0) 16379
      (Value.HeapObject 101) (Value.HeapObject 201) State.sample 1000 16379 0 rfl).1.1.mpr
      (by decide),
    ((slow_path_iff_ceiling_exceeded Layout.x64 (Env.sample 16379 1) 16378
      (Value.HeapObject 101) (Value.HeapObject 201) State.sample 1000 16379 1 rfl).2.1
      (by decide)).2.2 (by decide) Layout.x64_wellFormed (by decide) (by decide),
    ((slow_path_iff_ceiling_exceeded Layout.x64 (Env.sample 16380 1) 16379
      (Value.HeapObject 101) (Value.HeapObject 201) State.sample 1000 16380 1 rfl).2.1
      (by decide)).1.mpr (by decide),
    ((slow_path_iff_ceiling_exceeded Layout.x64 (Env.sample 16377 0) 16377
      (Value.HeapObject 101) (Value.HeapObject 201) State.sample 1000 16377 0 rfl).2.2.1
      (by decide) rfl).2.2 (by decide) Layout.x64_wellFormed (by decide),
    ((slow_path_iff_ceiling_exceeded Layout.x64 (Env.sample 16378 0) 16378
      (Value.HeapObject 101) (Value.HeapObject 201) State.sample 1000 16378 0 rfl).2.2.1
      (by decide) rfl).1.mpr (by decide),
    ((slow_path_iff_ceiling_exceeded Layout.x64 (Env.sample 16372 1) 16372
      (Value.HeapObject 101) (Value.HeapObject 201) State.sample 1000 16372 1 rfl).2.2.2
      (by decide) (by decide)).2.2 (by decide) Layout.x64_wellFormed (by decide),
    ((slow_path_iff_ceiling_exceeded Layout.x64 (Env.sample 16373 1) 16373
      (Value.HeapObject 101) (Value.HeapObject 201) State.sample 1000 16373 1 rfl).2.2.2
      (by decide) (by decide)).1.mpr (by decide)⟩

end ArgumentsBuiltins
